import Mathlib

/-!
# Service records on an InfiniBand fabric: a model of `service_record.c`

A shallow embedding of the SA query engine, the retry controller, the service
cache and the register / unregister / query workflows of
`src/src/service_record.c` (with `open_port` of `src/src/services.c`), followed
by theorems about them.

Conventions of the embedding.

* C integers are `Int` (signed) or `Nat` (unsigned); conversions that can wrap
  are written out (`to_size_t`, `to_int`, `to_uint32`).
* A byte is a `Nat` below 256; a byte buffer is a `List Nat`.  A C string is the
  list of its bytes before the terminating NUL.
* A `char name[64]` array that the program only ever reads as a C string is
  represented by that string (at most 63 bytes).
* The fabric (the transport, the port and libc's `rand_r`) is a state machine
  `Fabric σ`; every function that talks to it threads a `State σ`, which also
  holds the device structure, and returns a ghost trace of the calls it made.
* Reads the C standard leaves undefined (through a null pointer, or beyond the
  end of a heap buffer) make the function return `Except.error`.
* Heap allocation (`malloc`, `calloc`, `realloc`) is assumed to succeed.
-/

namespace ServiceRecord

/-! ## Constants -/

/-! ### errno values (Linux) -/

def ENOMEM : Int := 12
def ENODEV : Int := 19
def EINVAL : Int := 22
def EPROTO : Int := 71
def ENETDOWN : Int := 100
def ENOBUFS : Int := 105
def ETIMEDOUT : Int := 110
def ECONNREFUSED : Int := 111

/-! ### libibumad and libibverbs constants (`infiniband/umad_types.h`, `umad_sa.h`, `verbs.h`) -/

def UMAD_CLASS_SUBN_ADM : Nat := 0x03
def UMAD_SA_CLASS_VERSION : Nat := 2
def UMAD_METHOD_GET : Int := 0x01
def UMAD_METHOD_SET : Int := 0x02
def UMAD_METHOD_TRAP : Int := 0x05
def UMAD_METHOD_REPORT : Int := 0x06
def UMAD_SA_METHOD_GET_TABLE : Int := 0x12
def UMAD_SA_METHOD_GET_TRACE_TABLE : Int := 0x13
def UMAD_SA_METHOD_GET_MULTI : Int := 0x14
def UMAD_SA_METHOD_DELETE : Int := 0x15
def UMAD_METHOD_RESP_MASK : Nat := 0x80
def UMAD_SA_ATTR_SERVICE_REC : Int := 0x0031
def UMAD_LEN_SA_DATA : Int := 200
def UMAD_QKEY : Nat := 0x80010000
def IBV_PORT_ACTIVE : Nat := 4
def UMAD_CA_NAME_LEN : Nat := 20
/-- Value of `offsetof(struct umad_sa_packet, data)`: the 24-byte MAD header, the
12-byte RMPP header, `sm_key`, `attr_offset`, a reserved word and `comp_mask`. -/
def SA_DATA_OFFSET : Nat := 56
/-- Value of `sizeof(struct umad_sa_packet)`. -/
def SA_PACKET_SIZE : Nat := 256

/-! ### `service_record.h` and `service_record.c` -/

def SR_128_BIT_SIZE : Nat := 128 / 8
def SR_DEV_SERVICE_NAME_MAX : Nat := 64
def SR_DEV_SERVICE_DATA_MAX : Nat := 64
def SR_DEV_MAX_SERVICES : Nat := 4
def SRS_MAX : Nat := 64
/-- The string "sr_default_service_name". -/
def SR_DEFAULT_SERVICE_NAME : List Nat :=
  [115, 114, 95, 100, 101, 102, 97, 117, 108, 116, 95, 115,
   101, 114, 118, 105, 99, 101, 95, 110, 97, 109, 101]
def SR_DEFAULT_SERVICE_ID : Nat := 0x100002c900000002
def SR_DEFAULT_LEASE_TIME : Int := 2000
def SR_DEFAULT_RETRIES : Int := 20
def SR_DEFAULT_PKEY : Nat := 0xffff
def SR_DEFAULT_MKEY : Nat := 1
def SR_DEFAULT_FABRIC_TIMEOUT : Nat := 200
def SR_DEFAULT_QUERY_SLEEP : Int := 500000
def SA_WELL_KNOWN_GUID : Nat := 0x0200000000000002
def IB_GRH_LEN : Int := 40
def SR_DEV_SERVICE_REGISTER_RETRIES : Int := 2
def SR_MAD_SEND_UMAD : Nat := 0
def SR_MAD_SEND_VERBS : Nat := 1
def SR_MAD_SEND_VERBS_DEVX : Nat := 2
def SR_MAD_SEND_LAST : Nat := SR_MAD_SEND_VERBS_DEVX
def SR_HIDE_ERRORS : Nat := 1
/-- The macro `BIT(x)`, `1UL << x`. -/
def BIT (x : Nat) : Nat := (1 <<< x) % 2 ^ 64

/-! ## Integer conversions and bytes -/

/-- Conversion of a C integer to `size_t` (64 bits). -/
def to_size_t (x : Int) : Nat := (x % 2 ^ 64).toNat

/-- Conversion of an unsigned value to `int` (32 bits, two's complement). -/
def to_int (n : Nat) : Int := ((n : Int) + 2 ^ 31) % 2 ^ 32 - 2 ^ 31

/-- Conversion of an `int` to `uint32_t`. -/
def to_uint32 (x : Int) : Nat := (x % 2 ^ 32).toNat

/-- The `w` bytes of `x`, most significant first. -/
def be_bytes : Nat → Nat → List Nat
  | 0, _ => []
  | w + 1, x => (x / 256 ^ w) % 256 :: be_bytes w x

/-- The number a big-endian byte string stands for. -/
def be_value (bs : List Nat) : Nat := bs.foldl (fun acc b => acc * 256 + b) 0

def __cpu_to_be16 (x : Nat) : List Nat := be_bytes 2 x
def __cpu_to_be32 (x : Nat) : List Nat := be_bytes 4 x
def __cpu_to_be64 (x : Nat) : List Nat := be_bytes 8 x
def __be64_to_cpu (bs : List Nat) : Nat := be_value bs

/-- An array of `n` bytes holding `src` from its start: what `memset(dst, 0, n)`
followed by a copy of `src` (cut to `n` bytes) leaves in `dst`. -/
def fit (n : Nat) (src : List Nat) : List Nat :=
  src.take n ++ List.replicate (n - src.length) 0

/-- The C string that starts at the beginning of `mem`: the bytes before the
first NUL; `none` when `mem` ends before a NUL is met. -/
def cstr : List Nat → Option (List Nat)
  | [] => none
  | b :: rest => if b = 0 then some [] else (cstr rest).map (fun s => b :: s)

/-- What `snprintf(dst, size, "%s", s)` leaves in `dst`, read as a C string: `s`
cut to `size - 1` bytes. -/
def snprintf_s (size : Nat) (s : List Nat) : List Nat := s.take (size - 1)

/-- The array `dst` after `snprintf(dst, size, "%s", s)`: the cut string, a NUL,
and the bytes of `dst` behind them as they were. -/
def snprintf_into (dst : List Nat) (size : Nat) (s : List Nat) : List Nat :=
  (snprintf_s size s ++ [0]) ++ dst.drop ((snprintf_s size s).length + 1)

/-- The buffer `dst` after `memcpy(dst, src, n)`, `src` holding at least `n` bytes. -/
def memcpy (dst src : List Nat) (n : Nat) : List Nat := src.take n ++ dst.drop n

/-- Whether `memcmp(a, b, n)` is zero. -/
def memcmp_eq (a b : List Nat) (n : Nat) : Bool := a.take n = b.take n

/-- The final `i` of `for (i = start; i < bound && p(i); ++i);`, run with
`fuel = bound - start`. -/
def scan_while (p : Nat → Bool) (bound : Nat) : Nat → Nat → Nat
  | 0, i => i
  | fuel + 1, i => if i < bound ∧ p i then scan_while p bound fuel (i + 1) else i

/-- The `n` bytes of `mem` from offset `off`; `none` when they are not all there. -/
def read_bytes (mem : List Nat) (off n : Nat) : Option (List Nat) :=
  if off + n ≤ mem.length then some ((mem.drop off).take n) else none

/-! ## Data model -/

/-- Undefined behaviour the model makes explicit. -/
inductive Fault where
  | null_deref
  | out_of_bounds
deriving DecidableEq, Repr

/-- The C `struct sr_dev_service`. -/
structure sr_dev_service where
  id : Nat
  name : List Nat
  data : List Nat
  port_gid : List Nat
  lease : Nat
deriving DecidableEq, Repr

/-- A zero-filled `struct sr_dev_service` (a free cache slot after `memset`). -/
def sr_dev_service.zero : sr_dev_service :=
  { id := 0, name := [], data := List.replicate 64 0, port_gid := List.replicate 16 0, lease := 0 }

/-- The C `struct sr_ib_service_record`, every field as its bytes in memory. -/
structure sr_ib_service_record where
  service_id : List Nat
  service_gid : List Nat
  service_pkey : List Nat
  resv : List Nat
  service_lease : List Nat
  service_key : List Nat
  service_name : List Nat
  service_data : List Nat
deriving DecidableEq, Repr

/-- The record after `memset(record, 0, sizeof(*record))`. -/
def sr_ib_service_record.zero : sr_ib_service_record :=
  { service_id := List.replicate 8 0, service_gid := List.replicate 16 0,
    service_pkey := List.replicate 2 0, resv := List.replicate 2 0,
    service_lease := List.replicate 4 0, service_key := List.replicate 16 0,
    service_name := List.replicate 64 0, service_data := List.replicate 64 0 }

/-- The 176 bytes of a `struct sr_ib_service_record` in memory. -/
def sr_ib_service_record.bytes (r : sr_ib_service_record) : List Nat :=
  fit 8 r.service_id ++ fit 16 r.service_gid ++ fit 2 r.service_pkey ++ fit 2 r.resv ++
    fit 4 r.service_lease ++ fit 16 r.service_key ++ fit 64 r.service_name ++ fit 64 r.service_data

/-- Value of `sizeof(struct sr_ib_service_record)`. -/
def SIZEOF_IB_SERVICE_RECORD : Nat := 176

/-! Offsets of the fields of `struct sr_ib_service_record`. -/

def OFF_SERVICE_ID : Nat := 0
def OFF_SERVICE_GID : Nat := 8
def OFF_SERVICE_KEY : Nat := 32
def OFF_SERVICE_NAME : Nat := 48
def OFF_SERVICE_DATA : Nat := 112

/-- The C `struct umad_sa_packet`, as far as the program uses it: the MAD header
fields, the SA header fields and the attribute data.  Multi-byte header fields
hold their value in host order (what `__be*_to_cpu` gives). -/
structure umad_sa_packet where
  base_version : Nat
  mgmt_class : Nat
  class_version : Nat
  method : Nat
  status : Nat
  tid : Nat
  attr_id : Nat
  sm_key : Nat
  attr_offset : Nat
  comp_mask : Nat
  data : List Nat
deriving DecidableEq, Repr

/-- A zero-filled packet (a `calloc`ed MAD buffer). -/
def umad_sa_packet.zero : umad_sa_packet :=
  { base_version := 0, mgmt_class := 0, class_version := 0, method := 0, status := 0, tid := 0,
    attr_id := 0, sm_key := 0, attr_offset := 0, comp_mask := 0,
    data := List.replicate 200 0 }

/-- The address part of a `struct ib_user_mad` that `umad_dev_sa_query` fills in. -/
structure ib_mad_addr where
  qpn : Nat
  qkey : Nat
  pkey_index : Nat
  lid : Nat
  sl : Nat
  path_bits : Nat
  grh_present : Nat
  gid : List Nat
deriving DecidableEq, Repr

/-- The C `struct sr_dev`; `mad_buf` is the request half of `verbs.mad_buf`. -/
structure sr_dev where
  dev_name : List Nat
  port_num : Int
  port_gid : List Nat
  port_lid : Nat
  port_smlid : Nat
  seed : Nat
  pkey_index : Nat
  service_cache : List sr_dev_service
  fabric_timeout_ms : Nat
  query_sleep : Int
  sa_mkey : Nat
  pkey : Nat
  mad_send_type : Nat
  mad_buf : umad_sa_packet
deriving DecidableEq, Repr

/-- The C `struct sr_ctx`, without the pointer to the device (the device is part
of the `State`). -/
structure sr_ctx where
  sr_lease_time : Int
  sr_retries : Int
  flags : Nat
  service_name : List Nat
  service_id : Nat
deriving DecidableEq, Repr

/-- The fields of libibumad's `umad_port_t` that `open_port` reads. -/
structure umad_port_t where
  ca_name : List Nat
  portnum : Int
  base_lid : Nat
  sm_lid : Nat
  state : Nat
  gid_prefix : List Nat
  port_guid : List Nat
deriving DecidableEq, Repr

/-- The three ways one call of `mad_recv` ends: `ibv_poll_cq` fails, the fabric
timeout passes without a receive completion, or a receive completion of
`byte_len` bytes (GRH included) delivers `mad`. -/
inductive mad_recv_result where
  | poll_failed
  | timed_out
  | completed (mad : umad_sa_packet) (byte_len : Nat)
deriving DecidableEq, Repr

/-- What one round of `umad_recv` (repeated while it asks for a larger buffer)
gives: its return value, `umad_status` of the buffer, the MAD and its length. -/
structure umad_recv_result where
  ret : Int
  status : Int
  mad : umad_sa_packet
  len : Int
deriving DecidableEq, Repr

/-- The fabric and the libraries below the engine, with state `σ`.  Posting a
request also fixes the datagrams the receive calls of that attempt will meet,
in order; once they are used up, receiving times out. -/
structure Fabric (σ : Type) where
  rand_r : Nat → Nat × Nat
  ibv_post_recv : σ → σ × Int
  ibv_post_send : σ → umad_sa_packet → σ × Int × List mad_recv_result
  umad_send : σ → ib_mad_addr → umad_sa_packet → σ × Int × List umad_recv_result
  umad_get_port : σ → Option (List Nat) → Int → σ × Int × umad_port_t
  umad_release_port : σ → σ × Int

/-- The mutable state: the fabric and the device structure. -/
structure State (σ : Type) where
  fab : σ
  dev : sr_dev

/-- Ghost trace of what a call did, in order: `send mad` is a call of `mad_send`
or `umad_send` with the request `mad`, `recv` a call of `mad_recv` or a round of
`umad_recv`, `attempt ret` the return of one `dev_sa_query` with value `ret`,
`free` the release of `*resp_data`, `sleep usec` a call of `usleep`, and
`dev_update ret` a call of `services_dev_update` that returned `ret`. -/
inductive Event where
  | send (mad : umad_sa_packet)
  | recv
  | attempt (ret : Int)
  | free
  | sleep (usec : Int)
  | dev_update (ret : Int)
deriving DecidableEq, Repr

/-- The return values of the attempts in a trace, in order. -/
def attempts (trace : List Event) : List Int :=
  trace.filterMap (fun e => match e with
    | .attempt ret => some ret
    | _ => none)

/-- The return values of the calls of `services_dev_update` in a trace, in order. -/
def updates (trace : List Event) : List Int :=
  trace.filterMap (fun e => match e with
    | .dev_update ret => some ret
    | _ => none)

/-- The requests handed to the transport in a trace, in order. -/
def sends (trace : List Event) : List umad_sa_packet :=
  trace.filterMap (fun e => match e with
    | .send mad => some mad
    | _ => none)

/-- The two output pointers of a query, `void** resp_data` and
`int* resp_attr_size`: `none` is a null pointer, `some v` a pointer to a variable
holding `v` (for `resp_data`, `v = none` is a null `*resp_data`). -/
structure Out where
  resp_data : Option (Option (List Nat))
  resp_attr_size : Option Int
deriving DecidableEq, Repr

/-- What a query returns: the state after it, the C return value, the variables
behind the output pointers, and the trace of the call. -/
structure QueryRes (σ : Type) where
  st : State σ
  ret : Int
  out : Out
  trace : List Event

/-! ## SA query engine: a single attempt -/

def dev_sa_response_method (method : Int) : Int :=
  if method = UMAD_METHOD_GET ∨ method = UMAD_SA_METHOD_GET_TABLE ∨ method = UMAD_METHOD_REPORT ∨
      method = UMAD_METHOD_TRAP ∨ method = UMAD_SA_METHOD_GET_TRACE_TABLE ∨
      method = UMAD_SA_METHOD_GET_MULTI ∨ method = UMAD_SA_METHOD_DELETE then
    method
  else if method = UMAD_METHOD_SET then
    UMAD_METHOD_GET
  else
    -EINVAL

/-- The table `mad_invalid_field_errors`; entry 0 has no initialiser. -/
def mad_invalid_field_errors : List String :=
  ["", "Bad version or class", "Method not supported",
   "Method/attribute combination not supported", "Reserved", "Reserved", "Reserved",
   "Invalid value in one or more fields of attribute or attribute modifier"]

/-- The table `sa_errors`; entry 0 has no initialiser. -/
def sa_errors : List String :=
  ["", "ERR_NO_RESOURCES", "ERR_REQ_INVALID", "ERR_NO_RECORDS", "ERR_TOO_MANY_RECORDS",
   "ERR_REQ_INVALID_GID", "ERR_REQ_INSUFFICIENT_COMPONENTS", "ERR_REQ_DENIED"]

/-- The function `report_sa_err`: the value it returns, the log level, and the two
table entries it logs (`none` when it logs none). -/
def report_sa_err (mad_status : Nat) (hide_errors : Int) : Int × Int × Option String × Option String :=
  let log_level : Int := if hide_errors ≠ 0 then 3 else 1
  let status := ((mad_status >>> 2) &&& 0x7) % 256
  let l1 := if status ≠ 0 then mad_invalid_field_errors[status]? else none
  let sa_status := (mad_status >>> 8) % 256
  let l2 := if sa_status > 0 ∧ sa_status ≤ 7 then sa_errors[sa_status]? else none
  (EPROTO, log_level, l1, l2)

/-- The response test of the receive loop (the body from `match = 1` to the
transaction-ID check, the same in `verbs_dev_sa_query` and `umad_dev_sa_query`).
With `method` an 8-bit field, `method & ~UMAD_METHOD_RESP_MASK` is `method &&& 0x7f`. -/
def sa_match (sa_mad : umad_sa_packet) (response_method : Int) (tid : Nat) : Bool :=
  let m := true
  let m := if sa_mad.mgmt_class ≠ UMAD_CLASS_SUBN_ADM then false else m
  let m := if ((sa_mad.method &&& 0x7f : Nat) : Int) ≠ response_method then false else m
  let m := if sa_mad.method &&& UMAD_METHOD_RESP_MASK = 0 then false else m
  let mad_tid := sa_mad.tid % 2 ^ 32
  let m := if mad_tid ≠ tid then false else m
  m

/-- How the receive loop ends: a receive failed and the query leaves with `ret`,
or `sa_mad` of length `len` matched, `ret` being the last value assigned to the
variable `ret`. -/
inductive Received where
  | failed (ret : Int)
  | matched (sa_mad : umad_sa_packet) (len : Int) (ret : Int)
deriving DecidableEq, Repr

/-- The part of a single attempt after the receive loop (from `Check MAD status`
to `out:`), the same in `verbs_dev_sa_query` and `umad_dev_sa_query`.  The value
of `report_sa_err` is dropped there and `ret` keeps the value it had. -/
def sa_finish (method : Int) (sa_mad : umad_sa_packet) (len : Int) (ret : Int) (out : Out)
    (hide_errors : Int) : Int × Out :=
  let mad_status := sa_mad.status
  if mad_status ≠ 0 then
    let _ := report_sa_err mad_status hide_errors
    (ret, out)
  else if to_size_t len < SA_DATA_OFFSET then
    (-EPROTO, out)
  else
    let data_size := to_size_t (len - SA_DATA_OFFSET)
    let record_size : Int := sa_mad.attr_offset * 8
    let num_records : Int :=
      if method = UMAD_SA_METHOD_GET_TABLE then
        (if record_size ≠ 0 then to_int (data_size / to_size_t record_size) else 0)
      else 1
    let out := match out.resp_data with
      | some _ => { out with resp_data := some (some (sa_mad.data.take data_size)) }
      | none => out
    let out := match out.resp_attr_size with
      | some _ => { out with resp_attr_size := some record_size }
      | none => out
    (num_records, out)

/-- The request both transports build: the header fields set one by one in
`buf`, and `memcpy(sa_mad->data, req_data, req_size)` when `req_data` is given. -/
def sa_request (buf : umad_sa_packet) (dev : sr_dev) (method attr : Int) (tid comp_mask : Nat)
    (req_data : Option (List Nat)) (req_size : Int) : umad_sa_packet :=
  { buf with
    base_version := 1
    mgmt_class := UMAD_CLASS_SUBN_ADM
    class_version := UMAD_SA_CLASS_VERSION
    method := (method % 256).toNat
    tid := tid % 2 ^ 64
    attr_id := (attr % 2 ^ 16).toNat
    sm_key := dev.sa_mkey % 2 ^ 64
    comp_mask := comp_mask % 2 ^ 64
    data := match req_data with
      | some bytes => memcpy buf.data bytes req_size.toNat
      | none => buf.data }

/-- The function `mad_recv`, on what the completion queue brings: the return
value and, on success, the buffer and `wc.byte_len - IB_GRH_LEN` as an `int`. -/
def mad_recv : mad_recv_result → Int × Option (umad_sa_packet × Int)
  | .poll_failed => (-EINVAL, none)
  | .timed_out => (-ETIMEDOUT, none)
  | .completed mad byte_len => (0, some (mad, to_int (to_uint32 ((byte_len : Int) - IB_GRH_LEN))))

/-- The function `mad_send`: post the receive buffer, then the request. -/
def mad_send {σ : Type} (F : Fabric σ) (fab : σ) (mad_buf : umad_sa_packet) :
    σ × Int × List mad_recv_result :=
  let (fab, ret) := F.ibv_post_recv fab
  if ret ≠ 0 then (fab, -1, [])
  else
    let (fab, ret, incoming) := F.ibv_post_send fab mad_buf
    if ret ≠ 0 then (fab, 1, [])
    else (fab, 0, incoming)

/-- The receive loop of `verbs_dev_sa_query`, with the number of `mad_recv` calls. -/
def verbs_recv_loop (response_method : Int) (tid : Nat) : List mad_recv_result → Received × Nat
  | [] => (.failed (mad_recv .timed_out).1, 1)
  | ev :: rest =>
    match mad_recv ev with
    | (ret, none) => (.failed ret, 1)
    | (ret, some (sa_mad, len)) =>
      if ret < 0 then (.failed ret, 1)
      else if sa_match sa_mad response_method tid then (.matched sa_mad len ret, 1)
      else
        let (r, k) := verbs_recv_loop response_method tid rest
        (r, k + 1)

def verbs_dev_sa_query {σ : Type} (F : Fabric σ) (st : State σ) (method attr : Int) (comp_mask : Nat)
    (req_data : Option (List Nat)) (req_size : Int) (out : Out) (hide_errors : Int) : QueryRes σ :=
  if req_size > UMAD_LEN_SA_DATA then
    { st := st, ret := -ENOBUFS, out := out, trace := [] }
  else
    let ret := dev_sa_response_method method
    if ret < 0 then
      { st := st, ret := ret, out := out, trace := [] }
    else
      let response_method := ret
      let (tid, seed) := F.rand_r st.dev.seed
      let sa_mad := sa_request st.dev.mad_buf st.dev method attr tid comp_mask req_data req_size
      let dev := { st.dev with seed := seed, mad_buf := sa_mad }
      let (fab, ret, incoming) := mad_send F st.fab sa_mad
      if ret ≠ 0 then
        { st := { fab := fab, dev := dev }, ret := ret, out := out, trace := [.send sa_mad] }
      else
        match verbs_recv_loop response_method tid incoming with
        | (.failed ret, k) =>
          { st := { fab := fab, dev := dev }, ret := ret, out := out,
            trace := .send sa_mad :: List.replicate k .recv }
        | (.matched sa_mad_resp len ret, k) =>
          let (ret, out) := sa_finish method sa_mad_resp len ret out hide_errors
          { st := { fab := fab, dev := dev }, ret := ret, out := out,
            trace := .send sa_mad :: List.replicate k .recv }

/-- The receive loop of `umad_dev_sa_query`, with the number of receive rounds. -/
def umad_recv_loop (response_method : Int) (tid : Nat) : List umad_recv_result → Received × Nat
  | [] => (.failed (-ETIMEDOUT), 1)
  | ev :: rest =>
    if ev.ret < 0 then (.failed ev.ret, 1)
    else if ev.status < 0 then (.failed (-EPROTO), 1)
    else if sa_match ev.mad response_method tid then (.matched ev.mad ev.len ev.status, 1)
    else
      let (r, k) := umad_recv_loop response_method tid rest
      (r, k + 1)

def umad_dev_sa_query {σ : Type} (F : Fabric σ) (st : State σ) (method attr : Int) (comp_mask : Nat)
    (req_data : Option (List Nat)) (req_size : Int) (out : Out) (hide_errors : Int) : QueryRes σ :=
  if req_size > UMAD_LEN_SA_DATA then
    { st := st, ret := -ENOBUFS, out := out, trace := [] }
  else
    let ret := dev_sa_response_method method
    if ret < 0 then
      { st := st, ret := ret, out := out, trace := [] }
    else
      let response_method := ret
      let (tid, seed) := F.rand_r st.dev.seed
      let dev := { st.dev with seed := seed }
      let addr : ib_mad_addr :=
        { qpn := 1, qkey := UMAD_QKEY, pkey_index := dev.pkey_index, lid := dev.port_smlid, sl := 0,
          path_bits := 0, grh_present := 1,
          gid := dev.port_gid.take 8 ++ __cpu_to_be64 SA_WELL_KNOWN_GUID }
      let sa_mad := sa_request umad_sa_packet.zero dev method attr tid comp_mask req_data req_size
      let (fab, ret, incoming) := F.umad_send st.fab addr sa_mad
      if ret < 0 then
        { st := { fab := fab, dev := dev }, ret := ret, out := out, trace := [.send sa_mad] }
      else
        match umad_recv_loop response_method tid incoming with
        | (.failed ret, k) =>
          { st := { fab := fab, dev := dev }, ret := ret, out := out,
            trace := .send sa_mad :: List.replicate k .recv }
        | (.matched sa_mad_resp len ret, k) =>
          let (ret, out) := sa_finish method sa_mad_resp len ret out hide_errors
          { st := { fab := fab, dev := dev }, ret := ret, out := out,
            trace := .send sa_mad :: List.replicate k .recv }

/-- The function `dev_sa_query`: one attempt over the transport the device is set
to; its trace ends with the mark `Event.attempt ret`. -/
def dev_sa_query {σ : Type} (F : Fabric σ) (st : State σ) (method attr : Int) (comp_mask : Nat)
    (req_data : Option (List Nat)) (req_size : Int) (out : Out) (hide_errors : Int) : QueryRes σ :=
  let r :=
    if st.dev.mad_send_type = SR_MAD_SEND_UMAD then
      umad_dev_sa_query F st method attr comp_mask req_data req_size out hide_errors
    else
      verbs_dev_sa_query F st method attr comp_mask req_data req_size out hide_errors
  { r with trace := r.trace ++ [.attempt r.ret] }

/-! ## Retry controller -/

/-- The function `open_port` of `services.c`. -/
def open_port {σ : Type} (F : Fabric σ) (st : State σ) (port : Int) : State σ × Int :=
  let dev := st.dev
  let dev_name := if dev.dev_name ≠ [] then some dev.dev_name else none
  let (fab, ret, umad_port) := F.umad_get_port st.fab dev_name port
  if ret ≠ 0 then
    ({ fab := fab, dev := { dev with port_num := -1 } }, ret)
  else if umad_port.state ≠ IBV_PORT_ACTIVE then
    let (fab, _) := F.umad_release_port fab
    ({ fab := fab, dev := dev }, -ENETDOWN)
  else if umad_port.sm_lid = 0 ∨ umad_port.sm_lid > 0xBFFF then
    let (fab, _) := F.umad_release_port fab
    ({ fab := fab, dev := dev }, -ECONNREFUSED)
  else
    let dev := { dev with
      port_num := umad_port.portnum
      port_gid := umad_port.gid_prefix.take 8 ++ umad_port.port_guid.take 8
      port_lid := umad_port.base_lid
      port_smlid := umad_port.sm_lid
      dev_name := umad_port.ca_name.take (UMAD_CA_NAME_LEN - 1) }
    let (fab, ret) := F.umad_release_port fab
    ({ fab := fab, dev := dev }, ret)

/-- The function `services_dev_update` of `services.c`. -/
def services_dev_update {σ : Type} (F : Fabric σ) (st : State σ) : State σ × Int :=
  open_port F st st.dev.port_num

/-- The `for (;;)` loop of `dev_sa_query_retries`.  The argument `n` is the value
`retries` has after `retries--` in the first round (0 when that is negative): the
round with `n = 0` leaves the loop by `retries <= 0`. -/
def query_loop {σ : Type} (F : Fabric σ) (method attr : Int) (comp_mask : Nat)
    (req_data : Option (List Nat)) (req_size : Int) (allow_zero : Int) (hide_errors : Int) :
    Nat → State σ → Out → Except Fault (QueryRes σ)
  | 0, st, out => .ok (dev_sa_query F st method attr comp_mask req_data req_size out hide_errors)
  | n + 1, st, out =>
    let r := dev_sa_query F st method attr comp_mask req_data req_size out hide_errors
    if r.ret > 0 ∨ (allow_zero ≠ 0 ∧ r.ret = 0) then .ok r
    else
      let freed : Except Fault (Out × List Event) :=
        if r.ret = 0 then
          match r.out.resp_data with
          | none => .error .null_deref
          | some _ => .ok ({ r.out with resp_data := some none }, [.free])
        else .ok (r.out, [])
      match freed with
      | .error e => .error e
      | .ok (out, ev) =>
        match query_loop F method attr comp_mask req_data req_size allow_zero hide_errors n r.st out with
        | .error e => .error e
        | .ok r2 => .ok { r2 with trace := r.trace ++ ev ++ [.sleep r.st.dev.query_sleep] ++ r2.trace }

/-- The function `dev_sa_query_retries`.  The jump back to `retry:` is taken at
most once (`dev_updated`), so the loop is written out for the first pass and
for the pass after a successful `services_dev_update`. -/
def dev_sa_query_retries {σ : Type} (F : Fabric σ) (st : State σ) (method attr : Int)
    (comp_mask : Nat) (req_data : Option (List Nat)) (req_size : Int) (out : Out)
    (allow_zero : Int) (retries : Int) (hide_errors : Int) : Except Fault (QueryRes σ) :=
  let retries_orig := retries
  match query_loop F method attr comp_mask req_data req_size allow_zero hide_errors
      (retries - 1).toNat st out with
  | .error e => .error e
  | .ok r =>
    if r.ret < 0 ∧ method = UMAD_SA_METHOD_GET_TABLE then
      let (st, updated) := services_dev_update F r.st
      if updated = 0 then
        match query_loop F method attr comp_mask req_data req_size allow_zero hide_errors
            (retries_orig - 1).toNat st r.out with
        | .error e => .error e
        | .ok r2 => .ok { r2 with trace := r.trace ++ [.dev_update updated] ++ r2.trace }
      else .ok { r with st := st, trace := r.trace ++ [.dev_update updated] }
    else .ok r

/-! ## Service cache -/

/-- The slot `dev->service_cache[i]`. -/
def cache_at (cache : List sr_dev_service) (i : Nat) : sr_dev_service :=
  cache.getD i sr_dev_service.zero

/-- The loop of `save_service` from index `i`, with `fuel = SR_DEV_MAX_SERVICES - i`. -/
def save_service_from (service : sr_dev_service) :
    Nat → Nat → List sr_dev_service → List sr_dev_service
  | 0, _, cache => cache
  | fuel + 1, i, cache =>
    if (cache_at cache i).id = service.id ∨ (cache_at cache i).id = 0 then cache.set i service
    else save_service_from service fuel (i + 1) cache

def save_service (dev : sr_dev) (service : sr_dev_service) : sr_dev :=
  { dev with service_cache := save_service_from service SR_DEV_MAX_SERVICES 0 dev.service_cache }

def remove_service (dev : sr_dev) (id : Nat) : sr_dev :=
  let cache := dev.service_cache
  let i := scan_while (fun i => (cache_at cache i).id = id) SR_DEV_MAX_SERVICES SR_DEV_MAX_SERVICES 0
  if i ≥ SR_DEV_MAX_SERVICES then dev
  else
    let j := scan_while (fun j => (cache_at cache j).id ≠ 0) SR_DEV_MAX_SERVICES
      (SR_DEV_MAX_SERVICES - i) i
    if j < SR_DEV_MAX_SERVICES then
      let cache := cache.set i (cache_at cache j)
      let cache := cache.set j { cache_at cache j with id := 0 }
      { dev with service_cache := cache }
    else dev

/-! ## SA packet codec for service records -/

/-- The function `sr_prepare_ib_service_record`: the return value and the
structures behind `sr` and `record` afterwards.  `data` points to `data_size`
bytes; `service_key` is `none` for a null pointer. -/
def sr_prepare_ib_service_record (context : sr_ctx) (dev : sr_dev) (sr : sr_dev_service)
    (record : sr_ib_service_record) (data : List Nat) (data_size : Nat)
    (service_key : Option (List Nat)) : Int × sr_dev_service × sr_ib_service_record :=
  let sr := { sr with id := context.service_id }
  let sr := { sr with name := snprintf_s SR_DEV_SERVICE_NAME_MAX context.service_name }
  let sr := { sr with lease := to_uint32 context.sr_lease_time }
  let sr := { sr with data := List.replicate SR_DEV_SERVICE_DATA_MAX 0 }
  let copy_size := min data_size SR_DEV_SERVICE_DATA_MAX
  if copy_size < data_size then
    (-EINVAL, sr, record)
  else
    let sr := { sr with data := memcpy sr.data data copy_size }
    let record := sr_ib_service_record.zero
    let record := { record with service_id := __cpu_to_be64 sr.id }
    let record := { record with service_pkey := __cpu_to_be16 dev.pkey }
    let record := { record with service_lease := __cpu_to_be32 sr.lease }
    let record := { record with service_name := snprintf_into record.service_name 64 sr.name }
    let record := { record with service_data := memcpy record.service_data sr.data SR_DEV_SERVICE_DATA_MAX }
    let record := { record with service_gid := memcpy record.service_gid dev.port_gid 16 }
    let record := match service_key with
      | some key => { record with service_key := memcpy record.service_key key 16 }
      | none => record
    (0, sr, record)

/-- The function `fill_dev_service_from_ib_service_record`.  `record` is the
memory from the record pointer to the end of the object it points into; a field
that does not lie in it, or a name without a NUL in it, is an out-of-bounds
read. -/
def fill_dev_service_from_ib_service_record (service : sr_dev_service) (record : List Nat) :
    Except Fault sr_dev_service :=
  match read_bytes record OFF_SERVICE_ID 8, cstr (record.drop OFF_SERVICE_NAME),
      read_bytes record OFF_SERVICE_DATA SR_DEV_SERVICE_DATA_MAX,
      read_bytes record OFF_SERVICE_GID 16 with
  | some service_id, some service_name, some service_data, some service_gid =>
    .ok { service with
      id := __be64_to_cpu service_id
      name := snprintf_s SR_DEV_SERVICE_NAME_MAX service_name
      data := service_data
      port_gid := service_gid }
  | _, _, _, _ => .error .out_of_bounds

/-! ## Service lifecycle -/

/-- What the register and unregister requests return: state, return value, trace. -/
structure OpRes (σ : Type) where
  st : State σ
  ret : Int
  trace : List Event

/-- What a query for services returns: state, return value, the `services`
array afterwards, trace. -/
structure GetRes (σ : Type) where
  st : State σ
  ret : Int
  services : List sr_dev_service
  trace : List Event

/-- The component mask of a SET in `dev_register_service`, before the key bit. -/
def register_comp_mask : Nat :=
  BIT 0 ||| BIT 1 ||| BIT 2 ||| BIT 4 ||| BIT 6 ||| BIT 7 ||| BIT 8 ||| BIT 9 ||| BIT 10 |||
    BIT 11 ||| BIT 12 ||| BIT 13 ||| BIT 14 ||| BIT 15 ||| BIT 16 ||| BIT 17 ||| BIT 18 |||
    BIT 19 ||| BIT 19 ||| BIT 20 ||| BIT 21 ||| BIT 22 ||| BIT 23 ||| BIT 24 ||| BIT 25 |||
    BIT 26 ||| BIT 27 ||| BIT 28 ||| BIT 29 ||| BIT 30 ||| BIT 31 ||| BIT 32 ||| BIT 33 |||
    BIT 34 ||| BIT 35 ||| BIT 36

/-- No output pointers (`NULL, NULL`). -/
def Out.null : Out := { resp_data := none, resp_attr_size := none }

def dev_register_service {σ : Type} (F : Fabric σ) (st : State σ) (record : sr_ib_service_record) :
    Except Fault (OpRes σ) :=
  let comp_mask := register_comp_mask
  let comp_mask := if (fit 16 record.service_key).headD 0 ≠ 0 then comp_mask ||| BIT 5 else comp_mask
  match dev_sa_query_retries F st UMAD_METHOD_SET UMAD_SA_ATTR_SERVICE_REC comp_mask
      (some record.bytes) SIZEOF_IB_SERVICE_RECORD Out.null 1 SR_DEV_SERVICE_REGISTER_RETRIES 0 with
  | .error e => .error e
  | .ok r =>
    if r.ret < 0 then .ok { st := r.st, ret := r.ret, trace := r.trace }
    else .ok { st := r.st, ret := 0, trace := r.trace }

def dev_unregister_service {σ : Type} (F : Fabric σ) (st : State σ) (id : Nat)
    (port_gid : Option (List Nat)) (service_key : Option (List Nat)) : Except Fault (OpRes σ) :=
  let comp_mask := BIT 0 ||| BIT 1 ||| BIT 2
  let dev := remove_service st.dev id
  let record := sr_ib_service_record.zero
  let record := { record with service_id := __cpu_to_be64 id }
  let record := { record with service_pkey := __cpu_to_be16 dev.pkey }
  let record := match port_gid with
    | some gid => { record with service_gid := memcpy record.service_gid gid 16 }
    | none => { record with service_gid := memcpy record.service_gid dev.port_gid 16 }
  let (record, comp_mask) := match service_key with
    | some key => ({ record with service_key := memcpy record.service_key key 16 }, comp_mask ||| BIT 5)
    | none => (record, comp_mask)
  match dev_sa_query_retries F { st with dev := dev } UMAD_SA_METHOD_DELETE UMAD_SA_ATTR_SERVICE_REC
      comp_mask (some record.bytes) SIZEOF_IB_SERVICE_RECORD Out.null 1
      SR_DEV_SERVICE_REGISTER_RETRIES 0 with
  | .error e => .error e
  | .ok r =>
    if r.ret < 0 then .ok { st := r.st, ret := r.ret, trace := r.trace }
    else .ok { st := r.st, ret := 0, trace := r.trace }

/-- The copy loop of `dev_get_service` from indices `i`, `j`, with
`fuel = ret - i`: the `services` array and `j` at its end. -/
def dev_get_service_copy (context : sr_ctx) (name : List Nat) (raw_data : Option (List Nat))
    (record_size : Int) (max : Int) (just_copy : Int) :
    Nat → Nat → Nat → List sr_dev_service → Except Fault (List sr_dev_service × Nat)
  | 0, _, j, services => .ok (services, j)
  | fuel + 1, i, j, services =>
    if ¬ ((j : Int) < max) then .ok (services, j)
    else
      match raw_data with
      | none => .error .null_deref
      | some raw =>
        let response := raw.drop ((i : Int) * record_size).toNat
        let wanted : Except Fault Bool :=
          if just_copy ≠ 0 then .ok true
          else match cstr (response.drop OFF_SERVICE_NAME) with
            | none => .error .out_of_bounds
            | some service_name =>
              .ok (service_name.length = name.length ∧ service_name = name)
        match wanted with
        | .error e => .error e
        | .ok false =>
          dev_get_service_copy context name raw_data record_size max just_copy fuel (i + 1) j services
        | .ok true =>
          match services[j]? with
          | none => .error .out_of_bounds
          | some slot =>
            match fill_dev_service_from_ib_service_record slot response with
            | .error e => .error e
            | .ok service =>
              let service := { service with lease := to_uint32 context.sr_lease_time }
              dev_get_service_copy context name raw_data record_size max just_copy fuel (i + 1)
                (j + 1) (services.set j service)

def dev_get_service {σ : Type} (F : Fabric σ) (context : sr_ctx) (st : State σ) (name : List Nat)
    (services : List sr_dev_service) (max : Int) (retries : Int) (just_copy : Int) :
    Except Fault (GetRes σ) :=
  let raw_data : Option (List Nat) := none
  let record_size : Int := 0
  let comp_mask := BIT 0
  let record := sr_ib_service_record.zero
  let _record := { record with service_id := __cpu_to_be64 context.service_id }
  let method :=
    if st.dev.mad_send_type = SR_MAD_SEND_UMAD then UMAD_SA_METHOD_GET_TABLE else UMAD_METHOD_GET
  match dev_sa_query_retries F st method UMAD_SA_ATTR_SERVICE_REC comp_mask none 0
      { resp_data := some raw_data, resp_attr_size := some record_size } 0 retries
      ((context.flags &&& SR_HIDE_ERRORS : Nat) : Int) with
  | .error e => .error e
  | .ok r =>
    if r.ret < 0 then .ok { st := r.st, ret := r.ret, services := services, trace := r.trace }
    else
      match dev_get_service_copy context name (r.out.resp_data.getD none)
          (r.out.resp_attr_size.getD 0) max just_copy r.ret.toNat 0 0 services with
      | .error e => .error e
      | .ok (services, j) => .ok { st := r.st, ret := j, services := services, trace := r.trace }

/-- The inner loop of the sweep in `sr_register_service` from index `i`, with
`fuel = count - i`: the state, the flag `found` and the trace at its end. -/
def sweep_unregister {σ : Type} (F : Fabric σ) (context : sr_ctx)
    (service_key : Option (List Nat)) (old_srs : List sr_dev_service) :
    Nat → Nat → State σ → Int → Except Fault (State σ × Int × List Event)
  | 0, _, st, found => .ok (st, found, [])
  | fuel + 1, i, st, found =>
    match old_srs[i]? with
    | none => .error .out_of_bounds
    | some old_sr =>
      if old_sr.id = context.service_id ∧ memcmp_eq old_sr.port_gid st.dev.port_gid 16 then
        sweep_unregister F context service_key old_srs fuel (i + 1) st found
      else
        let found := 1
        match dev_unregister_service F st old_sr.id (some old_sr.port_gid) service_key with
        | .error e => .error e
        | .ok r =>
          match sweep_unregister F context service_key old_srs fuel (i + 1) r.st found with
          | .error e => .error e
          | .ok (st, found, trace) => .ok (st, found, r.trace ++ trace)

/-- The outer loop of the sweep in `sr_register_service`, entered with `found`
set, with `fuel = sr_retries - retry`. -/
def sweep_rounds {σ : Type} (F : Fabric σ) (context : sr_ctx) (service_key : Option (List Nat)) :
    Nat → State σ → List sr_dev_service → Except Fault (State σ × List Event)
  | 0, st, _ => .ok (st, [])
  | fuel + 1, st, old_srs =>
    match dev_get_service F context st context.service_name old_srs SRS_MAX context.sr_retries 0 with
    | .error e => .error e
    | .ok g =>
      let count := g.ret
      let found := 0
      match sweep_unregister F context service_key g.services count.toNat 0 g.st found with
      | .error e => .error e
      | .ok (st, found, trace) =>
        if found ≠ 0 then
          match sweep_rounds F context service_key fuel st g.services with
          | .error e => .error e
          | .ok (st, trace2) => .ok (st, g.trace ++ trace ++ trace2)
        else .ok (st, g.trace ++ trace)

/-- The function `sr_register_service`.  Its local variables are not given a value
before use, so what they hold on entry (`old_srs`, `service`, `record`) is an
argument. -/
def sr_register_service {σ : Type} (F : Fabric σ) (context : sr_ctx) (st : State σ)
    (data : List Nat) (data_size : Nat) (service_key : Option (List Nat))
    (old_srs : List sr_dev_service) (service : sr_dev_service) (record : sr_ib_service_record) :
    Except Fault (OpRes σ) :=
  let (ret, service, record) :=
    sr_prepare_ib_service_record context st.dev service record data data_size service_key
  if ret < 0 then .ok { st := st, ret := ret, trace := [] }
  else
    match dev_register_service F st record with
    | .error e => .error e
    | .ok r =>
      if r.ret < 0 then .ok { st := r.st, ret := r.ret, trace := r.trace }
      else
        let st := { r.st with dev := save_service r.st.dev service }
        match sweep_rounds F context service_key context.sr_retries.toNat st old_srs with
        | .error e => .error e
        | .ok (st, trace) => .ok { st := st, ret := 0, trace := r.trace ++ trace }

/-- The loop of `sr_unregister_service` from index `i`, with `fuel = count - i`. -/
def unregister_matching {σ : Type} (F : Fabric σ) (context : sr_ctx)
    (service_key : Option (List Nat)) (old_srs : List sr_dev_service) :
    Nat → Nat → State σ → Int → Except Fault (State σ × Int × List Event)
  | 0, _, st, result => .ok (st, result, [])
  | fuel + 1, i, st, result =>
    match old_srs[i]? with
    | none => .error .out_of_bounds
    | some old_sr =>
      if old_sr.id = context.service_id then
        match dev_unregister_service F st old_sr.id (some old_sr.port_gid) service_key with
        | .error e => .error e
        | .ok r =>
          let result := if r.ret < 0 then result + 1 else result
          match unregister_matching F context service_key old_srs fuel (i + 1) r.st result with
          | .error e => .error e
          | .ok (st, result, trace) => .ok (st, result, r.trace ++ trace)
      else unregister_matching F context service_key old_srs fuel (i + 1) st result

/-- The function `sr_unregister_service`; `old_srs` is what its local array holds
on entry. -/
def sr_unregister_service {σ : Type} (F : Fabric σ) (context : sr_ctx) (st : State σ)
    (service_key : Option (List Nat)) (old_srs : List sr_dev_service) : Except Fault (OpRes σ) :=
  let result := 0
  match dev_get_service F context st context.service_name old_srs SRS_MAX context.sr_retries 0 with
  | .error e => .error e
  | .ok g =>
    let count := g.ret
    match unregister_matching F context service_key g.services count.toNat 0 g.st result with
    | .error e => .error e
    | .ok (st, result, trace) => .ok { st := st, ret := result, trace := g.trace ++ trace }

def sr_query_service {σ : Type} (F : Fabric σ) (context : sr_ctx) (st : State σ)
    (srs : List sr_dev_service) (srs_num : Int) (retries : Int) : Except Fault (GetRes σ) :=
  let try_ := if retries < 0 then SR_DEFAULT_RETRIES else retries
  dev_get_service F context st context.service_name srs srs_num try_ 0

/-! ## Session creation -/

/-- The C `struct sr_config`; `service_name` is `none` for a null pointer. -/
structure sr_config where
  sr_lease_time : Int
  sr_retries : Int
  query_sleep : Int
  sa_mkey : Nat
  pkey : Nat
  fabric_timeout_ms : Nat
  pkey_index : Nat
  mad_send_type : Nat
  flags : Nat
  service_name : Option (List Nat)
  service_id : Nat
deriving DecidableEq, Repr

/-- A zero-filled `struct sr_dev` (after `calloc`). -/
def sr_dev.zero : sr_dev :=
  { dev_name := [], port_num := 0, port_gid := List.replicate 16 0, port_lid := 0, port_smlid := 0,
    seed := 0, pkey_index := 0,
    service_cache := List.replicate SR_DEV_MAX_SERVICES sr_dev_service.zero,
    fabric_timeout_ms := 0, query_sleep := 0, sa_mkey := 0, pkey := 0, mad_send_type := 0,
    mad_buf := umad_sa_packet.zero }

/-- What `sr_init` returns: the return value, the session stored through
`context` on success, whether `services_dev_init` was called, and whether the
exit went through `sr_cleanup` (the label `err`), which calls
`services_dev_cleanup` on the device structure. -/
structure InitRes (σ : Type) where
  ret : Int
  session : Option (sr_ctx × State σ)
  dev_init_called : Bool
  cleanup_called : Bool

/-- The settings part of `sr_init`: the default values, then the values of the
configuration that are not zero (`conf` is `none` for a null pointer).  An error
is the value `sr_init` returns through the label `err`. -/
def sr_init_settings (conf : Option sr_config) : Except Int (sr_ctx × sr_dev) :=
  let ctx : sr_ctx :=
    { sr_lease_time := SR_DEFAULT_LEASE_TIME, sr_retries := SR_DEFAULT_RETRIES, flags := 0,
      service_name := SR_DEFAULT_SERVICE_NAME, service_id := SR_DEFAULT_SERVICE_ID }
  let dev : sr_dev :=
    { sr_dev.zero with
      query_sleep := SR_DEFAULT_QUERY_SLEEP, sa_mkey := SR_DEFAULT_MKEY, pkey := SR_DEFAULT_PKEY,
      fabric_timeout_ms := SR_DEFAULT_FABRIC_TIMEOUT, pkey_index := 0 }
  match conf with
  | none => .ok (ctx, dev)
  | some conf =>
    let named : Except Int sr_ctx :=
      match conf.service_name with
      | some service_name =>
        let name_len := service_name.length
        if name_len ≥ SR_DEV_SERVICE_NAME_MAX then .error (-EINVAL)
        else .ok { ctx with service_name := service_name.take SR_DEV_SERVICE_NAME_MAX }
      | none => .ok ctx
    match named with
    | .error ret => .error ret
    | .ok ctx =>
      let ctx := if conf.sr_lease_time ≠ 0 then { ctx with sr_lease_time := conf.sr_lease_time } else ctx
      let ctx := if conf.sr_retries ≠ 0 then { ctx with sr_retries := conf.sr_retries } else ctx
      let dev := if conf.query_sleep ≠ 0 then { dev with query_sleep := conf.query_sleep } else dev
      let dev := if conf.sa_mkey ≠ 0 then { dev with sa_mkey := conf.sa_mkey } else dev
      let dev := if conf.pkey ≠ 0 then { dev with pkey := conf.pkey } else dev
      let dev := if conf.fabric_timeout_ms ≠ 0 then
        { dev with fabric_timeout_ms := conf.fabric_timeout_ms } else dev
      let dev := if conf.pkey_index ≠ 0 then { dev with pkey_index := conf.pkey_index } else dev
      let ctx := if conf.service_id ≠ 0 then { ctx with service_id := conf.service_id } else ctx
      if conf.mad_send_type ≠ 0 ∧ conf.mad_send_type > SR_MAD_SEND_LAST then .error (-EINVAL)
      else
        let dev := if conf.mad_send_type ≠ 0 then
          { dev with mad_send_type := conf.mad_send_type } else dev
        let ctx := if conf.flags ≠ 0 then { ctx with flags := conf.flags } else ctx
        .ok (ctx, dev)

/-- The function `sr_init`.  `context_given` and `log_func_given` tell whether
those pointers are non-null, `timer` is the value of `get_timer()`, and
`services_dev_init` (device bring-up, `services.c`) is an argument: it gives its
return value and the device as it leaves it.  The allocations (`calloc`,
`strdup`, `strndup`) are taken to succeed. -/
def sr_init {σ : Type} (services_dev_init : σ → sr_dev → List Nat → Int → σ × Int × sr_dev)
    (fab : σ) (context_given : Bool) (dev_name : Option (List Nat)) (port : Int)
    (log_func_given : Bool) (conf : Option sr_config) (timer : Nat) : InitRes σ :=
  match context_given, dev_name with
  | true, some dev_name =>
    if port < 0 then
      { ret := -EINVAL, session := none, dev_init_called := false, cleanup_called := false }
    else if ¬ log_func_given then
      { ret := -EINVAL, session := none, dev_init_called := false, cleanup_called := true }
    else
      match sr_init_settings conf with
      | .error ret =>
        { ret := ret, session := none, dev_init_called := false, cleanup_called := true }
      | .ok (ctx, dev) =>
        let dev := { dev with seed := timer % 2 ^ 32 }
        let dev := { dev with
          service_cache := List.replicate SR_DEV_MAX_SERVICES sr_dev_service.zero }
        let (fab, ret, dev) := services_dev_init fab dev dev_name port
        if ret ≠ 0 then
          { ret := ret, session := none, dev_init_called := true, cleanup_called := true }
        else
          { ret := 0, session := some (ctx, { fab := fab, dev := dev }), dev_init_called := true,
            cleanup_called := false }
  | _, _ => { ret := -EINVAL, session := none, dev_init_called := false, cleanup_called := false }

/-! ## Device bring-up (`services.c`) -/

/-- What device bring-up meets below `open_port`: the CA names that
`umad_get_cas_names` finds (`.error errno` when it fails), and the return values
of `ib_open_port` (verbs resources) and `dev_sa_init` (UMAD port and agent) for a
device. -/
structure Bringup (σ : Type) where
  umad_get_cas_names : σ → σ × Except Int (List (List Nat))
  ib_open_port : σ → sr_dev → Int → σ × Int
  dev_sa_init : σ → sr_dev → σ × Int

/-- The loop of `services_dev_init` over the CA names left, `dev_name` being
non-null.  A successful `ib_open_port` leaves a zero-filled MAD buffer. -/
def services_dev_init_from {σ : Type} (F : Fabric σ) (B : Bringup σ) (dev_name : List Nat)
    (port : Int) : List (List Nat) → σ → sr_dev → σ × Int × sr_dev
  | [], fab, _dev => (fab, -ENODEV, _dev)
  | ca_name :: rest, fab, dev =>
    if dev_name.length = 0 ∨ ca_name = dev_name then
      let dev := { dev with dev_name := dev_name.take (UMAD_CA_NAME_LEN - 1) }
      let (st, ret) := open_port F { fab := fab, dev := dev } port
      if ret = 0 then
        if st.dev.mad_send_type = SR_MAD_SEND_VERBS ∨
            st.dev.mad_send_type = SR_MAD_SEND_VERBS_DEVX then
          let (fab, ret) := B.ib_open_port st.fab st.dev port
          if ret = 0 then (fab, 0, { st.dev with mad_buf := umad_sa_packet.zero })
          else services_dev_init_from F B dev_name port rest fab st.dev
        else
          let (fab, ret) := B.dev_sa_init st.fab st.dev
          if ret = 0 then (fab, 0, st.dev)
          else services_dev_init_from F B dev_name port rest fab st.dev
      else services_dev_init_from F B dev_name port rest st.fab st.dev
    else services_dev_init_from F B dev_name port rest fab dev

/-- The function `services_dev_init`, as `sr_init` calls it (with a non-null
`dev_name`). -/
def services_dev_init {σ : Type} (F : Fabric σ) (B : Bringup σ) (fab : σ) (dev : sr_dev)
    (dev_name : List Nat) (port : Int) : σ × Int × sr_dev :=
  match B.umad_get_cas_names fab with
  | (fab, .error errno) => (fab, -errno, dev)
  | (fab, .ok ca_names) => services_dev_init_from F B dev_name port ca_names fab dev

/-! ## Auxiliary notions for the theorems -/

/-- The methods `dev_sa_response_method` maps to themselves. -/
def supported_methods : List Int :=
  [UMAD_METHOD_GET, UMAD_SA_METHOD_GET_TABLE, UMAD_METHOD_REPORT, UMAD_METHOD_TRAP,
   UMAD_SA_METHOD_GET_TRACE_TABLE, UMAD_SA_METHOD_GET_MULTI, UMAD_SA_METHOD_DELETE]

/-- A trace of transport calls only. -/
def transport_only (trace : List Event) : Prop :=
  ∀ e ∈ trace, e = .recv ∨ ∃ mad, e = .send mad

/-- The retry loop leaves at an attempt that returns `ret`, whatever budget is
left: a positive count, or zero records when `allow_zero` is set. -/
def stops (allow_zero : Int) (ret : Int) : Prop := ret > 0 ∨ (allow_zero ≠ 0 ∧ ret = 0)

/-- The arguments of the `usleep` calls in a trace, in order. -/
def sleeps (trace : List Event) : List Int :=
  trace.filterMap (fun e => match e with
    | .sleep usec => some usec
    | _ => none)

/-! ## Sample devices, sessions and fabrics -/

/-- A device with an empty cache, set to the given transport. -/
def sample_dev (mad_send_type : Nat) : sr_dev :=
  { dev_name := [], port_num := 1, port_gid := List.replicate 16 7, port_lid := 1, port_smlid := 2,
    seed := 5, pkey_index := 0,
    service_cache := List.replicate SR_DEV_MAX_SERVICES sr_dev_service.zero,
    fabric_timeout_ms := SR_DEFAULT_FABRIC_TIMEOUT, query_sleep := SR_DEFAULT_QUERY_SLEEP,
    sa_mkey := SR_DEFAULT_MKEY, pkey := SR_DEFAULT_PKEY, mad_send_type := mad_send_type,
    mad_buf := umad_sa_packet.zero }

/-- A session for the service "svc-a" with the default service ID and the given
retry count. -/
def sample_ctx (sr_retries : Int) : sr_ctx :=
  { sr_lease_time := SR_DEFAULT_LEASE_TIME, sr_retries := sr_retries, flags := 0,
    service_name := [115, 118, 99, 45, 97], service_id := SR_DEFAULT_SERVICE_ID }

/-- A cache entry with the given ID. -/
def sample_service (id : Nat) : sr_dev_service :=
  { sr_dev_service.zero with id := id, name := [115, 118, 99] }

/-- A device whose cache holds the given entries, then free slots. -/
def sample_dev_with (entries : List sr_dev_service) : sr_dev :=
  { sample_dev SR_MAD_SEND_UMAD with
    service_cache := (entries ++ List.replicate SR_DEV_MAX_SERVICES sr_dev_service.zero).take
      SR_DEV_MAX_SERVICES }

/-- An active port with a subnet manager, as `umad_get_port` reports it. -/
def sample_port : umad_port_t :=
  { ca_name := [109, 108, 120, 53], portnum := 1, base_lid := 1, sm_lid := 2,
    state := IBV_PORT_ACTIVE, gid_prefix := List.replicate 8 7, port_guid := List.replicate 8 7 }

/-- A fabric on which every post succeeds, the port is active, and a request `mad`
is answered by the datagram `reply mad` with its length, or not at all. -/
def sample_fabric (reply : umad_sa_packet → Option (umad_sa_packet × Nat)) : Fabric Unit :=
  { rand_r := fun seed => (seed, seed + 1)
    ibv_post_recv := fun s => (s, 0)
    ibv_post_send := fun s mad =>
      (s, 0, match reply mad with
        | some (resp, len) => [.completed resp (len + 40)]
        | none => [])
    umad_send := fun s _ mad =>
      (s, 0, match reply mad with
        | some (resp, len) => [{ ret := 0, status := 0, mad := resp, len := len }]
        | none => [])
    umad_get_port := fun s _ _ => (s, 0, sample_port)
    umad_release_port := fun s => (s, 0) }

/-- The response header to a request: response bit set, GET as the response
method of SET, the transaction ID of the request. -/
def response_to (mad : umad_sa_packet) : umad_sa_packet :=
  { mad with method := (if mad.method = 2 then 1 else mad.method) ||| 0x80 }

/-- A subnet administrator that turns every request down with SA status 7
(request denied). -/
def denying_fabric : Fabric Unit :=
  sample_fabric (fun mad => some ({ response_to mad with status := 0x0700 }, 256))

/-- A fabric on which no request is answered. -/
def silent_fabric : Fabric Unit := sample_fabric (fun _ => none)

/-- A subnet administrator that answers every request with a table of no record:
records of 176 bytes (`attr_offset` 22) and a payload of 8 bytes. -/
def empty_table_fabric : Fabric Unit :=
  sample_fabric (fun mad =>
    some ({ response_to mad with attr_offset := 22, data := List.replicate 8 0 }, 64))

/-- A verbs fabric, its state counting the calls of `ibv_post_send`, on which the
first call fails with `ENOMEM` and later requests are posted but never answered. -/
def first_post_failing_fabric : Fabric Nat :=
  { rand_r := fun seed => (seed, seed + 1)
    ibv_post_recv := fun s => (s, 0)
    ibv_post_send := fun s _ => (s + 1, if s = 0 then ENOMEM else 0, [])
    umad_send := fun s _ _ => (s, 0, [])
    umad_get_port := fun s _ _ => (s, 0, sample_port)
    umad_release_port := fun s => (s, 0) }

/-- A GET response of the Subnet Administration class with transaction ID 5. -/
def sample_response : umad_sa_packet :=
  { umad_sa_packet.zero with mgmt_class := UMAD_CLASS_SUBN_ADM, method := 0x81, tid := 5 }

/-- Output pointers to a null `raw_data` and a zero `record_size`, as
`dev_get_service` passes them. -/
def sample_out : Out := { resp_data := some none, resp_attr_size := some 0 }

/-- A payload of ten bytes. -/
def sample_payload : List Nat := [1, 2, 3, 4, 5, 6, 7, 8, 9, 10]

/-! ## Notions and samples for the cache and the service lifecycle -/

/-- Every request of a trace was built by `sa_request` from the given arguments. -/
def requests_are (method attr : Int) (comp_mask : Nat) (req_data : Option (List Nat))
    (req_size : Int) (trace : List Event) : Prop :=
  ∀ m ∈ sends trace,
    ∃ buf dev tid, m = sa_request buf dev method attr tid comp_mask req_data req_size

/-- The number of populated slots (`id != 0`) of a cache. -/
def populated (cache : List sr_dev_service) : Nat :=
  cache.countP (fun s => decide (s.id ≠ 0))

/-- The IDs held by the slots of a cache, in order. -/
def cache_ids (cache : List sr_dev_service) : List Nat := cache.map (fun s => s.id)

/-- Whether the scan of `save_service` stops at slot `i` for a record with ID `id`. -/
def save_stops (cache : List sr_dev_service) (id : Nat) (i : Nat) : Prop :=
  (cache_at cache i).id = id ∨ (cache_at cache i).id = 0

/-- The device reached from the empty cache by saving IDs 7 and 5 and then
removing ID 5. -/
def holed_dev : sr_dev :=
  remove_service (save_service (save_service (sample_dev SR_MAD_SEND_UMAD) (sample_service 7))
    (sample_service 5)) 5

/-- A second record with ID 5, under another name. -/
def renamed_service : sr_dev_service := { sample_service 5 with name := [110, 101, 119] }

/-- The subnet administrator of the simulated fabric: its table of registered
records (176 bytes each) and what a request makes of it.  A SET stores the record
of the request, in place of a record with the same ID, GID and pkey (the first 26
bytes); a GET_TABLE is answered with the whole table; a DELETE removes the
records with the ID, GID and pkey of the request.  A request of another method
is not answered. -/
def sim_reply (table : List (List Nat)) (mad : umad_sa_packet) :
    List (List Nat) × List umad_recv_result :=
  if mad.method = 0x02 then
    (table.filter (fun r => ¬ (r.take 26 = mad.data.take 26)) ++ [mad.data.take 176],
      [{ ret := 0, status := 0, mad := { response_to mad with attr_offset := 22 },
         len := 56 + 176 }])
  else if mad.method = 0x12 then
    (table, [{ ret := 0, status := 0,
               mad := { response_to mad with attr_offset := 22, data := table.flatten },
               len := 56 + 176 * table.length }])
  else if mad.method = 0x15 then
    (table.filter (fun r => ¬ (r.take 26 = mad.data.take 26)),
      [{ ret := 0, status := 0, mad := response_to mad, len := 56 + 176 }])
  else (table, [])

/-- A simulated fabric over UMAD whose state is the table of the subnet
administrator. -/
def sim_fabric : Fabric (List (List Nat)) :=
  { rand_r := fun seed => (seed, seed + 1)
    ibv_post_recv := fun s => (s, 0)
    ibv_post_send := fun s _ => (s, 0, [])
    umad_send := fun s _ mad => ((sim_reply s mad).1, 0, (sim_reply s mad).2)
    umad_get_port := fun s _ _ => (s, 0, sample_port)
    umad_release_port := fun s => (s, 0) }

/-- A result array of `SRS_MAX` blank entries. -/
def blank_srs : List sr_dev_service := List.replicate SRS_MAX sr_dev_service.zero

/-- The record a session with service ID `id` and the name "svc-a" registers from
a port whose GID is sixteen times the byte `g`. -/
def registered_record (id g : Nat) : List Nat :=
  (sr_prepare_ib_service_record { sample_ctx 20 with service_id := id }
    { sample_dev SR_MAD_SEND_UMAD with port_gid := List.replicate 16 g } sr_dev_service.zero
    sr_ib_service_record.zero sample_payload 10 none).2.2.bytes

/-- The session "svc-a" registers ten bytes of payload on the simulated fabric,
whose table holds `table` before, and then queries its service name. -/
def register_then_query (table : List (List Nat)) :
    Except Fault (OpRes (List (List Nat)) × GetRes (List (List Nat))) :=
  match sr_register_service sim_fabric (sample_ctx 20) ⟨table, sample_dev SR_MAD_SEND_UMAD⟩
      sample_payload 10 none blank_srs sr_dev_service.zero sr_ib_service_record.zero with
  | .error e => .error e
  | .ok r =>
    match sr_query_service sim_fabric (sample_ctx 20) r.st blank_srs SRS_MAX (-1) with
    | .error e => .error e
    | .ok g => .ok (r, g)

/-- The session "svc-a" registers, queries and unregisters on the simulated
fabric, starting from an empty table. -/
def register_query_unregister :
    Except Fault (OpRes (List (List Nat)) × GetRes (List (List Nat)) × OpRes (List (List Nat))) :=
  match register_then_query [] with
  | .error e => .error e
  | .ok (r, g) =>
    match sr_unregister_service sim_fabric (sample_ctx 20) g.st none blank_srs with
    | .error e => .error e
    | .ok u => .ok (r, g, u)

/-- The DELETE requests of a trace, each as the ID and the GID of its record. -/
def deletes (trace : List Event) : List (Nat × List Nat) :=
  ((sends trace).filter (fun m => m.method = 0x15)).map
    (fun m => (be_value (m.data.take 8), (m.data.drop 8).take 16))

/-- Unregister the records of a list one after the other, each by
`dev_unregister_service` with the ID and the port GID of the record, going on
whatever a call returned: the state at the end, the return values of the calls
and the trace. -/
def unregister_each {σ : Type} (F : Fabric σ) (service_key : Option (List Nat)) :
    List sr_dev_service → State σ → Except Fault (State σ × List Int × List Event)
  | [], st => .ok (st, [], [])
  | old_sr :: rest, st =>
    match dev_unregister_service F st old_sr.id (some old_sr.port_gid) service_key with
    | .error e => .error e
    | .ok r =>
      match unregister_each F service_key rest r.st with
      | .error e => .error e
      | .ok (st, rets, trace) => .ok (st, r.ret :: rets, r.trace ++ trace)

/-- The number of negative values in a list of return values. -/
def failures (rets : List Int) : Int := ((rets.filter (fun x => x < 0)).length : Int)

/-- A table with the session's own registration and one of the same name under
the service ID 9. -/
def sample_table : List (List Nat) :=
  [registered_record SR_DEFAULT_SERVICE_ID 7, registered_record 9 1]

/-- What `dev_get_service` returns to `sr_unregister_service` on the simulated
fabric with the table `sample_table`. -/
def sample_query_result : GetRes (List (List Nat)) :=
  match dev_get_service sim_fabric (sample_ctx 20) ⟨sample_table, sample_dev SR_MAD_SEND_UMAD⟩
      (sample_ctx 20).service_name blank_srs SRS_MAX (sample_ctx 20).sr_retries 0 with
  | .ok g => g
  | .error _ => { st := ⟨[], sample_dev SR_MAD_SEND_UMAD⟩, ret := -1, services := [], trace := [] }

/-! ## Notions and samples for queries and session creation -/

/-- A fabric on which every request is answered by a matching response of status
zero with attribute offset `a`, data `data` and `p` bytes after the SA header. -/
def answering_fabric (a : Nat) (data : List Nat) (p : Nat) : Fabric Unit :=
  sample_fabric (fun mad =>
    some ({ response_to mad with status := 0, attr_offset := a, data := data }, 56 + p))

/-- A subnet administrator that answers every request with the three
registrations of "svc-a" under the port GIDs 1...1, 2...2 and 3...3. -/
def three_record_fabric : Fabric Unit :=
  answering_fabric 22
    (registered_record SR_DEFAULT_SERVICE_ID 1 ++ registered_record SR_DEFAULT_SERVICE_ID 2 ++
      registered_record SR_DEFAULT_SERVICE_ID 3) (3 * 176)

/-- Device bring-up that finds the one CA "mlx5" and succeeds. -/
def sample_bringup : Bringup Unit :=
  { umad_get_cas_names := fun s => (s, .ok [[109, 108, 120, 53]])
    ib_open_port := fun s _ _ => (s, 0)
    dev_sa_init := fun s _ => (s, 0) }

/-- A configuration that sets the lease time, the pkey, the service name "svc-a"
and the verbs transport, and leaves the other settings at zero. -/
def sample_config : sr_config :=
  { sr_lease_time := 30, sr_retries := 0, query_sleep := 0, sa_mkey := 0, pkey := 0x7fff,
    fabric_timeout_ms := 0, pkey_index := 0, mad_send_type := SR_MAD_SEND_VERBS, flags := 0,
    service_name := some [115, 118, 99, 45, 97], service_id := 0 }

/-- The subnet administrator of the simulated fabric, except that it turns every
DELETE down: the response to a DELETE has SA status 7 (request denied, status
field 0x0700) and the table stays as it is. -/
def deny_delete_reply (table : List (List Nat)) (mad : umad_sa_packet) :
    List (List Nat) × List umad_recv_result :=
  if mad.method = 0x15 then
    (table, [{ ret := 0, status := 0, mad := { response_to mad with status := 0x0700 },
               len := 56 + 176 }])
  else sim_reply table mad

/-- The simulated fabric with a subnet administrator that turns every DELETE
down. -/
def deny_delete_fabric : Fabric (List (List Nat)) :=
  { sim_fabric with
    umad_send := fun s _ mad => ((deny_delete_reply s mad).1, 0, (deny_delete_reply s mad).2) }

/-! ## Theorems -/

theorem and_0x7f (x : Nat) : x &&& 0x7f = x % 128 := by
  have h := Nat.and_pow_two_sub_one_eq_mod x 7
  simpa using h

theorem and_0x80_eq_zero (x : Nat) : x &&& 0x80 = 0 ↔ x.testBit 7 = false := by
  have h := Nat.and_two_pow x 7
  have h2 : x &&& 128 = (x.testBit 7).toNat * 128 := by simpa using h
  show x &&& 128 = 0 ↔ _
  rw [h2]
  cases x.testBit 7 <;> simp

/-- The response test holds exactly when the class is Subnet Administration, the
method without its response bit is the expected one, the response bit is set and
the low 32 bits of the transaction ID are the ID sent. -/
theorem sa_match_iff (sa_mad : umad_sa_packet) (response_method : Int) (tid : Nat) :
    sa_match sa_mad response_method tid = true ↔
      sa_mad.mgmt_class = UMAD_CLASS_SUBN_ADM ∧
      ((sa_mad.method % 128 : Nat) : Int) = response_method ∧
      sa_mad.method.testBit 7 = true ∧
      sa_mad.tid % 2 ^ 32 = tid := by
  unfold sa_match
  simp only [UMAD_METHOD_RESP_MASK, and_0x7f, and_0x80_eq_zero]
  by_cases h1 : sa_mad.mgmt_class = UMAD_CLASS_SUBN_ADM <;>
  by_cases h2 : ((sa_mad.method % 128 : Nat) : Int) = response_method <;>
  by_cases h3 : sa_mad.method.testBit 7 = true <;>
  by_cases h4 : sa_mad.tid % 2 ^ 32 = tid <;>
  simp [h1, h2, h3, h4] <;> tauto

/-- Claim C3: in the receive loop of either transport, a received datagram ends the
loop as the match if and only if its class is Subnet Administration, its method
with the response bit masked off is the expected response method, its response
bit is set and the low 32 bits of its transaction ID are the ID sent; any other
datagram is dropped and the loop goes on with the next receive. -/
theorem C3_receive_loop_matching (response_method : Int) (tid : Nat) (sa_mad : umad_sa_packet) :
    (sa_match sa_mad response_method tid = true ↔
      sa_mad.mgmt_class = UMAD_CLASS_SUBN_ADM ∧
      ((sa_mad.method % 128 : Nat) : Int) = response_method ∧
      sa_mad.method.testBit 7 = true ∧
      sa_mad.tid % 2 ^ 32 = tid) ∧
    (∀ (byte_len : Nat) (rest : List mad_recv_result),
      verbs_recv_loop response_method tid (.completed sa_mad byte_len :: rest) =
        if sa_match sa_mad response_method tid = true then
          (.matched sa_mad (to_int (to_uint32 ((byte_len : Int) - IB_GRH_LEN))) 0, 1)
        else
          ((verbs_recv_loop response_method tid rest).1,
            (verbs_recv_loop response_method tid rest).2 + 1)) ∧
    (∀ (ret status len : Int) (rest : List umad_recv_result), 0 ≤ ret → 0 ≤ status →
      umad_recv_loop response_method tid
          ({ ret := ret, status := status, mad := sa_mad, len := len } :: rest) =
        if sa_match sa_mad response_method tid = true then
          (.matched sa_mad len status, 1)
        else
          ((umad_recv_loop response_method tid rest).1,
            (umad_recv_loop response_method tid rest).2 + 1)) := by
  refine ⟨sa_match_iff sa_mad response_method tid, ?_, ?_⟩
  · intro byte_len rest
    simp only [verbs_recv_loop, mad_recv]
    by_cases h : sa_match sa_mad response_method tid = true <;> simp [h]
  · intro ret status len rest hret hstatus
    simp only [umad_recv_loop]
    have h1 : ¬ ret < 0 := by omega
    have h2 : ¬ status < 0 := by omega
    by_cases h : sa_match sa_mad response_method tid = true <;> simp [h, h1, h2]

theorem response_method_unsupported (method : Int) (h : method ∉ UMAD_METHOD_SET :: supported_methods) :
    dev_sa_response_method method = -EINVAL := by
  simp only [supported_methods, List.mem_cons, List.mem_singleton, not_or, List.not_mem_nil,
    not_false_eq_true, and_true] at h
  unfold dev_sa_response_method
  simp [h]

/-- Claim C4: the response method of SET is GET, each of GET, GET_TABLE, REPORT, TRAP,
GET_TRACE_TABLE, GET_MULTI and DELETE is its own response method, every other
integer gives -EINVAL; and with such a method and a request size within the
limit, a single attempt on either transport returns -EINVAL with an empty trace
(nothing sent or received) and the state and outputs as they were. -/
theorem C4_response_method {σ : Type} (F : Fabric σ) (st : State σ) (method attr : Int)
    (comp_mask : Nat) (req_data : Option (List Nat)) (req_size : Int) (out : Out)
    (hide_errors : Int) :
    dev_sa_response_method UMAD_METHOD_SET = UMAD_METHOD_GET ∧
    (∀ m ∈ supported_methods, dev_sa_response_method m = m) ∧
    (method ∉ UMAD_METHOD_SET :: supported_methods →
      dev_sa_response_method method = -EINVAL ∧
      (req_size ≤ UMAD_LEN_SA_DATA →
        verbs_dev_sa_query F st method attr comp_mask req_data req_size out hide_errors =
          { st := st, ret := -EINVAL, out := out, trace := [] } ∧
        umad_dev_sa_query F st method attr comp_mask req_data req_size out hide_errors =
          { st := st, ret := -EINVAL, out := out, trace := [] } ∧
        dev_sa_query F st method attr comp_mask req_data req_size out hide_errors =
          { st := st, ret := -EINVAL, out := out, trace := [.attempt (-EINVAL)] })) := by
  refine ⟨by decide, by decide, ?_⟩
  intro h
  have hm := response_method_unsupported method h
  refine ⟨hm, ?_⟩
  intro hsize
  have hs : ¬ req_size > UMAD_LEN_SA_DATA := by omega
  have hneg : -EINVAL < 0 := by decide
  have hv : verbs_dev_sa_query F st method attr comp_mask req_data req_size out hide_errors =
      { st := st, ret := -EINVAL, out := out, trace := [] } := by
    unfold verbs_dev_sa_query
    simp [hs, hm, hneg]
  have hu : umad_dev_sa_query F st method attr comp_mask req_data req_size out hide_errors =
      { st := st, ret := -EINVAL, out := out, trace := [] } := by
    unfold umad_dev_sa_query
    simp [hs, hm, hneg]
  refine ⟨hv, hu, ?_⟩
  unfold dev_sa_query
  rw [hv, hu]
  split <;> rfl

theorem be_value_append (a : List Nat) (b : Nat) : be_value (a ++ [b]) = be_value a * 256 + b := by
  simp [be_value, List.foldl_append]

theorem be_value_cons (w : Nat) : ∀ (b : Nat) (bs : List Nat), bs.length = w →
    be_value (b :: bs) = b * 256 ^ w + be_value bs := by
  induction w with
  | zero =>
    intro b bs h
    have : bs = [] := List.length_eq_zero.mp h
    subst this
    simp [be_value]
  | succ w ih =>
    intro b bs h
    obtain ⟨init, last, rfl⟩ : ∃ init last, bs = init ++ [last] := by
      rcases List.eq_nil_or_concat bs with h0 | ⟨i, l, h1⟩
      · subst h0; simp at h
      · exact ⟨i, l, by simpa using h1⟩
    have hl : init.length = w := by simpa using h
    have e : b :: (init ++ [last]) = (b :: init) ++ [last] := rfl
    rw [e, be_value_append, be_value_append, ih b init hl]
    ring

theorem be_bytes_length (w x : Nat) : (be_bytes w x).length = w := by
  induction w with
  | zero => rfl
  | succ w ih => simp [be_bytes, ih]

theorem be_value_be_bytes (w x : Nat) : be_value (be_bytes w x) = x % 256 ^ w := by
  induction w with
  | zero => simp [be_bytes, be_value, Nat.mod_one]
  | succ w ih =>
    rw [be_bytes, be_value_cons w _ _ (be_bytes_length w x), ih]
    have h : x % 256 ^ (w + 1) = 256 ^ w * (x / 256 ^ w % 256) + x % 256 ^ w := by
      rw [pow_succ, Nat.mod_mul, Nat.add_comm]
    rw [h]; ring

theorem fit_length (n : Nat) (l : List Nat) : (fit n l).length = n := by
  simp [fit, List.length_take]
  omega

theorem fit_of_length (n : Nat) (l : List Nat) (h : l.length = n) : fit n l = l := by
  simp [fit, h, List.take_of_length_le (Nat.le_of_eq h)]

theorem cstr_append (s rest : List Nat) (h : ∀ b ∈ s, b ≠ 0) : cstr (s ++ 0 :: rest) = some s := by
  induction s with
  | nil => simp [cstr]
  | cons b s ih =>
    have hb : b ≠ 0 := h b (List.mem_cons_self _ _)
    have hs : ∀ c ∈ s, c ≠ 0 := fun c hc => h c (List.mem_cons_of_mem _ hc)
    simp [cstr, hb, ih hs]

theorem bytes_length (r : sr_ib_service_record) : r.bytes.length = 176 := by
  simp [sr_ib_service_record.bytes, fit_length]

theorem bytes_read_id (r : sr_ib_service_record) :
    read_bytes r.bytes OFF_SERVICE_ID 8 = some (fit 8 r.service_id) := by
  have h := bytes_length r
  simp [read_bytes, h, OFF_SERVICE_ID]
  simp [sr_ib_service_record.bytes, List.take_append_eq_append_take, fit_length]

theorem bytes_read_gid (r : sr_ib_service_record) :
    read_bytes r.bytes OFF_SERVICE_GID 16 = some (fit 16 r.service_gid) := by
  have h := bytes_length r
  simp [read_bytes, h, OFF_SERVICE_GID]
  simp [sr_ib_service_record.bytes, List.take_append_eq_append_take,
    List.drop_append_eq_append_drop, fit_length]

theorem bytes_read_data (r : sr_ib_service_record) :
    read_bytes r.bytes OFF_SERVICE_DATA 64 = some (fit 64 r.service_data) := by
  have h := bytes_length r
  simp [read_bytes, h, OFF_SERVICE_DATA]
  simp [sr_ib_service_record.bytes, List.take_append_eq_append_take,
    List.drop_append_eq_append_drop, fit_length, List.drop_eq_nil_of_le,
    List.take_of_length_le]

theorem bytes_drop_name (r : sr_ib_service_record) :
    r.bytes.drop OFF_SERVICE_NAME = fit 64 r.service_name ++ fit 64 r.service_data := by
  simp [sr_ib_service_record.bytes, OFF_SERVICE_NAME,
    List.drop_append_eq_append_drop, fit_length, List.drop_eq_nil_of_le]


/-- Decoding the bytes of a record whose name field holds a terminated string. -/
theorem fill_bytes (service : sr_dev_service) (r : sr_ib_service_record) (name rest : List Nat)
    (hn : fit 64 r.service_name = name ++ 0 :: rest) (hstr : ∀ b ∈ name, b ≠ 0) :
    fill_dev_service_from_ib_service_record service r.bytes =
      .ok { service with
        id := __be64_to_cpu (fit 8 r.service_id)
        name := snprintf_s SR_DEV_SERVICE_NAME_MAX name
        data := fit 64 r.service_data
        port_gid := fit 16 r.service_gid } := by
  simp only [fill_dev_service_from_ib_service_record, bytes_read_id, bytes_read_gid,
    bytes_read_data, bytes_drop_name, hn, List.append_assoc, List.cons_append,
    cstr_append _ _ hstr, SR_DEV_SERVICE_DATA_MAX]

/-- Claim C7: encoding a session whose name has at most 63 bytes with a payload of at
most 64 bytes and decoding the 176 bytes of the record gives back the session's
service ID and name, the payload followed by zero padding, and the device's
port GID. -/
theorem C7_codec_round_trip (context : sr_ctx) (dev : sr_dev) (sr : sr_dev_service)
    (record : sr_ib_service_record) (data : List Nat) (service_key : Option (List Nat))
    (service : sr_dev_service)
    (hname : context.service_name.length ≤ 63) (hstr : ∀ b ∈ context.service_name, b ≠ 0)
    (hdata : data.length ≤ 64) (hid : context.service_id < 2 ^ 64)
    (hgid : dev.port_gid.length = 16) :
    ∃ sr1 record1 service1,
      sr_prepare_ib_service_record context dev sr record data data.length service_key =
        (0, sr1, record1) ∧
      fill_dev_service_from_ib_service_record service record1.bytes = .ok service1 ∧
      service1.id = context.service_id ∧
      service1.name = context.service_name ∧
      service1.data = data ++ List.replicate (64 - data.length) 0 ∧
      service1.port_gid = dev.port_gid := by
  have hcopy : min data.length 64 = data.length := Nat.min_eq_left hdata
  have hsn : snprintf_s SR_DEV_SERVICE_NAME_MAX context.service_name = context.service_name := by
    simp [snprintf_s, SR_DEV_SERVICE_NAME_MAX, List.take_of_length_le hname]
  have hsn2 : snprintf_s 64 context.service_name = context.service_name := hsn
  -- the two arrays the decoder reads
  have hdata1 : memcpy (List.replicate 64 0) data data.length =
      data ++ List.replicate (64 - data.length) 0 := by
    simp only [memcpy, List.take_length, List.drop_replicate]
  have hdlen : (data ++ List.replicate (64 - data.length) 0).length = 64 := by
    simp; omega
  have hdata2 : fit 64 (memcpy (List.replicate 64 0) (data ++ List.replicate (64 - data.length) 0) 64) =
      data ++ List.replicate (64 - data.length) 0 := by
    have : memcpy (List.replicate 64 0) (data ++ List.replicate (64 - data.length) 0) 64 =
        data ++ List.replicate (64 - data.length) 0 := by
      unfold memcpy
      rw [List.take_of_length_le (Nat.le_of_eq hdlen)]
      simp only [List.drop_replicate, Nat.sub_self, List.replicate_zero, List.append_nil]
    rw [this]
    exact fit_of_length _ _ hdlen
  have hname1 : fit 64 (snprintf_into (List.replicate 64 0) 64 context.service_name) =
      context.service_name ++ 0 :: List.replicate (63 - context.service_name.length) 0 := by
    have e : snprintf_into (List.replicate 64 0) 64 context.service_name =
        context.service_name ++ 0 :: List.replicate (63 - context.service_name.length) 0 := by
      unfold snprintf_into
      rw [hsn2]
      have h63 : 64 - (context.service_name.length + 1) = 63 - context.service_name.length := by
        omega
      simp only [List.drop_replicate, h63, List.append_assoc, List.singleton_append]
    rw [e]
    apply fit_of_length
    simp only [List.length_append, List.length_cons, List.length_replicate]
    omega
  have hgid1 : fit 16 (memcpy (List.replicate 16 0) dev.port_gid 16) = dev.port_gid := by
    have : memcpy (List.replicate 16 0) dev.port_gid 16 = dev.port_gid := by
      unfold memcpy
      rw [List.take_of_length_le (Nat.le_of_eq hgid)]
      simp only [List.drop_replicate, Nat.sub_self, List.replicate_zero, List.append_nil]
    rw [this]
    exact fit_of_length _ _ hgid
  have hid1 : __be64_to_cpu (fit 8 (__cpu_to_be64 context.service_id)) = context.service_id := by
    unfold __be64_to_cpu __cpu_to_be64
    rw [fit_of_length _ _ (be_bytes_length 8 _), be_value_be_bytes]
    exact Nat.mod_eq_of_lt (by simpa using hid)
  have hprep : ∀ key : Option (List Nat),
      (sr_prepare_ib_service_record context dev sr record data data.length key).1 = 0 ∧
      fit 8 (sr_prepare_ib_service_record context dev sr record data data.length key).2.2.service_id =
        fit 8 (__cpu_to_be64 context.service_id) ∧
      fit 64 (sr_prepare_ib_service_record context dev sr record data data.length key).2.2.service_name =
        context.service_name ++ 0 :: List.replicate (63 - context.service_name.length) 0 ∧
      fit 64 (sr_prepare_ib_service_record context dev sr record data data.length key).2.2.service_data =
        data ++ List.replicate (64 - data.length) 0 ∧
      fit 16 (sr_prepare_ib_service_record context dev sr record data data.length key).2.2.service_gid =
        dev.port_gid := by
    intro key
    cases key <;>
    simp only [sr_prepare_ib_service_record, SR_DEV_SERVICE_DATA_MAX, hcopy, lt_irrefl, if_false,
      hsn, hdata1, sr_ib_service_record.zero, hdata2, hname1, hgid1, and_self]
  obtain ⟨h0, h1, h2, h3, h4⟩ := hprep service_key
  refine ⟨(sr_prepare_ib_service_record context dev sr record data data.length service_key).2.1,
    (sr_prepare_ib_service_record context dev sr record data data.length service_key).2.2,
    _, ?_, fill_bytes service _ _ _ h2 hstr, ?_, ?_, ?_, ?_⟩
  · rw [← h0]
  · show __be64_to_cpu _ = _
    rw [h1]; exact hid1
  · exact hsn
  · exact h3
  · exact h4

/-! ### Traces of a single attempt -/

theorem transport_only_nil : transport_only [] := by
  intro e he; simp at he

theorem transport_only_send (mad : umad_sa_packet) (k : Nat) :
    transport_only (.send mad :: List.replicate k .recv) := by
  intro e he
  rcases List.mem_cons.mp he with h | h
  · exact Or.inr ⟨mad, h⟩
  · exact Or.inl (List.eq_of_mem_replicate h)

theorem transport_only_single (mad : umad_sa_packet) : transport_only [.send mad] :=
  transport_only_send mad 0

theorem attempts_of_transport_only (trace : List Event) (h : transport_only trace) :
    attempts trace = [] ∧ updates trace = [] := by
  constructor
  · apply List.filterMap_eq_nil_iff.mpr
    intro e he
    rcases h e he with h1 | ⟨m, h1⟩ <;> subst h1 <;> rfl
  · apply List.filterMap_eq_nil_iff.mpr
    intro e he
    rcases h e he with h1 | ⟨m, h1⟩ <;> subst h1 <;> rfl

theorem sa_finish_resp_data (method : Int) (sa_mad : umad_sa_packet) (len ret : Int) (out : Out)
    (hide_errors : Int) :
    ((sa_finish method sa_mad len ret out hide_errors).2.resp_data = none ↔ out.resp_data = none) := by
  unfold sa_finish
  by_cases h0 : sa_mad.status = 0
  · by_cases h1 : to_size_t len < SA_DATA_OFFSET
    · simp [h0, h1]
    · cases h2 : out.resp_data <;> cases h3 : out.resp_attr_size <;> simp [h0, h1, h2, h3]
  · simp [h0]

theorem verbs_query_facts {σ : Type} (F : Fabric σ) (st : State σ) (method attr : Int)
    (comp_mask : Nat) (req_data : Option (List Nat)) (req_size : Int) (out : Out)
    (hide_errors : Int) :
    transport_only (verbs_dev_sa_query F st method attr comp_mask req_data req_size out hide_errors).trace ∧
    ((verbs_dev_sa_query F st method attr comp_mask req_data req_size out hide_errors).out.resp_data = none ↔
      out.resp_data = none) := by
  simp only [verbs_dev_sa_query]
  repeat' split
  all_goals first
    | exact ⟨transport_only_nil, Iff.rfl⟩
    | exact ⟨transport_only_single _, Iff.rfl⟩
    | exact ⟨transport_only_send _ _, Iff.rfl⟩
    | exact ⟨transport_only_send _ _, sa_finish_resp_data _ _ _ _ _ _⟩

theorem umad_query_facts {σ : Type} (F : Fabric σ) (st : State σ) (method attr : Int)
    (comp_mask : Nat) (req_data : Option (List Nat)) (req_size : Int) (out : Out)
    (hide_errors : Int) :
    transport_only (umad_dev_sa_query F st method attr comp_mask req_data req_size out hide_errors).trace ∧
    ((umad_dev_sa_query F st method attr comp_mask req_data req_size out hide_errors).out.resp_data = none ↔
      out.resp_data = none) := by
  simp only [umad_dev_sa_query]
  repeat' split
  all_goals first
    | exact ⟨transport_only_nil, Iff.rfl⟩
    | exact ⟨transport_only_single _, Iff.rfl⟩
    | exact ⟨transport_only_send _ _, Iff.rfl⟩
    | exact ⟨transport_only_send _ _, sa_finish_resp_data _ _ _ _ _ _⟩

theorem attempts_append (a b : List Event) : attempts (a ++ b) = attempts a ++ attempts b := by
  simp [attempts, List.filterMap_append]

theorem updates_append (a b : List Event) : updates (a ++ b) = updates a ++ updates b := by
  simp [updates, List.filterMap_append]

theorem dev_sa_query_facts {σ : Type} (F : Fabric σ) (st : State σ) (method attr : Int)
    (comp_mask : Nat) (req_data : Option (List Nat)) (req_size : Int) (out : Out)
    (hide_errors : Int) :
    attempts (dev_sa_query F st method attr comp_mask req_data req_size out hide_errors).trace =
      [(dev_sa_query F st method attr comp_mask req_data req_size out hide_errors).ret] ∧
    updates (dev_sa_query F st method attr comp_mask req_data req_size out hide_errors).trace = [] ∧
    ((dev_sa_query F st method attr comp_mask req_data req_size out hide_errors).out.resp_data = none ↔
      out.resp_data = none) := by
  unfold dev_sa_query
  by_cases h : st.dev.mad_send_type = SR_MAD_SEND_UMAD
  · obtain ⟨h1, h2⟩ := umad_query_facts F st method attr comp_mask req_data req_size out hide_errors
    obtain ⟨h3, h4⟩ := attempts_of_transport_only _ h1
    simp only [h, if_true, attempts_append, updates_append, h3, h4, List.nil_append]
    exact ⟨rfl, rfl, h2⟩
  · obtain ⟨h1, h2⟩ := verbs_query_facts F st method attr comp_mask req_data req_size out hide_errors
    obtain ⟨h3, h4⟩ := attempts_of_transport_only _ h1
    simp only [h, if_false, attempts_append, updates_append, h3, h4, List.nil_append]
    exact ⟨rfl, rfl, h2⟩

/-- What the retry loop does, for any fabric: it returns; its attempts are at most
`n + 1`; every attempt but the last returned neither a positive count nor an
accepted zero; the value returned is that of the last attempt; and the loop
makes all `n + 1` attempts unless the last one made is a stopping one. -/
theorem query_loop_spec {σ : Type} (F : Fabric σ) (method attr : Int) (comp_mask : Nat)
    (req_data : Option (List Nat)) (req_size : Int) (allow_zero : Int) (hide_errors : Int) :
    ∀ (n : Nat) (st : State σ) (out : Out), (out.resp_data ≠ none ∨ allow_zero ≠ 0) →
      ∃ r, query_loop F method attr comp_mask req_data req_size allow_zero hide_errors n st out = .ok r ∧
        (r.out.resp_data = none ↔ out.resp_data = none) ∧
        updates r.trace = [] ∧
        ∃ init, attempts r.trace = init ++ [r.ret] ∧ init.length ≤ n ∧
          (∀ x ∈ init, ¬ stops allow_zero x) ∧
          (¬ stops allow_zero r.ret → init.length = n) := by
  intro n
  induction n with
  | zero =>
    intro st out _
    obtain ⟨h1, h2, h3⟩ := dev_sa_query_facts F st method attr comp_mask req_data req_size out hide_errors
    exact ⟨_, rfl, h3, h2, [], by simpa using h1, le_refl _, by simp, fun _ => rfl⟩
  | succ n ih =>
    intro st out hout
    obtain ⟨h1, h2, h3⟩ := dev_sa_query_facts F st method attr comp_mask req_data req_size out hide_errors
    by_cases hs : stops allow_zero
        (dev_sa_query F st method attr comp_mask req_data req_size out hide_errors).ret
    · refine ⟨dev_sa_query F st method attr comp_mask req_data req_size out hide_errors, ?_, h3, h2,
        [], by simpa using h1, Nat.zero_le _, by simp, fun h => absurd hs h⟩
      have hs2 := hs
      unfold stops at hs2
      simp only [query_loop]
      rw [if_pos hs2]
    · have hs2 := hs
      unfold stops at hs2
      by_cases hz : (dev_sa_query F st method attr comp_mask req_data req_size out hide_errors).ret = 0
      · -- an empty result that does not count: the buffer is released
        have haz : allow_zero = 0 := by
          by_contra hne
          exact hs2 (Or.inr ⟨hne, hz⟩)
        have hsome : out.resp_data ≠ none := by
          rcases hout with h | h
          · exact h
          · exact absurd haz h
        have hsome2 : (dev_sa_query F st method attr comp_mask req_data req_size out
            hide_errors).out.resp_data ≠ none := fun h => hsome (h3.mp h)
        obtain ⟨b, hb⟩ := Option.ne_none_iff_exists'.mp hsome2
        obtain ⟨r2, hr2, ho2, hu2, init, hi1, hi2, hi3, hi4⟩ :=
          ih (dev_sa_query F st method attr comp_mask req_data req_size out hide_errors).st
            { (dev_sa_query F st method attr comp_mask req_data req_size out hide_errors).out with
              resp_data := some none } (Or.inl (by simp))
        refine ⟨{ r2 with trace :=
            (dev_sa_query F st method attr comp_mask req_data req_size out hide_errors).trace ++
              [.free] ++ [.sleep (dev_sa_query F st method attr comp_mask req_data req_size out
                hide_errors).st.dev.query_sleep] ++ r2.trace }, ?_, ?_, ?_,
          (dev_sa_query F st method attr comp_mask req_data req_size out hide_errors).ret :: init,
          ?_, ?_, ?_, ?_⟩
        · simp only [query_loop]
          rw [if_neg hs2]
          simp only [hz, if_true, hb, hr2]
        · simp only [ho2]
          constructor
          · intro h; simp at h
          · intro h; exact absurd h hsome
        · simp only [updates_append, h2, hu2]
          rfl
        · simp only [attempts_append, h1, hi1]
          rfl
        · simp only [List.length_cons]; omega
        · intro x hx
          rcases List.mem_cons.mp hx with h | h
          · rw [h]; exact hs
          · exact hi3 x h
        · intro h
          simp only [List.length_cons]
          rw [hi4 h]
      · obtain ⟨r2, hr2, ho2, hu2, init, hi1, hi2, hi3, hi4⟩ :=
          ih (dev_sa_query F st method attr comp_mask req_data req_size out hide_errors).st
            (dev_sa_query F st method attr comp_mask req_data req_size out hide_errors).out
            (by
              rcases hout with h | h
              · exact Or.inl (fun h' => h (h3.mp h'))
              · exact Or.inr h)
        refine ⟨{ r2 with trace :=
            (dev_sa_query F st method attr comp_mask req_data req_size out hide_errors).trace ++
              [] ++ [.sleep (dev_sa_query F st method attr comp_mask req_data req_size out
                hide_errors).st.dev.query_sleep] ++ r2.trace }, ?_, ?_, ?_,
          (dev_sa_query F st method attr comp_mask req_data req_size out hide_errors).ret :: init,
          ?_, ?_, ?_, ?_⟩
        · simp only [query_loop]
          rw [if_neg hs2]
          simp only [hz, if_false, hr2]
        · simp only [ho2]; exact h3
        · simp only [updates_append, h2, hu2]
          rfl
        · simp only [attempts_append, h1, hi1]
          rfl
        · simp only [List.length_cons]; omega
        · intro x hx
          rcases List.mem_cons.mp hx with h | h
          · rw [h]; exact hs
          · exact hi3 x h
        · intro h
          simp only [List.length_cons]
          rw [hi4 h]

theorem attempts_update_cons (u : Int) (t : List Event) :
    attempts (.dev_update u :: t) = attempts t := rfl

theorem updates_update_cons (u : Int) (t : List Event) :
    updates (.dev_update u :: t) = u :: updates t := rfl

/-- Claim C5: a GET_TABLE query with retry budget `retries ≥ 1`, given a response
pointer or `allow_zero` (without either the C code reads through a null pointer
on an empty result), returns; and in a call in which every attempt returned a
negative error the trace is: exactly `retries` attempts, then the one call of
`services_dev_update`, then exactly `retries` further attempts (`2 * retries` in
all) when that call returned 0 (success), and nothing more when it did not; in
both cases the value returned is that of the last attempt. -/
theorem C5_retry_then_rediscover_once {σ : Type} (F : Fabric σ) (st : State σ) (attr : Int)
    (comp_mask : Nat) (req_data : Option (List Nat)) (req_size : Int) (out : Out)
    (allow_zero retries hide_errors : Int)
    (hretries : 1 ≤ retries) (hout : out.resp_data ≠ none ∨ allow_zero ≠ 0) :
    ∃ r, dev_sa_query_retries F st UMAD_SA_METHOD_GET_TABLE attr comp_mask req_data req_size out
        allow_zero retries hide_errors = .ok r ∧
      ((∀ x ∈ attempts r.trace, x < 0) →
        ∃ tr1 u tr2, r.trace = tr1 ++ .dev_update u :: tr2 ∧
          ((attempts tr1).length : Int) = retries ∧
          updates tr1 = [] ∧ updates tr2 = [] ∧ updates r.trace = [u] ∧
          (u = 0 → ((attempts tr2).length : Int) = retries ∧
            ((attempts r.trace).length : Int) = 2 * retries) ∧
          (u ≠ 0 → tr2 = [] ∧ ((attempts r.trace).length : Int) = retries) ∧
          (attempts r.trace).getLast? = some r.ret) := by
  obtain ⟨r1, hr1, ho1, hu1, init1, hi1, _, _, hfull1⟩ :=
    query_loop_spec F UMAD_SA_METHOD_GET_TABLE attr comp_mask req_data req_size allow_zero
      hide_errors (retries - 1).toNat st out hout
  have hout1 : r1.out.resp_data ≠ none ∨ allow_zero ≠ 0 := by
    rcases hout with h | h
    · exact Or.inl (fun h' => h (ho1.mp h'))
    · exact Or.inr h
  have hnostop : ∀ x : Int, x < 0 → ¬ stops allow_zero x := by
    intro x hx hs
    rcases hs with h | ⟨_, h⟩ <;> omega
  by_cases hneg : r1.ret < 0
  · rcases hupd : services_dev_update F r1.st with ⟨st2, u⟩
    have hlen1 : ((attempts r1.trace).length : Int) = retries := by
      rw [hi1, List.length_append, hfull1 (hnostop _ hneg)]
      simp only [List.length_singleton]
      omega
    by_cases hu : u = 0
    · obtain ⟨r2, hr2, _, hu2, init2, hi2, _, _, hfull2⟩ :=
        query_loop_spec F UMAD_SA_METHOD_GET_TABLE attr comp_mask req_data req_size allow_zero
          hide_errors (retries - 1).toNat st2 r1.out hout1
      refine ⟨{ r2 with trace := r1.trace ++ [.dev_update u] ++ r2.trace }, ?_, ?_⟩
      · simp only [dev_sa_query_retries, hr1, hneg, and_self, if_true, hupd, hu, hr2]
      · intro hall
        have htr : r1.trace ++ [Event.dev_update u] ++ r2.trace =
            r1.trace ++ Event.dev_update u :: r2.trace := by simp
        have hall2 : ∀ x ∈ attempts r2.trace, x < 0 := by
          intro x hx
          apply hall
          simp only [attempts_append]
          exact List.mem_append_right _ hx
        have hneg2 : r2.ret < 0 := hall2 _ (by rw [hi2]; simp)
        have hlen2 : ((attempts r2.trace).length : Int) = retries := by
          rw [hi2, List.length_append, hfull2 (hnostop _ hneg2)]
          simp only [List.length_singleton]
          omega
        refine ⟨r1.trace, u, r2.trace, htr, hlen1, hu1, hu2, ?_, ?_, fun h => absurd hu h, ?_⟩
        · simp only [htr, updates_append, updates_update_cons, hu1, hu2, List.nil_append]
        · intro _
          refine ⟨hlen2, ?_⟩
          simp only [htr, attempts_append, attempts_update_cons, List.length_append]
          omega
        · simp only [htr, attempts_append, attempts_update_cons, hi2]
          simp
    · refine ⟨{ r1 with st := st2, trace := r1.trace ++ [.dev_update u] }, ?_, ?_⟩
      · simp only [dev_sa_query_retries, hr1, hneg, and_self, if_true, hupd, hu, if_false]
      · intro _
        refine ⟨r1.trace, u, [], rfl, hlen1, hu1, rfl, ?_, fun h => absurd h hu, fun _ => ⟨rfl, ?_⟩, ?_⟩
        · simp only [updates_append, hu1, List.nil_append]
          rfl
        · simp only [attempts_append, List.length_append]
          simpa [attempts] using hlen1
        · simp only [attempts_append, hi1]
          simp [attempts]
  · refine ⟨r1, ?_, ?_⟩
    · simp only [dev_sa_query_retries, hr1, hneg, false_and, if_false]
    · intro hall
      exact absurd (hall r1.ret (by rw [hi1]; simp)) hneg

/-- Claim C6, as amended: in the retry loop, an attempt that returns a positive count
ends the loop with the result of that attempt alone (no release, no sleep, no
further attempt); so does an attempt that returns zero records when `allow_zero`
is set or when the retry budget is used up (`n = 0`); with `allow_zero` clear and
budget left, a zero-record attempt is followed by the release of the response
buffer, its reset to null, a sleep and another round of the loop, which makes at
least one more attempt; and `dev_sa_query_retries` returns the result of the
loop as it is when its value is not negative. -/
theorem C6_zero_record_handling {σ : Type} (F : Fabric σ) (method attr : Int) (comp_mask : Nat)
    (req_data : Option (List Nat)) (req_size : Int) (allow_zero hide_errors : Int)
    (n : Nat) (st : State σ) (out : Out) :
    (0 < (dev_sa_query F st method attr comp_mask req_data req_size out hide_errors).ret →
      query_loop F method attr comp_mask req_data req_size allow_zero hide_errors n st out =
        .ok (dev_sa_query F st method attr comp_mask req_data req_size out hide_errors)) ∧
    ((dev_sa_query F st method attr comp_mask req_data req_size out hide_errors).ret = 0 →
      (allow_zero ≠ 0 ∨ n = 0) →
      query_loop F method attr comp_mask req_data req_size allow_zero hide_errors n st out =
        .ok (dev_sa_query F st method attr comp_mask req_data req_size out hide_errors)) ∧
    ((dev_sa_query F st method attr comp_mask req_data req_size out hide_errors).ret = 0 →
      allow_zero = 0 →
      (dev_sa_query F st method attr comp_mask req_data req_size out hide_errors).out.resp_data ≠ none →
      ∃ r2,
        query_loop F method attr comp_mask req_data req_size allow_zero hide_errors n
            (dev_sa_query F st method attr comp_mask req_data req_size out hide_errors).st
            { (dev_sa_query F st method attr comp_mask req_data req_size out hide_errors).out with
              resp_data := some none } = .ok r2 ∧
        attempts r2.trace ≠ [] ∧
        query_loop F method attr comp_mask req_data req_size allow_zero hide_errors (n + 1) st out =
          .ok { r2 with trace :=
            (dev_sa_query F st method attr comp_mask req_data req_size out hide_errors).trace ++
              [.free, .sleep (dev_sa_query F st method attr comp_mask req_data req_size out
                hide_errors).st.dev.query_sleep] ++ r2.trace }) ∧
    (∀ (retries : Int) (r : QueryRes σ),
      query_loop F method attr comp_mask req_data req_size allow_zero hide_errors
          (retries - 1).toNat st out = .ok r →
      0 ≤ r.ret →
      dev_sa_query_retries F st method attr comp_mask req_data req_size out allow_zero retries
          hide_errors = .ok r) := by
  refine ⟨?_, ?_, ?_, ?_⟩
  · intro hpos
    cases n with
    | zero => rfl
    | succ n =>
      simp only [query_loop]
      rw [if_pos (Or.inl hpos)]
  · intro hz hor
    cases n with
    | zero => rfl
    | succ n =>
      have haz : allow_zero ≠ 0 := by
        rcases hor with h | h
        · exact h
        · simp at h
      simp only [query_loop]
      rw [if_pos (Or.inr ⟨haz, hz⟩)]
  · intro hz haz hsome
    obtain ⟨b, hb⟩ := Option.ne_none_iff_exists'.mp hsome
    obtain ⟨r2, hr2, _, _, init, hi, _⟩ :=
      query_loop_spec F method attr comp_mask req_data req_size allow_zero hide_errors n
        (dev_sa_query F st method attr comp_mask req_data req_size out hide_errors).st
        { (dev_sa_query F st method attr comp_mask req_data req_size out hide_errors).out with
          resp_data := some none } (Or.inl (by simp))
    refine ⟨r2, hr2, by rw [hi]; simp, ?_⟩
    have hns : ¬ ((dev_sa_query F st method attr comp_mask req_data req_size out hide_errors).ret > 0 ∨
        (allow_zero ≠ 0 ∧
          (dev_sa_query F st method attr comp_mask req_data req_size out hide_errors).ret = 0)) := by
      rintro (h | ⟨h, _⟩)
      · omega
      · exact h haz
    simp only [query_loop]
    rw [if_neg hns]
    simp only [hz, if_true, hb, hr2, List.append_assoc, List.singleton_append, List.cons_append,
      List.nil_append]
  · intro retries r hr hret
    have hneg : ¬ r.ret < 0 := by omega
    simp only [dev_sa_query_retries, hr, hneg, false_and, if_false]

theorem sa_request_data (buf : umad_sa_packet) (dev : sr_dev) (method attr : Int)
    (tid comp_mask : Nat) (bytes : List Nat) (k : Nat) (h : bytes.length = k) :
    (sa_request buf dev method attr tid comp_mask (some bytes) (k : Int)).data.take k = bytes := by
  simp only [sa_request, memcpy, Int.toNat_ofNat]
  rw [List.take_of_length_le (Nat.le_of_eq h), List.take_append_of_le_length (Nat.le_of_eq h.symm),
    List.take_of_length_le (Nat.le_of_eq h)]

/-- A single attempt that passes the size and method checks hands its request to
the transport first. -/
theorem dev_sa_query_sends {σ : Type} (F : Fabric σ) (st : State σ) (method attr : Int)
    (comp_mask : Nat) (req_data : Option (List Nat)) (req_size : Int) (out : Out)
    (hide_errors : Int) (hsize : req_size ≤ UMAD_LEN_SA_DATA)
    (hmethod : 0 ≤ dev_sa_response_method method) :
    ∃ buf dev tid rest,
      (dev_sa_query F st method attr comp_mask req_data req_size out hide_errors).trace =
        .send (sa_request buf dev method attr tid comp_mask req_data req_size) :: rest := by
  have h1 : ¬ req_size > UMAD_LEN_SA_DATA := by omega
  have h2 : ¬ dev_sa_response_method method < 0 := by omega
  unfold dev_sa_query
  by_cases h : st.dev.mad_send_type = SR_MAD_SEND_UMAD
  · simp only [h, if_true, umad_dev_sa_query, if_neg h1, if_neg h2]
    repeat' split
    all_goals exact ⟨_, _, _, _, rfl⟩
  · simp only [h, if_false, verbs_dev_sa_query, if_neg h1, if_neg h2]
    repeat' split
    all_goals exact ⟨_, _, _, _, rfl⟩

/-- The trace of the retry loop starts with the trace of its first attempt. -/
theorem query_loop_starts {σ : Type} (F : Fabric σ) (method attr : Int) (comp_mask : Nat)
    (req_data : Option (List Nat)) (req_size : Int) (allow_zero hide_errors : Int)
    (n : Nat) (st : State σ) (out : Out) (r : QueryRes σ)
    (h : query_loop F method attr comp_mask req_data req_size allow_zero hide_errors n st out = .ok r) :
    ∃ more, r.trace =
      (dev_sa_query F st method attr comp_mask req_data req_size out hide_errors).trace ++ more := by
  cases n with
  | zero =>
    simp only [query_loop, Except.ok.injEq] at h
    exact ⟨[], by rw [← h]; simp⟩
  | succ n =>
    simp only [query_loop] at h
    split at h
    · simp only [Except.ok.injEq] at h
      exact ⟨[], by rw [← h]; simp⟩
    · split at h
      · cases h
      · split at h
        · cases h
        · simp only [Except.ok.injEq] at h
          rw [← h]
          exact ⟨_, List.append_assoc _ _ _ |>.trans (List.append_assoc _ _ _) |>.trans rfl⟩

/-- Registration never faults and starts by handing a SET of the service-record
attribute, carrying the bytes of `record`, to the transport. -/
theorem dev_register_service_sends {σ : Type} (F : Fabric σ) (st : State σ)
    (record : sr_ib_service_record) :
    ∃ r mad rest, dev_register_service F st record = .ok r ∧ r.trace = .send mad :: rest ∧
      mad.method = 2 ∧ mad.mgmt_class = UMAD_CLASS_SUBN_ADM ∧ mad.attr_id = 0x31 ∧
      mad.data.take 176 = record.bytes := by
  simp only [dev_register_service]
  generalize (if (fit 16 record.service_key).headD 0 ≠ 0 then register_comp_mask ||| BIT 5
    else register_comp_mask) = comp_mask
  obtain ⟨r0, hr0, _⟩ := query_loop_spec F UMAD_METHOD_SET UMAD_SA_ATTR_SERVICE_REC comp_mask
    (some record.bytes) SIZEOF_IB_SERVICE_RECORD 1 0 1 st Out.null (Or.inr (by decide))
  obtain ⟨more, hmore⟩ := query_loop_starts _ _ _ _ _ _ _ _ _ _ _ _ hr0
  obtain ⟨buf, dev, tid, rest, hsend⟩ := dev_sa_query_sends F st UMAD_METHOD_SET
    UMAD_SA_ATTR_SERVICE_REC comp_mask (some record.bytes) SIZEOF_IB_SERVICE_RECORD Out.null 0
    (by decide) (by decide)
  have hq : dev_sa_query_retries F st UMAD_METHOD_SET UMAD_SA_ATTR_SERVICE_REC comp_mask
      (some record.bytes) SIZEOF_IB_SERVICE_RECORD Out.null 1 SR_DEV_SERVICE_REGISTER_RETRIES 0 =
      .ok r0 := by
    have hm : ¬ (UMAD_METHOD_SET = UMAD_SA_METHOD_GET_TABLE) := by decide
    have hn : (SR_DEV_SERVICE_REGISTER_RETRIES - 1).toNat = 1 := by decide
    simp only [dev_sa_query_retries, hn, hr0, hm, and_false, if_false]
  have htrace : r0.trace = .send (sa_request buf dev UMAD_METHOD_SET UMAD_SA_ATTR_SERVICE_REC tid
      comp_mask (some record.bytes) SIZEOF_IB_SERVICE_RECORD) :: (rest ++ more) := by
    rw [hmore, hsend]; rfl
  have hdata := sa_request_data buf dev UMAD_METHOD_SET UMAD_SA_ATTR_SERVICE_REC tid comp_mask
    record.bytes 176 (bytes_length record)
  simp only [hq]
  by_cases hneg : r0.ret < 0
  · simp only [hneg, if_true]
    exact ⟨_, _, _, rfl, htrace, rfl, rfl, rfl, hdata⟩
  · simp only [hneg, if_false]
    exact ⟨_, _, _, rfl, htrace, rfl, rfl, rfl, hdata⟩

/-- Claim C8: with a payload size above 64 (65 in particular) `sr_register_service`
returns -EINVAL with an empty trace and the state (the cache included) as it
was.  With a payload size of at most 64 (64 included) the record is prepared
with result 0 and `dev_register_service` hands a SET carrying the prepared
record to the transport; the trace of `sr_register_service`, when it returns,
starts with that request. -/
theorem C8_payload_size_guard {σ : Type} (F : Fabric σ) (context : sr_ctx) (st : State σ)
    (data : List Nat) (data_size : Nat) (service_key : Option (List Nat))
    (old_srs : List sr_dev_service) (service : sr_dev_service) (record : sr_ib_service_record) :
    (SR_DEV_SERVICE_DATA_MAX < data_size →
      sr_register_service F context st data data_size service_key old_srs service record =
        .ok { st := st, ret := -EINVAL, trace := [] }) ∧
    (data_size ≤ SR_DEV_SERVICE_DATA_MAX →
      ∃ service1 record1 r mad rest,
        sr_prepare_ib_service_record context st.dev service record data data_size service_key =
          (0, service1, record1) ∧
        dev_register_service F st record1 = .ok r ∧
        r.trace = .send mad :: rest ∧
        mad.method = 2 ∧ mad.mgmt_class = UMAD_CLASS_SUBN_ADM ∧ mad.attr_id = 0x31 ∧
        mad.data.take 176 = record1.bytes ∧
        ∀ res, sr_register_service F context st data data_size service_key old_srs service record =
          .ok res → ∃ more, res.trace = r.trace ++ more) := by
  constructor
  · intro hbig
    have hlt : min data_size 64 < data_size := by
      simp only [SR_DEV_SERVICE_DATA_MAX] at hbig
      omega
    have hneg : -EINVAL < 0 := by decide
    simp only [sr_register_service, sr_prepare_ib_service_record, SR_DEV_SERVICE_DATA_MAX, hlt,
      if_true, hneg]
  · intro hsmall
    have hge : ¬ min data_size 64 < data_size := by
      simp only [SR_DEV_SERVICE_DATA_MAX] at hsmall
      omega
    have hp : (sr_prepare_ib_service_record context st.dev service record data data_size
        service_key).1 = 0 := by
      simp only [sr_prepare_ib_service_record, SR_DEV_SERVICE_DATA_MAX, hge, if_false]
    obtain ⟨r, mad, rest, hr, htrace, h1, h2, h3, h4⟩ := dev_register_service_sends F st
      (sr_prepare_ib_service_record context st.dev service record data data_size service_key).2.2
    refine ⟨(sr_prepare_ib_service_record context st.dev service record data data_size
      service_key).2.1, _, r, mad, rest, ?_, hr, htrace, h1, h2, h3, h4, ?_⟩
    · rw [← hp]
    · intro res hres
      have h0 : ¬ (sr_prepare_ib_service_record context st.dev service record data data_size
          service_key).1 < 0 := by rw [hp]; decide
      simp only [sr_register_service, h0, if_false, hr] at hres
      split at hres
      · simp only [Except.ok.injEq] at hres
        exact ⟨[], by rw [← hres]; simp⟩
      · split at hres
        · cases hres
        · simp only [Except.ok.injEq] at hres
          exact ⟨_, by rw [← hres]⟩

/-! ### Evaluations at concrete inputs -/

/-- Claim C1, evaluated: a SET that the subnet administrator answers with a
matching response of status 0x0700 (request denied) makes the single attempt
return 0 on either transport, not a negative code, and `dev_register_service`
reports success. -/
theorem C1_denied_request_returns_zero :
    (verbs_dev_sa_query denying_fabric ⟨(), sample_dev SR_MAD_SEND_VERBS⟩ UMAD_METHOD_SET
      UMAD_SA_ATTR_SERVICE_REC register_comp_mask (some sr_ib_service_record.zero.bytes) 176
      Out.null 0).ret = 0 ∧
    (umad_dev_sa_query denying_fabric ⟨(), sample_dev SR_MAD_SEND_UMAD⟩ UMAD_METHOD_SET
      UMAD_SA_ATTR_SERVICE_REC register_comp_mask (some sr_ib_service_record.zero.bytes) 176
      Out.null 0).ret = 0 ∧
    (dev_register_service denying_fabric ⟨(), sample_dev SR_MAD_SEND_UMAD⟩
      sr_ib_service_record.zero).toOption.map (fun r => (r.ret, attempts r.trace)) =
        some (0, [0]) := by
  refine ⟨by decide, by decide, by decide⟩

/-- Claim C2, evaluated: on the verbs transport, when `ibv_post_send` fails,
`mad_send` returns 1, the single attempt returns 1, the retry controller stops at
once with 1 as if one record had been found, and `sr_register_service` returns 0
and stores the service in the cache although no SET was posted. -/
theorem C2_failed_post_send_returns_one :
    (mad_send first_post_failing_fabric 0 umad_sa_packet.zero).2.1 = 1 ∧
    (dev_sa_query first_post_failing_fabric ⟨0, sample_dev SR_MAD_SEND_VERBS⟩ UMAD_METHOD_SET
      UMAD_SA_ATTR_SERVICE_REC register_comp_mask (some sr_ib_service_record.zero.bytes) 176
      Out.null 0).ret = 1 ∧
    (dev_sa_query_retries first_post_failing_fabric ⟨0, sample_dev SR_MAD_SEND_VERBS⟩
      UMAD_METHOD_SET UMAD_SA_ATTR_SERVICE_REC register_comp_mask
      (some sr_ib_service_record.zero.bytes) 176 Out.null 1 SR_DEV_SERVICE_REGISTER_RETRIES
      0).toOption.map (fun r => (r.ret, attempts r.trace)) = some (1, [1]) ∧
    (sr_register_service first_post_failing_fabric (sample_ctx 1) ⟨0, sample_dev SR_MAD_SEND_VERBS⟩
      [1, 2, 3] 3 none (List.replicate SRS_MAX sr_dev_service.zero) sr_dev_service.zero
      sr_ib_service_record.zero).toOption.map
        (fun r => (r.ret, (cache_at r.st.dev.service_cache 0).id)) =
      some (0, SR_DEFAULT_SERVICE_ID) := by
  refine ⟨by decide, by decide, by decide, by decide⟩

/-- Claim C9, evaluated: removing ID 5 from a cache whose first slot holds ID 5
leaves that entry in place; when the second slot holds ID 7, it is the entry
with ID 7 that goes. -/
theorem C9_remove_keeps_present_id :
    (remove_service (sample_dev_with [sample_service 5]) 5).service_cache =
      (sample_dev_with [sample_service 5]).service_cache ∧
    (cache_at (remove_service (sample_dev_with [sample_service 5]) 5).service_cache 0).id = 5 ∧
    ((remove_service (sample_dev_with [sample_service 5, sample_service 7]) 5).service_cache.map
      (fun s => s.id)) = [5, 0, 0, 0] := by
  refine ⟨by decide, by decide, by decide⟩

/-- Claim C10, evaluated: removing ID 5, which no slot holds, from a cache whose
first slot holds ID 7 overwrites that slot with a free one. -/
theorem C10_remove_absent_id_clobbers :
    ((sample_dev_with [sample_service 7]).service_cache.map (fun s => s.id)) = [7, 0, 0, 0] ∧
    ((remove_service (sample_dev_with [sample_service 7]) 5).service_cache.map (fun s => s.id)) =
      [0, 0, 0, 0] := by
  refine ⟨by decide, by decide⟩

/-- Claim C6 as first stated fails: with `allow_zero` clear and a retry budget of
1, an attempt that returns zero records ends the call with return value 0, with
no further attempt and no sleep. -/
theorem C6_zero_ends_call_without_allow_zero :
    (dev_sa_query_retries empty_table_fabric ⟨(), sample_dev SR_MAD_SEND_UMAD⟩
      UMAD_SA_METHOD_GET_TABLE UMAD_SA_ATTR_SERVICE_REC (BIT 0) none 0
      { resp_data := some none, resp_attr_size := some 0 } 0 1 0).toOption.map
        (fun r => (r.ret, attempts r.trace, sleeps r.trace)) = some (0, [0], []) := by
  decide

/-! ### Instances of the theorems at concrete inputs -/

/-- Claim C3 at a GET response received over UMAD. -/
theorem C3_receive_loop_matching_witness :
    umad_recv_loop 1 5 [{ ret := 0, status := 0, mad := sample_response, len := 256 }] =
      if sa_match sample_response 1 5 = true then (.matched sample_response 256 0, 1)
      else ((umad_recv_loop 1 5 []).1, (umad_recv_loop 1 5 []).2 + 1) :=
  (C3_receive_loop_matching 1 5 sample_response).2.2 0 0 256 [] (by decide) (by decide)

/-- Claim C4 at method 3 (SEND), which is not supported. -/
theorem C4_response_method_witness :
    verbs_dev_sa_query silent_fabric ⟨(), sample_dev SR_MAD_SEND_VERBS⟩ 3 0x31 0 none 0 Out.null 0 =
      { st := ⟨(), sample_dev SR_MAD_SEND_VERBS⟩, ret := -EINVAL, out := Out.null, trace := [] } ∧
    umad_dev_sa_query silent_fabric ⟨(), sample_dev SR_MAD_SEND_VERBS⟩ 3 0x31 0 none 0 Out.null 0 =
      { st := ⟨(), sample_dev SR_MAD_SEND_VERBS⟩, ret := -EINVAL, out := Out.null, trace := [] } ∧
    dev_sa_query silent_fabric ⟨(), sample_dev SR_MAD_SEND_VERBS⟩ 3 0x31 0 none 0 Out.null 0 =
      { st := ⟨(), sample_dev SR_MAD_SEND_VERBS⟩, ret := -EINVAL, out := Out.null,
        trace := [.attempt (-EINVAL)] } :=
  ((C4_response_method silent_fabric ⟨(), sample_dev SR_MAD_SEND_VERBS⟩ 3 0x31 0 none 0 Out.null
    0).2.2 (by decide)).2 (by decide)

/-- Claim C5 on a fabric that answers nothing, with a budget of 2: the four attempts time
out, with one update between the second and the third. -/
theorem C5_retry_then_rediscover_once_witness :
    (∃ r, dev_sa_query_retries silent_fabric ⟨(), sample_dev SR_MAD_SEND_UMAD⟩
        UMAD_SA_METHOD_GET_TABLE UMAD_SA_ATTR_SERVICE_REC (BIT 0) none 0 sample_out 0 2 0 = .ok r ∧
      (∀ x ∈ attempts r.trace, x < 0) ∧
      attempts r.trace = [-ETIMEDOUT, -ETIMEDOUT, -ETIMEDOUT, -ETIMEDOUT] ∧
      updates r.trace = [0]) ∧
    (∃ r, dev_sa_query_retries silent_fabric ⟨(), sample_dev SR_MAD_SEND_UMAD⟩
        UMAD_SA_METHOD_GET_TABLE UMAD_SA_ATTR_SERVICE_REC (BIT 0) none 0 sample_out 0 2 0 = .ok r ∧
      ((∀ x ∈ attempts r.trace, x < 0) →
        ∃ tr1 u tr2, r.trace = tr1 ++ .dev_update u :: tr2 ∧
          ((attempts tr1).length : Int) = 2 ∧
          updates tr1 = [] ∧ updates tr2 = [] ∧ updates r.trace = [u] ∧
          (u = 0 → ((attempts tr2).length : Int) = 2 ∧
            ((attempts r.trace).length : Int) = 2 * 2) ∧
          (u ≠ 0 → tr2 = [] ∧ ((attempts r.trace).length : Int) = 2) ∧
          (attempts r.trace).getLast? = some r.ret)) :=
  ⟨⟨_, rfl, by decide, by decide, by decide⟩,
    C5_retry_then_rediscover_once silent_fabric ⟨(), sample_dev SR_MAD_SEND_UMAD⟩
      UMAD_SA_ATTR_SERVICE_REC (BIT 0) none 0 sample_out 0 2 0 (by decide) (by decide)⟩

/-- Claim C6, as amended, at an empty table received with no budget left, and with a
budget of one more attempt. -/
theorem C6_zero_record_handling_witness :
    query_loop empty_table_fabric UMAD_SA_METHOD_GET_TABLE UMAD_SA_ATTR_SERVICE_REC (BIT 0) none 0
        0 0 0 ⟨(), sample_dev SR_MAD_SEND_UMAD⟩ sample_out =
      .ok (dev_sa_query empty_table_fabric ⟨(), sample_dev SR_MAD_SEND_UMAD⟩
        UMAD_SA_METHOD_GET_TABLE UMAD_SA_ATTR_SERVICE_REC (BIT 0) none 0 sample_out 0) ∧
    ∃ r2,
      query_loop empty_table_fabric UMAD_SA_METHOD_GET_TABLE UMAD_SA_ATTR_SERVICE_REC (BIT 0) none 0
          0 0 0
          (dev_sa_query empty_table_fabric ⟨(), sample_dev SR_MAD_SEND_UMAD⟩
            UMAD_SA_METHOD_GET_TABLE UMAD_SA_ATTR_SERVICE_REC (BIT 0) none 0 sample_out 0).st
          { (dev_sa_query empty_table_fabric ⟨(), sample_dev SR_MAD_SEND_UMAD⟩
              UMAD_SA_METHOD_GET_TABLE UMAD_SA_ATTR_SERVICE_REC (BIT 0) none 0 sample_out 0).out with
            resp_data := some none } = .ok r2 ∧
      attempts r2.trace ≠ [] ∧
      query_loop empty_table_fabric UMAD_SA_METHOD_GET_TABLE UMAD_SA_ATTR_SERVICE_REC (BIT 0) none 0
          0 0 (0 + 1) ⟨(), sample_dev SR_MAD_SEND_UMAD⟩ sample_out =
        .ok { r2 with trace :=
          (dev_sa_query empty_table_fabric ⟨(), sample_dev SR_MAD_SEND_UMAD⟩
            UMAD_SA_METHOD_GET_TABLE UMAD_SA_ATTR_SERVICE_REC (BIT 0) none 0 sample_out 0).trace ++
            [.free, .sleep (dev_sa_query empty_table_fabric ⟨(), sample_dev SR_MAD_SEND_UMAD⟩
              UMAD_SA_METHOD_GET_TABLE UMAD_SA_ATTR_SERVICE_REC (BIT 0) none 0 sample_out
              0).st.dev.query_sleep] ++ r2.trace } :=
  ⟨(C6_zero_record_handling empty_table_fabric UMAD_SA_METHOD_GET_TABLE UMAD_SA_ATTR_SERVICE_REC
      (BIT 0) none 0 0 0 0 ⟨(), sample_dev SR_MAD_SEND_UMAD⟩ sample_out).2.1 (by decide)
      (Or.inr rfl),
    (C6_zero_record_handling empty_table_fabric UMAD_SA_METHOD_GET_TABLE UMAD_SA_ATTR_SERVICE_REC
      (BIT 0) none 0 0 0 0 ⟨(), sample_dev SR_MAD_SEND_UMAD⟩ sample_out).2.2.1 (by decide)
      rfl (by decide)⟩

/-- Claim C7 at the service "svc-a" with a payload of ten bytes. -/
theorem C7_codec_round_trip_witness :
    ∃ sr1 record1 service1,
      sr_prepare_ib_service_record (sample_ctx 20) (sample_dev SR_MAD_SEND_UMAD) sr_dev_service.zero
        sr_ib_service_record.zero sample_payload sample_payload.length none = (0, sr1, record1) ∧
      fill_dev_service_from_ib_service_record sr_dev_service.zero record1.bytes = .ok service1 ∧
      service1.id = (sample_ctx 20).service_id ∧
      service1.name = (sample_ctx 20).service_name ∧
      service1.data = sample_payload ++ List.replicate (64 - sample_payload.length) 0 ∧
      service1.port_gid = (sample_dev SR_MAD_SEND_UMAD).port_gid :=
  C7_codec_round_trip (sample_ctx 20) (sample_dev SR_MAD_SEND_UMAD) sr_dev_service.zero
    sr_ib_service_record.zero sample_payload none sr_dev_service.zero (by decide) (by decide)
    (by decide) (by decide) (by decide)

/-- Claim C8 at a payload of 65 bytes and at one of 64 bytes. -/
theorem C8_payload_size_guard_witness :
    sr_register_service silent_fabric (sample_ctx 20) ⟨(), sample_dev SR_MAD_SEND_UMAD⟩
        (List.replicate 65 1) 65 none (List.replicate SRS_MAX sr_dev_service.zero)
        sr_dev_service.zero sr_ib_service_record.zero =
      .ok { st := ⟨(), sample_dev SR_MAD_SEND_UMAD⟩, ret := -EINVAL, trace := [] } ∧
    ∃ service1 record1 r mad rest,
      sr_prepare_ib_service_record (sample_ctx 20) (sample_dev SR_MAD_SEND_UMAD)
        sr_dev_service.zero sr_ib_service_record.zero (List.replicate 64 1) 64 none =
          (0, service1, record1) ∧
      dev_register_service silent_fabric ⟨(), sample_dev SR_MAD_SEND_UMAD⟩ record1 = .ok r ∧
      r.trace = .send mad :: rest ∧
      mad.method = 2 ∧ mad.mgmt_class = UMAD_CLASS_SUBN_ADM ∧ mad.attr_id = 0x31 ∧
      mad.data.take 176 = record1.bytes ∧
      ∀ res, sr_register_service silent_fabric (sample_ctx 20) ⟨(), sample_dev SR_MAD_SEND_UMAD⟩
          (List.replicate 64 1) 64 none (List.replicate SRS_MAX sr_dev_service.zero)
          sr_dev_service.zero sr_ib_service_record.zero = .ok res →
        ∃ more, res.trace = r.trace ++ more :=
  ⟨(C8_payload_size_guard silent_fabric (sample_ctx 20) ⟨(), sample_dev SR_MAD_SEND_UMAD⟩
      (List.replicate 65 1) 65 none (List.replicate SRS_MAX sr_dev_service.zero)
      sr_dev_service.zero sr_ib_service_record.zero).1 (by decide),
    (C8_payload_size_guard silent_fabric (sample_ctx 20) ⟨(), sample_dev SR_MAD_SEND_UMAD⟩
      (List.replicate 64 1) 64 none (List.replicate SRS_MAX sr_dev_service.zero)
      sr_dev_service.zero sr_ib_service_record.zero).2 (by decide)⟩

/-! ### The service cache -/

theorem cache_at_set (cache : List sr_dev_service) (t k : Nat) (r : sr_dev_service) :
    cache_at (cache.set t r) k =
      if t = k ∧ t < cache.length then r else cache_at cache k := by
  unfold cache_at
  simp only [List.getD_eq_getElem?_getD, List.getElem?_set]
  by_cases h : t = k
  · subst h
    by_cases h2 : t < cache.length
    · simp [h2]
    · simp [h2, List.getElem?_eq_none (Nat.le_of_not_lt h2)]
  · simp [h]

/-- The scan of `save_service` that meets its first stopping slot at `t` writes
the record there. -/
theorem save_from_hit (r : sr_dev_service) (cache : List sr_dev_service) :
    ∀ (fuel i t : Nat), i ≤ t → t < i + fuel →
      (∀ k, i ≤ k → k < t → ¬ save_stops cache r.id k) → save_stops cache r.id t →
      save_service_from r fuel i cache = cache.set t r := by
  intro fuel
  induction fuel with
  | zero => intro i t h1 h2; omega
  | succ fuel ih =>
    intro i t h1 h2 hbefore ht
    by_cases hit : i = t
    · subst hit
      have ht2 := ht
      unfold save_stops at ht2
      simp only [save_service_from]
      rw [if_pos ht2]
    · have hi : ¬ save_stops cache r.id i := hbefore i (le_refl _) (by omega)
      have hi2 := hi
      unfold save_stops at hi2
      simp only [save_service_from]
      rw [if_neg hi2]
      exact ih (i + 1) t (by omega) (by omega) (fun k hk1 hk2 => hbefore k (by omega) hk2) ht

/-- The scan of `save_service` that meets no stopping slot leaves the cache as
it is. -/
theorem save_from_miss (r : sr_dev_service) (cache : List sr_dev_service) :
    ∀ (fuel i : Nat), (∀ k, i ≤ k → k < i + fuel → ¬ save_stops cache r.id k) →
      save_service_from r fuel i cache = cache := by
  intro fuel
  induction fuel with
  | zero => intro i _; rfl
  | succ fuel ih =>
    intro i h
    have hi : ¬ save_stops cache r.id i := h i (le_refl _) (by omega)
    have hi2 := hi
    unfold save_stops at hi2
    simp only [save_service_from]
    rw [if_neg hi2]
    exact ih (i + 1) (fun k hk1 hk2 => h k (by omega) (by omega))

/-- A scan either meets no stopping slot or has a first one. -/
theorem first_stop (cache : List sr_dev_service) (id : Nat) :
    ∀ (fuel i : Nat), (∀ k, i ≤ k → k < i + fuel → ¬ save_stops cache id k) ∨
      ∃ t, i ≤ t ∧ t < i + fuel ∧ save_stops cache id t ∧
        ∀ k, i ≤ k → k < t → ¬ save_stops cache id k := by
  intro fuel
  induction fuel with
  | zero => intro i; left; intro k h1 h2; omega
  | succ fuel ih =>
    intro i
    by_cases hi : save_stops cache id i
    · right
      exact ⟨i, le_refl _, by omega, hi, fun k h1 h2 => by omega⟩
    · rcases ih (i + 1) with h | ⟨t, h1, h2, h3, h4⟩
      · left
        intro k hk1 hk2
        by_cases hk : k = i
        · subst hk; exact hi
        · exact h k (by omega) (by omega)
      · right
        refine ⟨t, by omega, by omega, h3, ?_⟩
        intro k hk1 hk2
        by_cases hk : k = i
        · subst hk; exact hi
        · exact h4 k (by omega) hk2

/-- Saving a record a second time changes nothing, whatever the cache. -/
theorem save_service_twice (dev : sr_dev) (service : sr_dev_service) :
    save_service (save_service dev service) service = save_service dev service := by
  have key : save_service_from service SR_DEV_MAX_SERVICES 0
      (save_service_from service SR_DEV_MAX_SERVICES 0 dev.service_cache) =
      save_service_from service SR_DEV_MAX_SERVICES 0 dev.service_cache := by
    rcases first_stop dev.service_cache service.id SR_DEV_MAX_SERVICES 0 with h | ⟨t, h1, h2, h3, h4⟩
    · rw [save_from_miss service _ _ _ h, save_from_miss service _ _ _ h]
    · rw [save_from_hit service _ _ _ t h1 h2 h4 h3]
      rw [save_from_hit service _ _ _ t h1 h2]
      · exact List.set_set _ _ _ _
      · intro k hk1 hk2 hstop
        apply h4 k hk1 hk2
        unfold save_stops at hstop ⊢
        rw [cache_at_set] at hstop
        have hne : ¬ (t = k ∧ t < dev.service_cache.length) := by
          rintro ⟨h, _⟩; omega
        rw [if_neg hne] at hstop
        exact hstop
      · unfold save_stops
        rw [cache_at_set]
        by_cases hlen : t < dev.service_cache.length
        · rw [if_pos ⟨rfl, hlen⟩]
          exact Or.inl rfl
        · have hne : ¬ (t = t ∧ t < dev.service_cache.length) := fun h => hlen h.2
          rw [if_neg hne]
          right
          unfold cache_at
          rw [List.getD_eq_default _ _ (Nat.le_of_not_lt hlen)]
          rfl
  unfold save_service
  simp only [key]

theorem save_service_eq_self (dev : sr_dev) (service : sr_dev_service)
    (h : save_service_from service SR_DEV_MAX_SERVICES 0 dev.service_cache = dev.service_cache) :
    save_service dev service = dev := by
  cases dev
  simp only [save_service] at h ⊢
  simp only [h]

/-- Claim C11, as amended: saving a record twice gives the same cache as saving it
once, for every cache; and when slot `i` holds the record's non-zero ID and no
slot before it is free or holds that ID, `save_service` overwrites slot `i` in
place: the slot holds the new record, every other slot is unchanged, and the
number of populated slots is unchanged. -/
theorem C11_save_overwrites_in_place (dev : sr_dev) (service : sr_dev_service) :
    save_service (save_service dev service) service = save_service dev service ∧
    ∀ i, dev.service_cache.length = SR_DEV_MAX_SERVICES → i < SR_DEV_MAX_SERVICES →
      service.id ≠ 0 → (cache_at dev.service_cache i).id = service.id →
      (∀ k, k < i → (cache_at dev.service_cache k).id ≠ service.id ∧
        (cache_at dev.service_cache k).id ≠ 0) →
      (save_service dev service).service_cache = dev.service_cache.set i service ∧
      cache_at (save_service dev service).service_cache i = service ∧
      (∀ k, k ≠ i → cache_at (save_service dev service).service_cache k =
        cache_at dev.service_cache k) ∧
      populated (save_service dev service).service_cache = populated dev.service_cache := by
  refine ⟨save_service_twice dev service, ?_⟩
  intro i hlen hi hnz hid hbefore
  have hset : (save_service dev service).service_cache = dev.service_cache.set i service := by
    unfold save_service
    apply save_from_hit service _ _ 0 i (Nat.zero_le _) (by omega)
    · intro k _ hk hstop
      rcases hstop with h | h
      · exact (hbefore k hk).1 h
      · exact (hbefore k hk).2 h
    · exact Or.inl hid
  have hil : i < dev.service_cache.length := by omega
  refine ⟨hset, ?_, ?_, ?_⟩
  · rw [hset, cache_at_set, if_pos ⟨rfl, hil⟩]
  · intro k hk
    rw [hset, cache_at_set]
    have hne : ¬ (i = k ∧ i < dev.service_cache.length) := fun h => hk h.1.symm
    rw [if_neg hne]
  · rw [hset]
    unfold populated
    rw [List.countP_set _ _ _ _ hil]
    have h1 : (cache_at dev.service_cache i).id ≠ 0 := by rw [hid]; exact hnz
    have h2 : dev.service_cache[i].id ≠ 0 := by
      have : cache_at dev.service_cache i = dev.service_cache[i] := by
        unfold cache_at
        exact List.getD_eq_getElem _ _ hil
      rw [← this]; exact h1
    have hpos : 0 < dev.service_cache.countP (fun s => decide (s.id ≠ 0)) := by
      apply List.countP_pos_iff.mpr
      exact ⟨dev.service_cache[i], List.getElem_mem _, by simpa using h2⟩
    have e1 : (decide (dev.service_cache[i].id ≠ 0)) = true := by simpa using h2
    have e2 : (decide (service.id ≠ 0)) = true := by simpa using hnz
    simp only [e1, e2, if_true]
    omega

/-- Claim C11 as first stated fails: in the cache `[free, 5, free, free]`, saving a
record with ID 5 writes it to the free slot 0; the slot that held the ID keeps the
old record and the number of populated slots goes from 1 to 2.  That cache is
also the one reached from the empty cache by save 7, save 5, remove 5. -/
theorem C11_save_duplicates_behind_free_slot :
    cache_ids (sample_dev_with [sr_dev_service.zero, sample_service 5]).service_cache =
      [0, 5, 0, 0] ∧
    cache_ids (save_service (sample_dev_with [sr_dev_service.zero, sample_service 5])
      renamed_service).service_cache = [5, 5, 0, 0] ∧
    cache_at (save_service (sample_dev_with [sr_dev_service.zero, sample_service 5])
      renamed_service).service_cache 1 = sample_service 5 ∧
    cache_at (save_service (sample_dev_with [sr_dev_service.zero, sample_service 5])
      renamed_service).service_cache 0 = renamed_service ∧
    populated (sample_dev_with [sr_dev_service.zero, sample_service 5]).service_cache = 1 ∧
    populated (save_service (sample_dev_with [sr_dev_service.zero, sample_service 5])
      renamed_service).service_cache = 2 ∧
    holed_dev.service_cache =
      (sample_dev_with [sr_dev_service.zero, sample_service 5]).service_cache := by
  refine ⟨by decide, by decide, by decide, by decide, by decide, by decide, by decide⟩

/-- Claim C11, as amended, at the cache `[7, 5, free, free]` and a new record with
ID 5. -/
theorem C11_save_overwrites_in_place_witness :
    (save_service (sample_dev_with [sample_service 7, sample_service 5])
        renamed_service).service_cache =
      (sample_dev_with [sample_service 7, sample_service 5]).service_cache.set 1 renamed_service ∧
    cache_at (save_service (sample_dev_with [sample_service 7, sample_service 5])
      renamed_service).service_cache 1 = renamed_service ∧
    (∀ k, k ≠ 1 → cache_at (save_service (sample_dev_with [sample_service 7, sample_service 5])
        renamed_service).service_cache k =
      cache_at (sample_dev_with [sample_service 7, sample_service 5]).service_cache k) ∧
    populated (save_service (sample_dev_with [sample_service 7, sample_service 5])
      renamed_service).service_cache =
      populated (sample_dev_with [sample_service 7, sample_service 5]).service_cache :=
  (C11_save_overwrites_in_place (sample_dev_with [sample_service 7, sample_service 5])
    renamed_service).2 1 (by decide) (by decide) (by decide) (by decide) (by decide)

/-- Claim C12, evaluated: from the empty cache, save 7, save 5, remove 5, save 5
leaves two slots holding ID 5. -/
theorem C12_duplicate_ids_reachable :
    cache_ids (sample_dev SR_MAD_SEND_UMAD).service_cache = [0, 0, 0, 0] ∧
    cache_ids (save_service (remove_service (save_service (save_service
      (sample_dev SR_MAD_SEND_UMAD) (sample_service 7)) (sample_service 5)) 5)
      (sample_service 5)).service_cache = [5, 5, 0, 0] := by
  refine ⟨by decide, by decide⟩

set_option maxRecDepth 100000 in
/-- Claim C13 as first stated fails: of 64 records with the IDs 1 to 64 saved
into the empty cache, only the first four are stored. -/
theorem C13_only_four_of_64_stored :
    cache_ids (((List.range 64).map (fun i => sample_service (i + 1))).foldl save_service
      (sample_dev SR_MAD_SEND_UMAD)).service_cache = [1, 2, 3, 4] := by
  decide

/-- Claim C13, as amended: the cache has capacity 4 (`SR_DEV_MAX_SERVICES`).  Four
records with pairwise distinct non-zero IDs saved into the empty cache are all
stored, in order, and a fifth record with yet another non-zero ID is dropped,
the cache staying as it is. -/
theorem C13_cache_capacity (dev : sr_dev) (a b c d e : sr_dev_service)
    (hempty : dev.service_cache = List.replicate SR_DEV_MAX_SERVICES sr_dev_service.zero)
    (hnz : a.id ≠ 0 ∧ b.id ≠ 0 ∧ c.id ≠ 0 ∧ d.id ≠ 0 ∧ e.id ≠ 0)
    (hdistinct : [a.id, b.id, c.id, d.id, e.id].Nodup) :
    SR_DEV_MAX_SERVICES = 4 ∧
    (save_service (save_service (save_service (save_service dev a) b) c) d).service_cache =
      [a, b, c, d] ∧
    save_service (save_service (save_service (save_service (save_service dev a) b) c) d) e =
      save_service (save_service (save_service (save_service dev a) b) c) d := by
  obtain ⟨ha, hb, hc, hd, he⟩ := hnz
  simp only [List.nodup_cons, List.mem_cons, List.mem_singleton, not_or, List.not_mem_nil,
    not_false_eq_true, List.nodup_nil, and_true] at hdistinct
  obtain ⟨⟨hab, hac, had, hae⟩, ⟨hbc, hbd, hbe⟩, ⟨hcd, hce⟩, hde⟩ := hdistinct
  have h4 : (save_service (save_service (save_service (save_service dev a) b) c) d).service_cache =
      [a, b, c, d] := by
    simp [save_service, save_service_from, cache_at, hempty, SR_DEV_MAX_SERVICES,
      sr_dev_service.zero, ha, hb, hc, hab, hac, had, hbc, hbd, hcd]
  refine ⟨rfl, h4, ?_⟩
  apply save_service_eq_self
  rw [h4]
  simp [save_service_from, cache_at, SR_DEV_MAX_SERVICES, ha, hb, hc, hd, hae, hbe, hce, hde]

/-- Claim C13, as amended, at the records with IDs 1 to 5. -/
theorem C13_cache_capacity_witness :
    SR_DEV_MAX_SERVICES = 4 ∧
    (save_service (save_service (save_service (save_service (sample_dev SR_MAD_SEND_UMAD)
      (sample_service 1)) (sample_service 2)) (sample_service 3))
      (sample_service 4)).service_cache =
      [sample_service 1, sample_service 2, sample_service 3, sample_service 4] ∧
    save_service (save_service (save_service (save_service (save_service
      (sample_dev SR_MAD_SEND_UMAD) (sample_service 1)) (sample_service 2)) (sample_service 3))
      (sample_service 4)) (sample_service 5) =
      save_service (save_service (save_service (save_service (sample_dev SR_MAD_SEND_UMAD)
      (sample_service 1)) (sample_service 2)) (sample_service 3)) (sample_service 4) :=
  C13_cache_capacity (sample_dev SR_MAD_SEND_UMAD) (sample_service 1) (sample_service 2)
    (sample_service 3) (sample_service 4) (sample_service 5) rfl (by decide) (by decide)

/-! ### Requests and the cache across a query -/

theorem sends_append (a b : List Event) : sends (a ++ b) = sends a ++ sends b := by
  simp [sends, List.filterMap_append]

theorem sends_send_recvs (mad : umad_sa_packet) (k : Nat) :
    sends (.send mad :: List.replicate k .recv) = [mad] := by
  have h : sends (List.replicate k Event.recv) = [] := by
    apply List.filterMap_eq_nil_iff.mpr
    intro e he
    rw [List.eq_of_mem_replicate he]
  show mad :: sends (List.replicate k Event.recv) = [mad]
  rw [h]

theorem requests_are_nil (method attr : Int) (comp_mask : Nat) (req_data : Option (List Nat))
    (req_size : Int) : requests_are method attr comp_mask req_data req_size [] := by
  intro m hm
  simp [sends] at hm

theorem requests_are_send (method attr : Int) (comp_mask : Nat) (req_data : Option (List Nat))
    (req_size : Int) (buf : umad_sa_packet) (dev : sr_dev) (tid k : Nat) :
    requests_are method attr comp_mask req_data req_size
      (.send (sa_request buf dev method attr tid comp_mask req_data req_size) ::
        List.replicate k .recv) := by
  intro m hm
  rw [sends_send_recvs] at hm
  exact ⟨buf, dev, tid, List.mem_singleton.mp hm⟩

theorem requests_are_single (method attr : Int) (comp_mask : Nat) (req_data : Option (List Nat))
    (req_size : Int) (buf : umad_sa_packet) (dev : sr_dev) (tid : Nat) :
    requests_are method attr comp_mask req_data req_size
      [.send (sa_request buf dev method attr tid comp_mask req_data req_size)] :=
  requests_are_send method attr comp_mask req_data req_size buf dev tid 0

theorem requests_are_append (method attr : Int) (comp_mask : Nat) (req_data : Option (List Nat))
    (req_size : Int) (a b : List Event)
    (ha : requests_are method attr comp_mask req_data req_size a)
    (hb : requests_are method attr comp_mask req_data req_size b) :
    requests_are method attr comp_mask req_data req_size (a ++ b) := by
  intro m hm
  rw [sends_append] at hm
  rcases List.mem_append.mp hm with h | h
  · exact ha m h
  · exact hb m h

theorem requests_are_silent (method attr : Int) (comp_mask : Nat) (req_data : Option (List Nat))
    (req_size : Int) (a : List Event) (h : sends a = []) :
    requests_are method attr comp_mask req_data req_size a := by
  intro m hm
  rw [h] at hm
  cases hm

theorem verbs_query_frame {σ : Type} (F : Fabric σ) (st : State σ) (method attr : Int)
    (comp_mask : Nat) (req_data : Option (List Nat)) (req_size : Int) (out : Out)
    (hide_errors : Int) :
    (verbs_dev_sa_query F st method attr comp_mask req_data req_size out
      hide_errors).st.dev.service_cache = st.dev.service_cache ∧
    requests_are method attr comp_mask req_data req_size
      (verbs_dev_sa_query F st method attr comp_mask req_data req_size out hide_errors).trace := by
  simp only [verbs_dev_sa_query]
  repeat' split
  all_goals first
    | exact ⟨rfl, requests_are_nil _ _ _ _ _⟩
    | exact ⟨rfl, requests_are_single _ _ _ _ _ _ _ _⟩
    | exact ⟨rfl, requests_are_send _ _ _ _ _ _ _ _ _⟩

theorem umad_query_frame {σ : Type} (F : Fabric σ) (st : State σ) (method attr : Int)
    (comp_mask : Nat) (req_data : Option (List Nat)) (req_size : Int) (out : Out)
    (hide_errors : Int) :
    (umad_dev_sa_query F st method attr comp_mask req_data req_size out
      hide_errors).st.dev.service_cache = st.dev.service_cache ∧
    requests_are method attr comp_mask req_data req_size
      (umad_dev_sa_query F st method attr comp_mask req_data req_size out hide_errors).trace := by
  simp only [umad_dev_sa_query]
  repeat' split
  all_goals first
    | exact ⟨rfl, requests_are_nil _ _ _ _ _⟩
    | exact ⟨rfl, requests_are_single _ _ _ _ _ _ _ _⟩
    | exact ⟨rfl, requests_are_send _ _ _ _ _ _ _ _ _⟩

/-- A single attempt leaves the cache as it was, and what it hands to the
transport is the request built from its arguments. -/
theorem dev_sa_query_frame {σ : Type} (F : Fabric σ) (st : State σ) (method attr : Int)
    (comp_mask : Nat) (req_data : Option (List Nat)) (req_size : Int) (out : Out)
    (hide_errors : Int) :
    (dev_sa_query F st method attr comp_mask req_data req_size out
      hide_errors).st.dev.service_cache = st.dev.service_cache ∧
    requests_are method attr comp_mask req_data req_size
      (dev_sa_query F st method attr comp_mask req_data req_size out hide_errors).trace := by
  unfold dev_sa_query
  by_cases h : st.dev.mad_send_type = SR_MAD_SEND_UMAD
  · obtain ⟨h1, h2⟩ := umad_query_frame F st method attr comp_mask req_data req_size out hide_errors
    simp only [h, if_true]
    exact ⟨h1, requests_are_append _ _ _ _ _ _ _ h2 (requests_are_silent _ _ _ _ _ _ rfl)⟩
  · obtain ⟨h1, h2⟩ := verbs_query_frame F st method attr comp_mask req_data req_size out hide_errors
    simp only [h, if_false]
    exact ⟨h1, requests_are_append _ _ _ _ _ _ _ h2 (requests_are_silent _ _ _ _ _ _ rfl)⟩

/-- The retry loop leaves the cache as it was and repeats the same request. -/
theorem query_loop_frame {σ : Type} (F : Fabric σ) (method attr : Int) (comp_mask : Nat)
    (req_data : Option (List Nat)) (req_size : Int) (allow_zero hide_errors : Int) :
    ∀ (n : Nat) (st : State σ) (out : Out) (r : QueryRes σ),
      query_loop F method attr comp_mask req_data req_size allow_zero hide_errors n st out = .ok r →
      r.st.dev.service_cache = st.dev.service_cache ∧
      requests_are method attr comp_mask req_data req_size r.trace := by
  intro n
  induction n with
  | zero =>
    intro st out r h
    simp only [query_loop, Except.ok.injEq] at h
    rw [← h]
    exact dev_sa_query_frame F st method attr comp_mask req_data req_size out hide_errors
  | succ n ih =>
    intro st out r h
    obtain ⟨h1, h2⟩ := dev_sa_query_frame F st method attr comp_mask req_data req_size out hide_errors
    simp only [query_loop] at h
    split at h
    · simp only [Except.ok.injEq] at h
      rw [← h]
      exact ⟨h1, h2⟩
    · split at h
      · cases h
      · rename_i out2 ev hfreed
        split at h
        · cases h
        · rename_i r2 hr2
          obtain ⟨h3, h4⟩ := ih _ _ _ hr2
          simp only [Except.ok.injEq] at h
          rw [← h]
          refine ⟨h3.trans h1, ?_⟩
          have hev : sends ev = [] := by
            split at hfreed
            · split at hfreed
              · cases hfreed
              · simp only [Except.ok.injEq, Prod.mk.injEq] at hfreed
                rw [← hfreed.2]; rfl
            · simp only [Except.ok.injEq, Prod.mk.injEq] at hfreed
              rw [← hfreed.2]; rfl
          exact requests_are_append _ _ _ _ _ _ _
            (requests_are_append _ _ _ _ _ _ _
              (requests_are_append _ _ _ _ _ _ _ h2 (requests_are_silent _ _ _ _ _ _ hev))
              (requests_are_silent _ _ _ _ _ _ rfl)) h4

theorem open_port_cache {σ : Type} (F : Fabric σ) (st : State σ) (port : Int) :
    (open_port F st port).1.dev.service_cache = st.dev.service_cache := by
  simp only [open_port]
  repeat' split
  all_goals rfl

/-- The retry controller leaves the cache as it was and repeats the same request. -/
theorem dev_sa_query_retries_frame {σ : Type} (F : Fabric σ) (st : State σ) (method attr : Int)
    (comp_mask : Nat) (req_data : Option (List Nat)) (req_size : Int) (out : Out)
    (allow_zero retries hide_errors : Int) (r : QueryRes σ)
    (h : dev_sa_query_retries F st method attr comp_mask req_data req_size out allow_zero retries
      hide_errors = .ok r) :
    r.st.dev.service_cache = st.dev.service_cache ∧
    requests_are method attr comp_mask req_data req_size r.trace := by
  simp only [dev_sa_query_retries] at h
  split at h
  · cases h
  · rename_i r1 hr1
    obtain ⟨h1, h2⟩ := query_loop_frame _ _ _ _ _ _ _ _ _ _ _ _ hr1
    split at h
    · have hc := open_port_cache F r1.st r1.st.dev.port_num
      simp only [services_dev_update] at h
      split at h
      · split at h
        · cases h
        · rename_i r2 hr2
          obtain ⟨h3, h4⟩ := query_loop_frame _ _ _ _ _ _ _ _ _ _ _ _ hr2
          simp only [Except.ok.injEq] at h
          rw [← h]
          exact ⟨(h3.trans hc).trans h1,
            requests_are_append _ _ _ _ _ _ _
              (requests_are_append _ _ _ _ _ _ _ h2 (requests_are_silent _ _ _ _ _ _ rfl)) h4⟩
      · simp only [Except.ok.injEq] at h
        rw [← h]
        exact ⟨hc.trans h1,
          requests_are_append _ _ _ _ _ _ _ h2 (requests_are_silent _ _ _ _ _ _ rfl)⟩
    · simp only [Except.ok.injEq] at h
      rw [← h]
      exact ⟨h1, h2⟩

/-- A SET or a DELETE of a service record through the retry controller, as
`dev_register_service` and `dev_unregister_service` call it: the call returns, the
cache is as it was, at least one request is handed to the transport, and every
request handed over carries the method, the attribute, the component mask and the
record of the call. -/
theorem modify_query_spec {σ : Type} (F : Fabric σ) (st : State σ) (method : Int)
    (comp_mask : Nat) (bytes : List Nat)
    (hm : method = UMAD_METHOD_SET ∨ method = UMAD_SA_METHOD_DELETE) (hb : bytes.length = 176) :
    ∃ r, dev_sa_query_retries F st method UMAD_SA_ATTR_SERVICE_REC comp_mask (some bytes)
        SIZEOF_IB_SERVICE_RECORD Out.null 1 SR_DEV_SERVICE_REGISTER_RETRIES 0 = .ok r ∧
      r.st.dev.service_cache = st.dev.service_cache ∧
      sends r.trace ≠ [] ∧
      ∀ m ∈ sends r.trace, m.method = (method % 256).toNat ∧ m.attr_id = 0x31 ∧
        m.mgmt_class = UMAD_CLASS_SUBN_ADM ∧ m.comp_mask = comp_mask % 2 ^ 64 ∧
        m.data.take 176 = bytes := by
  obtain ⟨r0, hr0, _⟩ := query_loop_spec F method UMAD_SA_ATTR_SERVICE_REC comp_mask
    (some bytes) SIZEOF_IB_SERVICE_RECORD 1 0 1 st Out.null (Or.inr (by decide))
  obtain ⟨more, hmore⟩ := query_loop_starts _ _ _ _ _ _ _ _ _ _ _ _ hr0
  have hsupp : 0 ≤ dev_sa_response_method method := by
    rcases hm with h | h <;> rw [h] <;> decide
  obtain ⟨buf, dev, tid, rest, hsend⟩ := dev_sa_query_sends F st method
    UMAD_SA_ATTR_SERVICE_REC comp_mask (some bytes) SIZEOF_IB_SERVICE_RECORD Out.null 0
    (by decide) hsupp
  have hq : dev_sa_query_retries F st method UMAD_SA_ATTR_SERVICE_REC comp_mask
      (some bytes) SIZEOF_IB_SERVICE_RECORD Out.null 1 SR_DEV_SERVICE_REGISTER_RETRIES 0 =
      .ok r0 := by
    have hne : ¬ (method = UMAD_SA_METHOD_GET_TABLE) := by
      rcases hm with h | h <;> rw [h] <;> decide
    have hn : (SR_DEV_SERVICE_REGISTER_RETRIES - 1).toNat = 1 := by decide
    simp only [dev_sa_query_retries, hn, hr0, hne, and_false, if_false]
  obtain ⟨hcache, hreq⟩ := dev_sa_query_retries_frame _ _ _ _ _ _ _ _ _ _ _ _ hq
  refine ⟨r0, hq, hcache, ?_, ?_⟩
  · rw [hmore, hsend]
    simp [sends]
  · intro m hmem
    obtain ⟨buf2, dev2, tid2, hm2⟩ := hreq m hmem
    have hdata := sa_request_data buf2 dev2 method UMAD_SA_ATTR_SERVICE_REC tid2 comp_mask
      bytes 176 hb
    rw [hm2]
    exact ⟨rfl, rfl, rfl, rfl, hdata⟩

/-- The function `dev_register_service` returns, leaves the cache as it was, hands
at least one request to the transport, and each request it hands over is a SET
of the service-record attribute with the mask of the call and the bytes of
`record`. -/
theorem dev_register_service_spec {σ : Type} (F : Fabric σ) (st : State σ)
    (record : sr_ib_service_record) :
    ∃ r, dev_register_service F st record = .ok r ∧
      r.st.dev.service_cache = st.dev.service_cache ∧
      sends r.trace ≠ [] ∧
      ∀ m ∈ sends r.trace, m.method = 2 ∧ m.attr_id = 0x31 ∧
        m.comp_mask = (if (fit 16 record.service_key).headD 0 ≠ 0
          then register_comp_mask ||| BIT 5 else register_comp_mask) % 2 ^ 64 ∧
        m.data.take 176 = record.bytes := by
  obtain ⟨r0, hq, hcache, hne, hall⟩ := modify_query_spec F st UMAD_METHOD_SET
    (if (fit 16 record.service_key).headD 0 ≠ 0 then register_comp_mask ||| BIT 5
      else register_comp_mask) record.bytes (Or.inl rfl) (bytes_length record)
  simp only [dev_register_service, hq]
  by_cases hneg : r0.ret < 0
  · simp only [hneg, if_true]
    exact ⟨_, rfl, hcache, hne, fun m hm =>
      ⟨(hall m hm).1, (hall m hm).2.1, (hall m hm).2.2.2.1, (hall m hm).2.2.2.2⟩⟩
  · simp only [hneg, if_false]
    exact ⟨_, rfl, hcache, hne, fun m hm =>
      ⟨(hall m hm).1, (hall m hm).2.1, (hall m hm).2.2.2.1, (hall m hm).2.2.2.2⟩⟩

/-- Claim C14: with a payload that fits, `dev_register_service` returns; and when
it returns a negative code, `sr_register_service` returns that same code with the
state `dev_register_service` left, every slot of the cache is as it was before
the call, and the trace of `sr_register_service` is that of `dev_register_service`
alone, in which every request is a SET of the service-record attribute: no query
for stale registrations and no DELETE is issued. -/
theorem C14_failed_set_leaves_cache {σ : Type} (F : Fabric σ) (context : sr_ctx) (st : State σ)
    (data : List Nat) (data_size : Nat) (service_key : Option (List Nat))
    (old_srs : List sr_dev_service) (service : sr_dev_service) (record : sr_ib_service_record)
    (hsize : data_size ≤ SR_DEV_SERVICE_DATA_MAX) :
    ∃ r, dev_register_service F st (sr_prepare_ib_service_record context st.dev service record
        data data_size service_key).2.2 = .ok r ∧
      (r.ret < 0 →
        sr_register_service F context st data data_size service_key old_srs service record =
          .ok { st := r.st, ret := r.ret, trace := r.trace } ∧
        r.st.dev.service_cache = st.dev.service_cache ∧
        (∀ i, cache_at r.st.dev.service_cache i = cache_at st.dev.service_cache i) ∧
        ∀ m ∈ sends r.trace, m.method = 2 ∧ m.attr_id = 0x31) := by
  have hge : ¬ min data_size 64 < data_size := by
    simp only [SR_DEV_SERVICE_DATA_MAX] at hsize
    omega
  have hp : (sr_prepare_ib_service_record context st.dev service record data data_size
      service_key).1 = 0 := by
    simp only [sr_prepare_ib_service_record, SR_DEV_SERVICE_DATA_MAX, hge, if_false]
  obtain ⟨r, hr, hcache, _, hall⟩ := dev_register_service_spec F st
    (sr_prepare_ib_service_record context st.dev service record data data_size service_key).2.2
  refine ⟨r, hr, fun hneg => ⟨?_, hcache, fun i => by rw [hcache],
    fun m hm => ⟨(hall m hm).1, (hall m hm).2.1⟩⟩⟩
  have h0 : ¬ (sr_prepare_ib_service_record context st.dev service record data data_size
      service_key).1 < 0 := by rw [hp]; decide
  simp only [sr_register_service, h0, if_false, hr, hneg, if_true]

/-! ### The lifecycle on the simulated fabric -/

set_option maxRecDepth 1000000 in
/-- Claim C15, evaluated: the table of the simulated fabric holds a registration
of the name "svc-a" under another service ID (9).  The session's cache is empty,
its SET succeeds and `sr_register_service` returns 0; the sweep unregisters the
record with ID 9, and `remove_service`, called for ID 9, clears slot 0, where the
session's own entry had just been saved: on return no slot of the cache holds the
session's service ID, while the fabric holds the session's registration. -/
theorem C15_sweep_clears_saved_entry :
    (register_then_query [registered_record 9 1]).toOption.map
      (fun x => (x.1.ret, cache_ids x.1.st.dev.service_cache, deletes x.1.trace)) =
      some (0, [0, 0, 0, 0], [(9, List.replicate 16 1)]) ∧
    (register_then_query [registered_record 9 1]).toOption.map
      (fun x => (x.2.ret, (x.2.services.take 1).map (fun s => s.id))) =
      some (1, [SR_DEFAULT_SERVICE_ID]) ∧
    cache_ids (save_service (sample_dev SR_MAD_SEND_UMAD)
      { sample_service SR_DEFAULT_SERVICE_ID with name := [115, 118, 99, 45, 97] }).service_cache =
      [SR_DEFAULT_SERVICE_ID, 0, 0, 0] ∧
    cache_ids (remove_service (save_service (sample_dev SR_MAD_SEND_UMAD)
      { sample_service SR_DEFAULT_SERVICE_ID with name := [115, 118, 99, 45, 97] }) 9).service_cache =
      [0, 0, 0, 0] := by
  refine ⟨by decide, by decide, by decide, by decide⟩

set_option maxRecDepth 1000000 in
/-- Claim C17: on the simulated fabric with an empty table, the session with
service ID 0x100002c900000002 and name "svc-a" registers ten bytes of payload and
ends with exactly one populated cache slot, holding that ID and name; the query
that follows returns exactly one record, named "svc-a"; and the unregistration
that follows returns a failure count of 0, with one DELETE for the session's
record and the table empty afterwards. -/
theorem C17_register_query_unregister :
    register_query_unregister.toOption.map
      (fun x => (x.1.ret, populated x.1.st.dev.service_cache,
        (cache_at x.1.st.dev.service_cache 0).id, (cache_at x.1.st.dev.service_cache 0).name)) =
      some (0, 1, 0x100002c900000002, [115, 118, 99, 45, 97]) ∧
    register_query_unregister.toOption.map
      (fun x => (x.2.1.ret, (x.2.1.services.take 1).map (fun s => s.name))) =
      some (1, [[115, 118, 99, 45, 97]]) ∧
    register_query_unregister.toOption.map
      (fun x => (x.2.2.ret, deletes x.2.2.trace, x.2.2.st.fab)) =
      some (0, [(0x100002c900000002, List.replicate 16 7)], []) := by
  refine ⟨by decide, by decide, by decide⟩

set_option maxRecDepth 1000000 in
/-- Claim C18: the table of the simulated fabric (UMAD transport, GET_TABLE) holds
two registrations of "svc-a" under the port GIDs 1...1 and 2...2.  The session,
whose port GID is 7...7, registers: exactly two DELETE requests are issued, one
for each stale (ID, GID) pair and none for the GID 7...7, and the query that
follows finds one record, with the GID 7...7; the table holds that record only. -/
theorem C18_stale_registrations_deleted :
    (register_then_query [registered_record SR_DEFAULT_SERVICE_ID 1,
        registered_record SR_DEFAULT_SERVICE_ID 2]).toOption.map
      (fun x => (x.1.ret, deletes x.1.trace)) =
      some (0, [(SR_DEFAULT_SERVICE_ID, List.replicate 16 1),
          (SR_DEFAULT_SERVICE_ID, List.replicate 16 2)]) ∧
    (register_then_query [registered_record SR_DEFAULT_SERVICE_ID 1,
        registered_record SR_DEFAULT_SERVICE_ID 2]).toOption.map
      (fun x => (x.2.ret, (x.2.services.take 1).map (fun s => (s.id, s.name, s.port_gid)))) =
      some (1, [(SR_DEFAULT_SERVICE_ID, [115, 118, 99, 45, 97], List.replicate 16 7)]) ∧
    (register_then_query [registered_record SR_DEFAULT_SERVICE_ID 1,
        registered_record SR_DEFAULT_SERVICE_ID 2]).toOption.map (fun x => x.2.st.fab) =
      some [registered_record SR_DEFAULT_SERVICE_ID 7] := by
  refine ⟨by decide, by decide, by decide⟩

/-! ### The requests of registration and unregistration -/

theorem modify_query_props {σ : Type} (F : Fabric σ) (st : State σ) (method : Int)
    (comp_mask : Nat) (bytes : List Nat) (r : QueryRes σ)
    (h : dev_sa_query_retries F st method UMAD_SA_ATTR_SERVICE_REC comp_mask (some bytes)
      SIZEOF_IB_SERVICE_RECORD Out.null 1 SR_DEV_SERVICE_REGISTER_RETRIES 0 = .ok r)
    (hm : method = UMAD_METHOD_SET ∨ method = UMAD_SA_METHOD_DELETE) (hb : bytes.length = 176) :
    r.st.dev.service_cache = st.dev.service_cache ∧
    sends r.trace ≠ [] ∧
    ∀ m ∈ sends r.trace, m.method = (method % 256).toNat ∧ m.attr_id = 0x31 ∧
      m.mgmt_class = UMAD_CLASS_SUBN_ADM ∧ m.comp_mask = comp_mask % 2 ^ 64 ∧
      m.data.take 176 = bytes := by
  obtain ⟨r1, hr1, h1, h2, h3⟩ := modify_query_spec F st method comp_mask bytes hm hb
  rw [h] at hr1
  simp only [Except.ok.injEq] at hr1
  rw [hr1]
  exact ⟨h1, h2, h3⟩

theorem modify_query_no_error {σ : Type} (F : Fabric σ) (st : State σ) (method : Int)
    (comp_mask : Nat) (bytes : List Nat) (e : Fault)
    (hm : method = UMAD_METHOD_SET ∨ method = UMAD_SA_METHOD_DELETE) (hb : bytes.length = 176) :
    ¬ (dev_sa_query_retries F st method UMAD_SA_ATTR_SERVICE_REC comp_mask (some bytes)
      SIZEOF_IB_SERVICE_RECORD Out.null 1 SR_DEV_SERVICE_REGISTER_RETRIES 0 = .error e) := by
  obtain ⟨r1, hr1, _⟩ := modify_query_spec F st method comp_mask bytes hm hb
  rw [hr1]
  intro h
  cases h

theorem remove_service_fields (dev : sr_dev) (id : Nat) :
    (remove_service dev id).pkey = dev.pkey ∧ (remove_service dev id).port_gid = dev.port_gid := by
  simp only [remove_service]
  repeat' split
  all_goals exact ⟨rfl, rfl⟩

theorem fit_memcpy_16 (g : List Nat) (h : g.length = 16) :
    fit 16 (memcpy (List.replicate 16 0) g 16) = g := by
  have h1 : memcpy (List.replicate 16 0) g 16 = g := by
    simp only [memcpy, List.drop_replicate, Nat.sub_self, List.replicate_zero, List.append_nil]
    exact List.take_of_length_le (Nat.le_of_eq h)
  rw [h1]
  exact fit_of_length 16 g h

/-- What `dev_unregister_service` does, for any fabric: it returns; the cache is
what `remove_service` made of it; at least one request is handed to the
transport; and every request handed over is a DELETE of the service-record
attribute with the mask and the record of the call. -/
theorem dev_unregister_service_spec {σ : Type} (F : Fabric σ) (st : State σ) (id : Nat)
    (port_gid service_key : Option (List Nat))
    (hdev : st.dev.port_gid.length = 16)
    (hgid : ∀ g, port_gid = some g → g.length = 16)
    (hkey : ∀ k, service_key = some k → k.length = 16) :
    ∃ r, dev_unregister_service F st id port_gid service_key = .ok r ∧
      r.st.dev.service_cache = (remove_service st.dev id).service_cache ∧
      sends r.trace ≠ [] ∧
      ∀ m ∈ sends r.trace, m.method = 0x15 ∧ m.attr_id = 0x31 ∧
        m.comp_mask = (if service_key.isSome then 0x27 else 0x7) ∧
        m.data.take 176 = __cpu_to_be64 id ++ port_gid.getD st.dev.port_gid ++
          __cpu_to_be16 st.dev.pkey ++ List.replicate 6 0 ++
          service_key.getD (List.replicate 16 0) ++ List.replicate 128 0 := by
  obtain ⟨hpk, hpg⟩ := remove_service_fields st.dev id
  have hid : fit 8 (__cpu_to_be64 id) = __cpu_to_be64 id := fit_of_length _ _ (be_bytes_length 8 id)
  have hpkey : fit 2 (__cpu_to_be16 st.dev.pkey) = __cpu_to_be16 st.dev.pkey :=
    fit_of_length _ _ (be_bytes_length 2 _)
  have hz16 : fit 16 (List.replicate 16 0) = List.replicate 16 0 := by decide
  have hz2 : fit 2 (List.replicate 2 0) = List.replicate 2 0 := by decide
  have hz4 : fit 4 (List.replicate 4 0) = List.replicate 4 0 := by decide
  have hz64 : fit 64 (List.replicate 64 0) = List.replicate 64 0 := by decide
  have hzz : ∀ (a b : List Nat), a ++ List.replicate 2 0 ++ List.replicate 4 0 ++ b ++
      List.replicate 64 0 ++ List.replicate 64 0 = a ++ List.replicate 6 0 ++ b ++
      List.replicate 128 0 := by
    intro a b
    have e1 : List.replicate 6 0 = List.replicate 2 0 ++ List.replicate 4 (0 : Nat) := by decide
    have e2 : List.replicate 128 0 = List.replicate 64 0 ++ List.replicate 64 (0 : Nat) := by
      decide
    rw [e1, e2]
    simp only [List.append_assoc]
  rcases port_gid with _ | g <;> rcases service_key with _ | k
  all_goals simp only [dev_unregister_service]
  all_goals split
  all_goals first
    | (rename_i e he
       exact absurd he (modify_query_no_error F _ _ _ _ e (Or.inr rfl) (bytes_length _)))
    | skip
  all_goals rename_i r0 hq
  all_goals obtain ⟨h1, h2, h3⟩ := modify_query_props F _ _ _ _ r0 hq (Or.inr rfl) (bytes_length _)
  all_goals simp only [sr_ib_service_record.bytes, sr_ib_service_record.zero, hpk, hpg, hid, hpkey,
    hz2, hz4, hz16, hz64] at h3
  · rw [fit_memcpy_16 _ hdev, hzz] at h3
    by_cases hneg : r0.ret < 0
    · simp only [hneg, if_true]
      exact ⟨_, rfl, h1, h2, fun m hm =>
        ⟨(h3 m hm).1, (h3 m hm).2.1, (h3 m hm).2.2.2.1, (h3 m hm).2.2.2.2⟩⟩
    · simp only [hneg, if_false]
      exact ⟨_, rfl, h1, h2, fun m hm =>
        ⟨(h3 m hm).1, (h3 m hm).2.1, (h3 m hm).2.2.2.1, (h3 m hm).2.2.2.2⟩⟩
  · rw [fit_memcpy_16 _ hdev, fit_memcpy_16 _ (hkey k rfl), hzz] at h3
    by_cases hneg : r0.ret < 0
    · simp only [hneg, if_true]
      exact ⟨_, rfl, h1, h2, fun m hm =>
        ⟨(h3 m hm).1, (h3 m hm).2.1, (h3 m hm).2.2.2.1, (h3 m hm).2.2.2.2⟩⟩
    · simp only [hneg, if_false]
      exact ⟨_, rfl, h1, h2, fun m hm =>
        ⟨(h3 m hm).1, (h3 m hm).2.1, (h3 m hm).2.2.2.1, (h3 m hm).2.2.2.2⟩⟩
  · rw [fit_memcpy_16 _ (hgid g rfl), hzz] at h3
    by_cases hneg : r0.ret < 0
    · simp only [hneg, if_true]
      exact ⟨_, rfl, h1, h2, fun m hm =>
        ⟨(h3 m hm).1, (h3 m hm).2.1, (h3 m hm).2.2.2.1, (h3 m hm).2.2.2.2⟩⟩
    · simp only [hneg, if_false]
      exact ⟨_, rfl, h1, h2, fun m hm =>
        ⟨(h3 m hm).1, (h3 m hm).2.1, (h3 m hm).2.2.2.1, (h3 m hm).2.2.2.2⟩⟩
  · rw [fit_memcpy_16 _ (hgid g rfl), fit_memcpy_16 _ (hkey k rfl), hzz] at h3
    by_cases hneg : r0.ret < 0
    · simp only [hneg, if_true]
      exact ⟨_, rfl, h1, h2, fun m hm =>
        ⟨(h3 m hm).1, (h3 m hm).2.1, (h3 m hm).2.2.2.1, (h3 m hm).2.2.2.2⟩⟩
    · simp only [hneg, if_false]
      exact ⟨_, rfl, h1, h2, fun m hm =>
        ⟨(h3 m hm).1, (h3 m hm).2.1, (h3 m hm).2.2.2.1, (h3 m hm).2.2.2.2⟩⟩

/-- Claim C20: `dev_unregister_service` returns and hands at least one request to
the transport; every request it hands over is a DELETE (method 0x15) of the
service-record attribute whose component mask is exactly bits 0, 1, 2 (0x7)
without a key and exactly bits 0, 1, 2, 5 (0x27) with a key, and whose record is
the ID in big-endian, the given port GID (the device's own when none is given),
the device's pkey in big-endian, six zero bytes (reserved, lease), the key (zero
without one) and 128 zero bytes (name, data). -/
theorem C20_delete_request {σ : Type} (F : Fabric σ) (st : State σ) (id : Nat)
    (port_gid service_key : Option (List Nat))
    (hdev : st.dev.port_gid.length = 16)
    (hgid : ∀ g, port_gid = some g → g.length = 16)
    (hkey : ∀ k, service_key = some k → k.length = 16) :
    (BIT 0 ||| BIT 1 ||| BIT 2 = 0x7 ∧ BIT 0 ||| BIT 1 ||| BIT 2 ||| BIT 5 = 0x27) ∧
    ∃ r, dev_unregister_service F st id port_gid service_key = .ok r ∧
      sends r.trace ≠ [] ∧
      ∀ m ∈ sends r.trace, m.method = 0x15 ∧ m.attr_id = 0x31 ∧
        m.comp_mask = (if service_key.isSome then 0x27 else 0x7) ∧
        m.data.take 176 = __cpu_to_be64 id ++ port_gid.getD st.dev.port_gid ++
          __cpu_to_be16 st.dev.pkey ++ List.replicate 6 0 ++
          service_key.getD (List.replicate 16 0) ++ List.replicate 128 0 := by
  obtain ⟨r, hr, _, hne, hall⟩ := dev_unregister_service_spec F st id port_gid service_key hdev
    hgid hkey
  exact ⟨⟨by decide, by decide⟩, r, hr, hne, hall⟩

/-- The function `dev_unregister_service` returns, whatever the fabric does, and
every request it hands to the transport is a DELETE that carries the given ID. -/
theorem dev_unregister_service_requests {σ : Type} (F : Fabric σ) (st : State σ) (id : Nat)
    (port_gid service_key : Option (List Nat)) :
    ∃ r, dev_unregister_service F st id port_gid service_key = .ok r ∧
      sends r.trace ≠ [] ∧
      ∀ m ∈ sends r.trace, m.method = 0x15 ∧ m.data.take 8 = __cpu_to_be64 id := by
  have hid : fit 8 (__cpu_to_be64 id) = __cpu_to_be64 id := fit_of_length _ _ (be_bytes_length 8 id)
  have htake : ∀ (m : umad_sa_packet) (r : sr_ib_service_record),
      r.service_id = __cpu_to_be64 id → m.data.take 176 = r.bytes →
      m.data.take 8 = __cpu_to_be64 id := by
    intro m r hr hm
    have h8 : m.data.take 8 = (m.data.take 176).take 8 := by
      rw [List.take_take]; rfl
    rw [h8, hm]
    simp only [sr_ib_service_record.bytes, hr, hid, List.append_assoc]
    have hl : (__cpu_to_be64 id).length = 8 := be_bytes_length 8 id
    rw [List.take_append_of_le_length (Nat.le_of_eq hl.symm)]
    exact List.take_of_length_le (Nat.le_of_eq hl)
  rcases port_gid with _ | g <;> rcases service_key with _ | k
  all_goals simp only [dev_unregister_service]
  all_goals split
  all_goals first
    | (rename_i e he
       exact absurd he (modify_query_no_error F _ _ _ _ e (Or.inr rfl) (bytes_length _)))
    | skip
  all_goals rename_i r0 hq
  all_goals obtain ⟨h1, h2, h3⟩ := modify_query_props F _ _ _ _ r0 hq (Or.inr rfl) (bytes_length _)
  all_goals by_cases hneg : r0.ret < 0
  all_goals simp only [hneg, if_true, if_false]
  all_goals exact ⟨_, rfl, h2, fun m hm => ⟨(h3 m hm).1, htake m _ rfl (h3 m hm).2.2.2.2⟩⟩

/-- Unregistering each record of a list returns, with one return value for each
record, and every request it hands to the transport is a DELETE that carries the
ID of a record of the list. -/
theorem unregister_each_spec {σ : Type} (F : Fabric σ) (service_key : Option (List Nat)) :
    ∀ (records : List sr_dev_service) (st : State σ),
      ∃ st2 rets trace, unregister_each F service_key records st = .ok (st2, rets, trace) ∧
        rets.length = records.length ∧
        (records ≠ [] → sends trace ≠ []) ∧
        ∀ m ∈ sends trace, m.method = 0x15 ∧
          ∃ s ∈ records, m.data.take 8 = __cpu_to_be64 s.id := by
  intro records
  induction records with
  | nil =>
    intro st
    exact ⟨st, [], [], rfl, rfl, fun h => absurd rfl h, fun m hm => by simp [sends] at hm⟩
  | cons s rest ih =>
    intro st
    obtain ⟨r, hr, hne, hall⟩ := dev_unregister_service_requests F st s.id (some s.port_gid)
      service_key
    obtain ⟨st2, rets, trace, h1, h2, _, h4⟩ := ih r.st
    refine ⟨st2, r.ret :: rets, r.trace ++ trace, ?_, ?_, ?_, ?_⟩
    · simp only [unregister_each, hr, h1]
    · simp only [List.length_cons, h2]
    · intro _ hnil
      rw [sends_append] at hnil
      exact hne (List.append_eq_nil.mp hnil).1
    · intro m hm
      rw [sends_append] at hm
      rcases List.mem_append.mp hm with h | h
      · exact ⟨(hall m h).1, s, List.mem_cons_self _ _, (hall m h).2⟩
      · obtain ⟨hm1, s2, hs2, hm2⟩ := h4 m h
        exact ⟨hm1, s2, List.mem_cons_of_mem _ hs2, hm2⟩

theorem failures_cons (x : Int) (rets : List Int) :
    failures (x :: rets) = (if x < 0 then 1 else 0) + failures rets := by
  unfold failures
  by_cases h : x < 0
  · simp [List.filter_cons, h]
    omega
  · simp [List.filter_cons, h]

/-- The loop of `sr_unregister_service` over the entries `i` to `i + fuel` of the
result array unregisters those of them that hold the session's service ID, one
after the other, and adds the number of negative return values to `result`. -/
theorem unregister_matching_eq {σ : Type} (F : Fabric σ) (context : sr_ctx)
    (service_key : Option (List Nat)) (old_srs : List sr_dev_service) :
    ∀ (fuel i : Nat) (st : State σ) (result : Int), i + fuel ≤ old_srs.length →
      unregister_matching F context service_key old_srs fuel i st result =
        match unregister_each F service_key
            (((old_srs.drop i).take fuel).filter (fun s => s.id = context.service_id)) st with
        | .error e => .error e
        | .ok (st2, rets, trace) => .ok (st2, result + failures rets, trace) := by
  intro fuel
  induction fuel with
  | zero =>
    intro i st result _
    simp [unregister_matching, unregister_each, failures]
  | succ fuel ih =>
    intro i st result hle
    have hi : i < old_srs.length := by omega
    have hget : old_srs[i]? = some old_srs[i] := List.getElem?_eq_getElem hi
    have hdrop : (old_srs.drop i).take (fuel + 1) =
        old_srs[i] :: (old_srs.drop (i + 1)).take fuel := by
      rw [List.drop_eq_getElem_cons hi, List.take_succ_cons]
    simp only [unregister_matching, hget, hdrop]
    by_cases hid : old_srs[i].id = context.service_id
    · have hf : (old_srs[i] :: (old_srs.drop (i + 1)).take fuel).filter
          (fun s => decide (s.id = context.service_id)) =
          old_srs[i] :: ((old_srs.drop (i + 1)).take fuel).filter
            (fun s => decide (s.id = context.service_id)) := by
        simp [List.filter_cons, hid]
      rw [if_pos hid, hf]
      simp only [unregister_each]
      cases hu : dev_unregister_service F st old_srs[i].id (some old_srs[i].port_gid)
          service_key with
      | error e => rfl
      | ok r =>
        simp only []
        rw [ih (i + 1) r.st _ (by omega)]
        cases hrest : unregister_each F service_key
            (((old_srs.drop (i + 1)).take fuel).filter
              (fun s => decide (s.id = context.service_id))) r.st with
        | error e => rfl
        | ok x =>
          obtain ⟨st2, rets, trace⟩ := x
          simp only [failures_cons]
          by_cases hneg : r.ret < 0
          · simp only [hneg, if_true, Except.ok.injEq, Prod.mk.injEq, true_and, and_true]
            omega
          · simp only [hneg, if_false, Except.ok.injEq, Prod.mk.injEq, true_and, and_true]
            omega
    · have hf : (old_srs[i] :: (old_srs.drop (i + 1)).take fuel).filter
          (fun s => decide (s.id = context.service_id)) =
          ((old_srs.drop (i + 1)).take fuel).filter
            (fun s => decide (s.id = context.service_id)) := by
        simp [List.filter_cons, hid]
      rw [if_neg hid, hf]
      exact ih (i + 1) st result (by omega)

/-- The copy loop of `dev_get_service` keeps the length of the result array and
ends with `j` within it. -/
theorem dev_get_service_copy_bound (context : sr_ctx) (name : List Nat)
    (raw_data : Option (List Nat)) (record_size max just_copy : Int) :
    ∀ (fuel i j : Nat) (services services2 : List sr_dev_service) (j2 : Nat),
      dev_get_service_copy context name raw_data record_size max just_copy fuel i j services =
        .ok (services2, j2) →
      j ≤ services.length → j2 ≤ services2.length ∧ services2.length = services.length := by
  intro fuel
  induction fuel with
  | zero =>
    intro i j services services2 j2 h hj
    simp only [dev_get_service_copy, Except.ok.injEq, Prod.mk.injEq] at h
    rw [← h.1, ← h.2]
    exact ⟨hj, rfl⟩
  | succ fuel ih =>
    intro i j services services2 j2 h hj
    simp only [dev_get_service_copy] at h
    split at h
    · simp only [Except.ok.injEq, Prod.mk.injEq] at h
      rw [← h.1, ← h.2]
      exact ⟨hj, rfl⟩
    · split at h
      · cases h
      · split at h
        · cases h
        · exact ih _ _ _ _ _ h hj
        · split at h
          · cases h
          · rename_i slot hslot
            split at h
            · cases h
            · have hlt : j < services.length := by
                by_contra hge
                rw [List.getElem?_eq_none (by omega)] at hslot
                cases hslot
              obtain ⟨h1, h2⟩ := ih _ _ _ _ _ h (by rw [List.length_set]; omega)
              rw [List.length_set] at h2
              exact ⟨h1, h2⟩

theorem dev_get_service_bound {σ : Type} (F : Fabric σ) (context : sr_ctx) (st : State σ)
    (name : List Nat) (services : List sr_dev_service) (max retries just_copy : Int)
    (g : GetRes σ)
    (h : dev_get_service F context st name services max retries just_copy = .ok g) :
    g.ret.toNat ≤ g.services.length := by
  simp only [dev_get_service] at h
  split at h
  · cases h
  · split at h
    · simp only [Except.ok.injEq] at h
      rw [← h]
      have : ∀ (x : Int), x < 0 → x.toNat = 0 := fun x hx => by omega
      rename_i hneg
      simp only [this _ hneg, Nat.zero_le]
    · split at h
      · cases h
      · rename_i s2 j hcopy
        simp only [Except.ok.injEq] at h
        rw [← h]
        obtain ⟨h1, _⟩ := dev_get_service_copy_bound _ _ _ _ _ _ _ _ _ _ _ _ hcopy (Nat.zero_le _)
        simpa using h1

theorem failures_eq_zero (rets : List Int) : failures rets = 0 ↔ ∀ x ∈ rets, 0 ≤ x := by
  unfold failures
  rw [Int.natCast_eq_zero, List.length_eq_zero, List.filter_eq_nil_iff]
  constructor
  · intro h x hx
    have := h x hx
    simp only [decide_eq_true_eq] at this
    omega
  · intro h x hx
    have := h x hx
    simp only [decide_eq_true_eq]
    omega

/-- When the name query of `sr_unregister_service` returns, the function calls
`dev_unregister_service`, one call after the other and whatever the calls
return, for exactly those of the `count` returned records whose ID is the
session's service ID; every request of these calls is a DELETE that carries the
session's service ID; and the value returned is the number of these calls that
returned a negative value. -/
theorem sr_unregister_service_calls {σ : Type} (F : Fabric σ) (context : sr_ctx)
    (st : State σ) (service_key : Option (List Nat)) (old_srs : List sr_dev_service)
    (g : GetRes σ)
    (hg : dev_get_service F context st context.service_name old_srs SRS_MAX context.sr_retries 0 =
      .ok g) :
    ∃ st2 rets trace,
      unregister_each F service_key
        ((g.services.take g.ret.toNat).filter (fun s => s.id = context.service_id)) g.st =
        .ok (st2, rets, trace) ∧
      rets.length =
        ((g.services.take g.ret.toNat).filter (fun s => s.id = context.service_id)).length ∧
      (∀ m ∈ sends trace, m.method = 0x15 ∧ m.data.take 8 = __cpu_to_be64 context.service_id) ∧
      sr_unregister_service F context st service_key old_srs =
        .ok { st := st2, ret := failures rets, trace := g.trace ++ trace } ∧
      (failures rets = 0 ↔ ∀ x ∈ rets, 0 ≤ x) := by
  obtain ⟨st2, rets, trace, h1, h2, _, h4⟩ := unregister_each_spec F service_key
    ((g.services.take g.ret.toNat).filter (fun s => s.id = context.service_id)) g.st
  refine ⟨st2, rets, trace, h1, h2, ?_, ?_, failures_eq_zero rets⟩
  · intro m hm
    obtain ⟨hm1, s, hs, hm2⟩ := h4 m hm
    have hsid : s.id = context.service_id := by
      have := (List.mem_filter.mp hs).2
      simpa using this
    rw [← hsid]
    exact ⟨hm1, hm2⟩
  · have hb := dev_get_service_bound F context st context.service_name old_srs SRS_MAX
      context.sr_retries 0 g hg
    have heq := unregister_matching_eq F context service_key g.services g.ret.toNat 0 g.st 0
      (by omega)
    rw [List.drop_zero, h1] at heq
    simp only [sr_unregister_service, hg, heq, zero_add]

set_option maxRecDepth 1000000 in
/-- The calls of `sr_unregister_service` on the simulated fabric whose table holds
the session's registration and one of the same name under the service ID 9: the
name query returns two records, and one of them is unregistered. -/
theorem sr_unregister_service_calls_sample :
    (sample_query_result.ret = 2 ∧
      (sample_query_result.services.take 2).map (fun s => s.id) = [SR_DEFAULT_SERVICE_ID, 9]) ∧
    ∃ st2 rets trace,
      unregister_each sim_fabric none
        ((sample_query_result.services.take sample_query_result.ret.toNat).filter
          (fun s => s.id = (sample_ctx 20).service_id)) sample_query_result.st =
        .ok (st2, rets, trace) ∧
      rets.length =
        ((sample_query_result.services.take sample_query_result.ret.toNat).filter
          (fun s => s.id = (sample_ctx 20).service_id)).length ∧
      (∀ m ∈ sends trace, m.method = 0x15 ∧
        m.data.take 8 = __cpu_to_be64 (sample_ctx 20).service_id) ∧
      sr_unregister_service sim_fabric (sample_ctx 20)
          ⟨sample_table, sample_dev SR_MAD_SEND_UMAD⟩ none blank_srs =
        .ok { st := st2, ret := failures rets, trace := sample_query_result.trace ++ trace } ∧
      (failures rets = 0 ↔ ∀ x ∈ rets, 0 ≤ x) :=
  ⟨⟨by decide, by decide⟩,
    sr_unregister_service_calls sim_fabric (sample_ctx 20)
      ⟨sample_table, sample_dev SR_MAD_SEND_UMAD⟩ none blank_srs sample_query_result rfl⟩

set_option maxRecDepth 1000000 in
/-- Claim C16, examined on a subnet administrator that turns every DELETE down
(`deny_delete_fabric`), with a table that holds the session's registration and
one of the same name under the service ID 9.  The name query of
`sr_unregister_service` succeeds with both records; one DELETE is sent, for the
record with the session's service ID and GID 7...7, and none for the ID 9; the
response to that DELETE has the status 0x0700; the attempt returns 0, and
`sr_unregister_service` returns 0, the number of failures it counted, while the
table of the subnet administrator still holds both records.  The DELETE that
failed is not counted. -/
theorem C16_denied_delete_not_counted :
    (dev_get_service deny_delete_fabric (sample_ctx 20)
        ⟨sample_table, sample_dev SR_MAD_SEND_UMAD⟩ (sample_ctx 20).service_name blank_srs SRS_MAX
        (sample_ctx 20).sr_retries 0).toOption.map
      (fun g => (g.ret, (g.services.take 2).map (fun s => s.id))) =
      some (2, [SR_DEFAULT_SERVICE_ID, 9]) ∧
    (sr_unregister_service deny_delete_fabric (sample_ctx 20)
        ⟨sample_table, sample_dev SR_MAD_SEND_UMAD⟩ none blank_srs).toOption.map
      (fun r => (r.ret, deletes r.trace, attempts r.trace, decide (r.st.fab = sample_table))) =
      some (0, [(SR_DEFAULT_SERVICE_ID, List.replicate 16 7)], [2, 0], true) ∧
    (sr_unregister_service deny_delete_fabric (sample_ctx 20)
        ⟨sample_table, sample_dev SR_MAD_SEND_UMAD⟩ none blank_srs).toOption.map
      (fun r => ((sends r.trace).filter (fun m => m.method = 0x15)).map
        (fun m => (deny_delete_reply sample_table m).2.map (fun d => d.mad.status))) =
      some [[0x0700]] ∧
    sample_table.map (fun rec => be_value (rec.take 8)) = [SR_DEFAULT_SERVICE_ID, 9] := by
  refine ⟨by decide, by decide, by decide, by decide⟩

/-! ### Instances of the lifecycle theorems at concrete inputs -/

set_option maxRecDepth 1000000 in
/-- Claim C14 on a fabric that answers nothing: the SET times out twice and
`dev_register_service` returns `-ETIMEDOUT`. -/
theorem C14_failed_set_leaves_cache_witness :
    (dev_register_service silent_fabric ⟨(), sample_dev SR_MAD_SEND_UMAD⟩
      (sr_prepare_ib_service_record (sample_ctx 20) (sample_dev SR_MAD_SEND_UMAD)
        sr_dev_service.zero sr_ib_service_record.zero sample_payload 10 none).2.2).toOption.map
      (fun r => (r.ret, attempts r.trace)) = some (-ETIMEDOUT, [-ETIMEDOUT, -ETIMEDOUT]) ∧
    ∃ r, dev_register_service silent_fabric ⟨(), sample_dev SR_MAD_SEND_UMAD⟩
        (sr_prepare_ib_service_record (sample_ctx 20)
          (State.mk () (sample_dev SR_MAD_SEND_UMAD)).dev sr_dev_service.zero
          sr_ib_service_record.zero sample_payload 10 none).2.2 = .ok r ∧
      (r.ret < 0 →
        sr_register_service silent_fabric (sample_ctx 20) ⟨(), sample_dev SR_MAD_SEND_UMAD⟩
            sample_payload 10 none blank_srs sr_dev_service.zero sr_ib_service_record.zero =
          .ok { st := r.st, ret := r.ret, trace := r.trace } ∧
        r.st.dev.service_cache = (State.mk () (sample_dev SR_MAD_SEND_UMAD)).dev.service_cache ∧
        (∀ i, cache_at r.st.dev.service_cache i =
          cache_at (State.mk () (sample_dev SR_MAD_SEND_UMAD)).dev.service_cache i) ∧
        ∀ m ∈ sends r.trace, m.method = 2 ∧ m.attr_id = 0x31) :=
  ⟨by decide,
    C14_failed_set_leaves_cache silent_fabric (sample_ctx 20) ⟨(), sample_dev SR_MAD_SEND_UMAD⟩
      sample_payload 10 none blank_srs sr_dev_service.zero sr_ib_service_record.zero (by decide)⟩

/-- Claim C20 at the default service ID, the port GID 1...1 and a key of sixteen
bytes 9. -/
theorem C20_delete_request_witness :
    (BIT 0 ||| BIT 1 ||| BIT 2 = 0x7 ∧ BIT 0 ||| BIT 1 ||| BIT 2 ||| BIT 5 = 0x27) ∧
    ∃ r, dev_unregister_service silent_fabric ⟨(), sample_dev SR_MAD_SEND_UMAD⟩
        SR_DEFAULT_SERVICE_ID (some (List.replicate 16 1)) (some (List.replicate 16 9)) = .ok r ∧
      sends r.trace ≠ [] ∧
      ∀ m ∈ sends r.trace, m.method = 0x15 ∧ m.attr_id = 0x31 ∧
        m.comp_mask = (if (some (List.replicate 16 9)).isSome then 0x27 else 0x7) ∧
        m.data.take 176 = __cpu_to_be64 SR_DEFAULT_SERVICE_ID ++
          (some (List.replicate 16 1)).getD
            (State.mk () (sample_dev SR_MAD_SEND_UMAD)).dev.port_gid ++
          __cpu_to_be16 (State.mk () (sample_dev SR_MAD_SEND_UMAD)).dev.pkey ++
          List.replicate 6 0 ++
          (some (List.replicate 16 9)).getD (List.replicate 16 0) ++ List.replicate 128 0 :=
  C20_delete_request silent_fabric ⟨(), sample_dev SR_MAD_SEND_UMAD⟩ SR_DEFAULT_SERVICE_ID
    (some (List.replicate 16 1)) (some (List.replicate 16 9)) (by decide) (by simp) (by simp)

/-! ### Status decoding -/

theorem status_code_bits (s : Nat) : ((s >>> 2) &&& 0x7) % 256 = (s / 4) % 8 := by
  have h1 : (s >>> 2) &&& 0x7 = (s >>> 2) % 8 := Nat.and_pow_two_sub_one_eq_mod (s >>> 2) 3
  rw [h1, Nat.shiftRight_eq_div_pow]
  have : s / 2 ^ 2 % 8 < 8 := Nat.mod_lt _ (by decide)
  omega

theorem sa_code_bits (s : Nat) (hs : s < 2 ^ 16) : (s >>> 8) % 256 = s / 256 := by
  rw [Nat.shiftRight_eq_div_pow]
  omega

/-- Claim C27: for every 16-bit status value `s`, `report_sa_err` returns `EPROTO`;
the invalid-field code it decodes is `(s >> 2) & 7`, that is `(s / 4) % 8` (bits 2
to 4), and the SA status code is `s >> 8`, that is `s / 256` (bits 8 to 15).  It
logs a MAD-error name exactly when the invalid-field code is in 1..7 and an
SA-status name exactly when the SA code is in 1..7; the name is then the entry of
the table at that index, which lies within the eight entries of the table.  The
SA names at 1..7 are no-resources, invalid-request, no-records, too-many-records,
invalid-gid, insufficient-components and request-denied, in that order. -/
theorem C27_status_decoding (s : Nat) (hide_errors : Int) (hs : s < 2 ^ 16) :
    (report_sa_err s hide_errors).1 = EPROTO ∧
    ((s >>> 2) &&& 0x7) % 256 = (s / 4) % 8 ∧ (s >>> 8) % 256 = s / 256 ∧
    ((s / 4) % 8 < mad_invalid_field_errors.length ∧ mad_invalid_field_errors.length = 8) ∧
    (1 ≤ (s / 4) % 8 ∧ (s / 4) % 8 ≤ 7 →
      ∃ name, mad_invalid_field_errors[(s / 4) % 8]? = some name ∧
        (report_sa_err s hide_errors).2.2.1 = some name) ∧
    (¬ (1 ≤ (s / 4) % 8 ∧ (s / 4) % 8 ≤ 7) → (report_sa_err s hide_errors).2.2.1 = none) ∧
    (1 ≤ s / 256 ∧ s / 256 ≤ 7 →
      s / 256 < sa_errors.length ∧
      ∃ name, sa_errors[s / 256]? = some name ∧
        (report_sa_err s hide_errors).2.2.2 = some name) ∧
    (¬ (1 ≤ s / 256 ∧ s / 256 ≤ 7) → (report_sa_err s hide_errors).2.2.2 = none) ∧
    sa_errors.drop 1 = ["ERR_NO_RESOURCES", "ERR_REQ_INVALID", "ERR_NO_RECORDS",
      "ERR_TOO_MANY_RECORDS", "ERR_REQ_INVALID_GID", "ERR_REQ_INSUFFICIENT_COMPONENTS",
      "ERR_REQ_DENIED"] := by
  have hc := status_code_bits s
  have hsa := sa_code_bits s hs
  have hlt : (s / 4) % 8 < 8 := Nat.mod_lt _ (by decide)
  refine ⟨rfl, hc, hsa, ⟨hlt, rfl⟩, ?_, ?_, ?_, ?_, rfl⟩
  · intro ⟨h1, h7⟩
    have hne : (s / 4) % 8 ≠ 0 := by omega
    simp only [report_sa_err, hc, hne, ne_eq, not_false_eq_true, if_true]
    generalize (s / 4) % 8 = c at hlt h1 h7
    interval_cases c <;> exact ⟨_, rfl, rfl⟩
  · intro h
    have he : (s / 4) % 8 = 0 := by omega
    simp only [report_sa_err, hc, he, ne_eq, not_true_eq_false, if_false]
  · intro ⟨h1, h7⟩
    have hpos : s / 256 > 0 ∧ s / 256 ≤ 7 := ⟨by omega, h7⟩
    simp only [report_sa_err, hsa, hpos, and_self, if_true]
    generalize s / 256 = c at h1 h7
    interval_cases c <;> exact ⟨by decide, _, rfl⟩
  · intro h
    have hpos : ¬ (s / 256 > 0 ∧ s / 256 ≤ 7) := by
      intro ⟨a, b⟩
      exact h ⟨by omega, b⟩
    simp only [report_sa_err, hsa, hpos, if_false]

/-- Claim C27 at the status 0x0704: SA status 7 (request denied), invalid-field
code 1 (bad version or class). -/
theorem C27_status_decoding_witness :
    (report_sa_err 0x0704 0).1 = EPROTO ∧
    ((0x0704 >>> 2) &&& 0x7) % 256 = (0x0704 / 4) % 8 ∧ (0x0704 >>> 8) % 256 = 0x0704 / 256 ∧
    ((0x0704 / 4) % 8 < mad_invalid_field_errors.length ∧ mad_invalid_field_errors.length = 8) ∧
    (1 ≤ (0x0704 / 4) % 8 ∧ (0x0704 / 4) % 8 ≤ 7 →
      ∃ name, mad_invalid_field_errors[(0x0704 / 4) % 8]? = some name ∧
        (report_sa_err 0x0704 0).2.2.1 = some name) ∧
    (¬ (1 ≤ (0x0704 / 4) % 8 ∧ (0x0704 / 4) % 8 ≤ 7) → (report_sa_err 0x0704 0).2.2.1 = none) ∧
    (1 ≤ 0x0704 / 256 ∧ 0x0704 / 256 ≤ 7 →
      0x0704 / 256 < sa_errors.length ∧
      ∃ name, sa_errors[0x0704 / 256]? = some name ∧
        (report_sa_err 0x0704 0).2.2.2 = some name) ∧
    (¬ (1 ≤ 0x0704 / 256 ∧ 0x0704 / 256 ≤ 7) → (report_sa_err 0x0704 0).2.2.2 = none) ∧
    sa_errors.drop 1 = ["ERR_NO_RESOURCES", "ERR_REQ_INVALID", "ERR_NO_RECORDS",
      "ERR_TOO_MANY_RECORDS", "ERR_REQ_INVALID_GID", "ERR_REQ_INSUFFICIENT_COMPONENTS",
      "ERR_REQ_DENIED"] :=
  C27_status_decoding 0x0704 0 (by decide)

/-! ### The size guard of a single attempt -/

/-- Claim C24: for every method and attribute, a single attempt whose request
payload is larger than `UMAD_LEN_SA_DATA` (a size above 256 in particular) returns
`-ENOBUFS`, a negative value, with the state (the device and its MAD buffer
included) and the output variables as they were and without any send or
receive, on either transport and through `dev_sa_query`; a request of the size
of a service record, 176 bytes, is not above `UMAD_LEN_SA_DATA`, and with a
supported method it is handed to the transport. -/
theorem C24_request_size_guard {σ : Type} (F : Fabric σ) (st : State σ) (method attr : Int)
    (comp_mask : Nat) (req_data : Option (List Nat)) (req_size : Int) (out : Out)
    (hide_errors : Int) :
    (UMAD_LEN_SA_DATA < req_size →
      -ENOBUFS < 0 ∧
      verbs_dev_sa_query F st method attr comp_mask req_data req_size out hide_errors =
        { st := st, ret := -ENOBUFS, out := out, trace := [] } ∧
      umad_dev_sa_query F st method attr comp_mask req_data req_size out hide_errors =
        { st := st, ret := -ENOBUFS, out := out, trace := [] } ∧
      dev_sa_query F st method attr comp_mask req_data req_size out hide_errors =
        { st := st, ret := -ENOBUFS, out := out, trace := [.attempt (-ENOBUFS)] }) ∧
    (256 < req_size → UMAD_LEN_SA_DATA < req_size) ∧
    ((SIZEOF_IB_SERVICE_RECORD : Int) = 176 ∧ (SIZEOF_IB_SERVICE_RECORD : Int) ≤ UMAD_LEN_SA_DATA) ∧
    (0 ≤ dev_sa_response_method method →
      ∃ buf dev tid rest,
        (dev_sa_query F st method attr comp_mask req_data SIZEOF_IB_SERVICE_RECORD out
          hide_errors).trace =
          .send (sa_request buf dev method attr tid comp_mask req_data SIZEOF_IB_SERVICE_RECORD) ::
            rest) := by
  refine ⟨fun hbig => ?_, fun h => ?_, ⟨rfl, by decide⟩, fun hm => ?_⟩
  · have hgt : req_size > UMAD_LEN_SA_DATA := hbig
    have h1 : verbs_dev_sa_query F st method attr comp_mask req_data req_size out hide_errors =
        { st := st, ret := -ENOBUFS, out := out, trace := [] } := by
      simp only [verbs_dev_sa_query, hgt, if_true]
    have h2 : umad_dev_sa_query F st method attr comp_mask req_data req_size out hide_errors =
        { st := st, ret := -ENOBUFS, out := out, trace := [] } := by
      simp only [umad_dev_sa_query, hgt, if_true]
    refine ⟨by decide, h1, h2, ?_⟩
    simp only [dev_sa_query, h1, h2, ite_self, List.nil_append]
  · have : UMAD_LEN_SA_DATA = 200 := rfl
    omega
  · exact dev_sa_query_sends F st method attr comp_mask req_data SIZEOF_IB_SERVICE_RECORD out
      hide_errors (by decide) hm

/-- Claim C24 at a GET_TABLE with a payload size of 201 and a SET of 176 bytes. -/
theorem C24_request_size_guard_witness :
    (-ENOBUFS < 0 ∧
      verbs_dev_sa_query silent_fabric ⟨(), sample_dev SR_MAD_SEND_VERBS⟩ UMAD_SA_METHOD_GET_TABLE
          UMAD_SA_ATTR_SERVICE_REC 1 none 201 sample_out 0 =
        { st := ⟨(), sample_dev SR_MAD_SEND_VERBS⟩, ret := -ENOBUFS, out := sample_out, trace := [] } ∧
      umad_dev_sa_query silent_fabric ⟨(), sample_dev SR_MAD_SEND_VERBS⟩ UMAD_SA_METHOD_GET_TABLE
          UMAD_SA_ATTR_SERVICE_REC 1 none 201 sample_out 0 =
        { st := ⟨(), sample_dev SR_MAD_SEND_VERBS⟩, ret := -ENOBUFS, out := sample_out, trace := [] } ∧
      dev_sa_query silent_fabric ⟨(), sample_dev SR_MAD_SEND_VERBS⟩ UMAD_SA_METHOD_GET_TABLE
          UMAD_SA_ATTR_SERVICE_REC 1 none 201 sample_out 0 =
        { st := ⟨(), sample_dev SR_MAD_SEND_VERBS⟩, ret := -ENOBUFS, out := sample_out,
          trace := [.attempt (-ENOBUFS)] }) ∧
    ∃ buf dev tid rest,
      (dev_sa_query silent_fabric ⟨(), sample_dev SR_MAD_SEND_VERBS⟩ UMAD_METHOD_SET
        UMAD_SA_ATTR_SERVICE_REC 1 (some sr_ib_service_record.zero.bytes) SIZEOF_IB_SERVICE_RECORD
        Out.null 0).trace =
        .send (sa_request buf dev UMAD_METHOD_SET UMAD_SA_ATTR_SERVICE_REC tid 1
          (some sr_ib_service_record.zero.bytes) SIZEOF_IB_SERVICE_RECORD) :: rest :=
  ⟨(C24_request_size_guard silent_fabric ⟨(), sample_dev SR_MAD_SEND_VERBS⟩
      UMAD_SA_METHOD_GET_TABLE UMAD_SA_ATTR_SERVICE_REC 1 none 201 sample_out 0).1 (by decide),
    (C24_request_size_guard silent_fabric ⟨(), sample_dev SR_MAD_SEND_VERBS⟩ UMAD_METHOD_SET
      UMAD_SA_ATTR_SERVICE_REC 1 (some sr_ib_service_record.zero.bytes) 0 Out.null 0).2.2.2
      (by decide)⟩

/-! ### The retry controller, for every budget and method -/

theorem getLast_attempts (init : List Int) (x : Int) : (init ++ [x]).getLast? = some x := by
  simp

/-- What `dev_sa_query_retries` does, for every fabric, method and budget, given a
response pointer or `allow_zero`: it returns; the value returned is that of the
last attempt; the attempts of the first pass are at least 1 and at most
`(retries - 1).toNat + 1`; `services_dev_update` is called at most once, and only
for a GET_TABLE whose first pass ended with a negative value; the attempts after
it are again at most `(retries - 1).toNat + 1`. -/
theorem dev_sa_query_retries_spec {σ : Type} (F : Fabric σ) (st : State σ) (method attr : Int)
    (comp_mask : Nat) (req_data : Option (List Nat)) (req_size : Int) (out : Out)
    (allow_zero retries hide_errors : Int) (hout : out.resp_data ≠ none ∨ allow_zero ≠ 0) :
    ∃ r, dev_sa_query_retries F st method attr comp_mask req_data req_size out allow_zero retries
        hide_errors = .ok r ∧
      (r.out.resp_data = none ↔ out.resp_data = none) ∧
      (attempts r.trace).getLast? = some r.ret ∧
      ((updates r.trace = [] ∧ 1 ≤ (attempts r.trace).length ∧
          (attempts r.trace).length ≤ (retries - 1).toNat + 1) ∨
        (method = UMAD_SA_METHOD_GET_TABLE ∧
          ∃ tr1 u tr2 x, r.trace = tr1 ++ .dev_update u :: tr2 ∧
            updates tr1 = [] ∧ updates tr2 = [] ∧ updates r.trace = [u] ∧
            (attempts tr1).getLast? = some x ∧ x < 0 ∧
            1 ≤ (attempts tr1).length ∧ (attempts tr1).length ≤ (retries - 1).toNat + 1 ∧
            (attempts tr2).length ≤ (retries - 1).toNat + 1 ∧
            (u ≠ 0 → tr2 = []))) := by
  by_cases hm : method = UMAD_SA_METHOD_GET_TABLE
  · subst hm
    obtain ⟨r1, hr1, ho1, hu1, init1, hi1, hlen1, _, _⟩ :=
      query_loop_spec F UMAD_SA_METHOD_GET_TABLE attr comp_mask req_data req_size allow_zero
        hide_errors (retries - 1).toNat st out hout
    have hout1 : r1.out.resp_data ≠ none ∨ allow_zero ≠ 0 := by
      rcases hout with h | h
      · exact Or.inl (fun h' => h (ho1.mp h'))
      · exact Or.inr h
    have hlast1 : (attempts r1.trace).getLast? = some r1.ret := by
      rw [hi1]; exact getLast_attempts _ _
    have hcount1 : 1 ≤ (attempts r1.trace).length ∧
        (attempts r1.trace).length ≤ (retries - 1).toNat + 1 := by
      rw [hi1, List.length_append, List.length_singleton]
      omega
    by_cases hneg : r1.ret < 0
    · rcases hupd : services_dev_update F r1.st with ⟨st2, u⟩
      by_cases hu : u = 0
      · obtain ⟨r2, hr2, ho2, hu2, init2, hi2, hlen2, _, _⟩ :=
          query_loop_spec F UMAD_SA_METHOD_GET_TABLE attr comp_mask req_data req_size allow_zero
            hide_errors (retries - 1).toNat st2 r1.out hout1
        have htr : r1.trace ++ [Event.dev_update u] ++ r2.trace =
            r1.trace ++ Event.dev_update u :: r2.trace := by simp
        refine ⟨{ r2 with trace := r1.trace ++ [.dev_update u] ++ r2.trace }, ?_, ?_, ?_, ?_⟩
        · simp only [dev_sa_query_retries, hr1, hneg, and_self, if_true, hupd, hu, hr2]
        · exact ho2.trans ho1
        · show (attempts (r1.trace ++ [Event.dev_update u] ++ r2.trace)).getLast? = some r2.ret
          rw [htr, attempts_append, attempts_update_cons, hi2, ← List.append_assoc]
          exact getLast_attempts _ _
        · refine Or.inr ⟨rfl, r1.trace, u, r2.trace, r1.ret, htr, hu1, hu2, ?_, hlast1, hneg,
            hcount1.1, hcount1.2, ?_, fun h => absurd hu h⟩
          · show updates (r1.trace ++ [Event.dev_update u] ++ r2.trace) = [u]
            rw [htr, updates_append, updates_update_cons, hu1, hu2]
            rfl
          · rw [hi2, List.length_append, List.length_singleton]
            omega
      · refine ⟨{ r1 with st := st2, trace := r1.trace ++ [.dev_update u] }, ?_, ho1, ?_, ?_⟩
        · simp only [dev_sa_query_retries, hr1, hneg, and_self, if_true, hupd, hu, if_false]
        · show (attempts (r1.trace ++ [Event.dev_update u])).getLast? = some r1.ret
          rw [attempts_append]
          show (attempts r1.trace ++ []).getLast? = some r1.ret
          rw [List.append_nil]
          exact hlast1
        · refine Or.inr ⟨rfl, r1.trace, u, [], r1.ret, rfl, hu1, rfl, ?_, hlast1, hneg,
            hcount1.1, hcount1.2, Nat.zero_le _, fun _ => rfl⟩
          show updates (r1.trace ++ [Event.dev_update u]) = [u]
          rw [updates_append, hu1]
          rfl
    · refine ⟨r1, ?_, ho1, hlast1, Or.inl ⟨hu1, hcount1⟩⟩
      simp only [dev_sa_query_retries, hr1, hneg, false_and, if_false]
  · obtain ⟨r1, hr1, ho1, hu1, init1, hi1, hlen1, _, _⟩ :=
      query_loop_spec F method attr comp_mask req_data req_size allow_zero
        hide_errors (retries - 1).toNat st out hout
    refine ⟨r1, ?_, ho1, ?_, Or.inl ⟨hu1, ?_, ?_⟩⟩
    · simp only [dev_sa_query_retries, hr1, hm, and_false, if_false]
    · rw [hi1]; exact getLast_attempts _ _
    · rw [hi1, List.length_append, List.length_singleton]
      omega
    · rw [hi1, List.length_append, List.length_singleton]
      omega

theorem toNat_pred_succ_max (retries : Int) :
    (((retries - 1).toNat + 1 : Nat) : Int) = max 1 retries := by
  rcases le_total 1 retries with h | h
  · rw [max_eq_right h]; omega
  · rw [max_eq_left h]; omega

/-- Claim C28: for every retry budget `retries` above `INT_MIN` (zero and negative
ones included), every method and every fabric, `dev_sa_query_retries`, given a
response pointer or `allow_zero`, returns after at least 1 and at most
`2 * max 1 retries` single attempts and at most one call of
`services_dev_update`; a call of `services_dev_update` happens only when the
method is GET_TABLE, and then the attempts before it are a complete first pass
whose last attempt returned a negative value; and the value returned is the
result of the last attempt made. -/
theorem C28_retries_terminate {σ : Type} (F : Fabric σ) (st : State σ) (method attr : Int)
    (comp_mask : Nat) (req_data : Option (List Nat)) (req_size : Int) (out : Out)
    (allow_zero retries hide_errors : Int) (_hint : -2 ^ 31 < retries)
    (hout : out.resp_data ≠ none ∨ allow_zero ≠ 0) :
    ∃ r, dev_sa_query_retries F st method attr comp_mask req_data req_size out allow_zero retries
        hide_errors = .ok r ∧
      1 ≤ (attempts r.trace).length ∧
      ((attempts r.trace).length : Int) ≤ 2 * max 1 retries ∧
      (updates r.trace).length ≤ 1 ∧
      (updates r.trace ≠ [] →
        method = UMAD_SA_METHOD_GET_TABLE ∧
        ∃ tr1 u tr2 x, r.trace = tr1 ++ .dev_update u :: tr2 ∧ updates tr1 = [] ∧
          updates tr2 = [] ∧ (attempts tr1).getLast? = some x ∧ x < 0) ∧
      (attempts r.trace).getLast? = some r.ret := by
  obtain ⟨r, hr, _, hlast, hcases⟩ := dev_sa_query_retries_spec F st method attr comp_mask
    req_data req_size out allow_zero retries hide_errors hout
  have hmax := toNat_pred_succ_max retries
  have hpos : (1 : Int) ≤ max 1 retries := le_max_left _ _
  refine ⟨r, hr, ?_, ?_, ?_, ?_, hlast⟩
  · rcases hcases with ⟨_, h1, _⟩ | ⟨_, tr1, u, tr2, x, htr, _, _, _, _, _, h1, _, _, _⟩
    · exact h1
    · rw [htr, attempts_append, attempts_update_cons, List.length_append]
      omega
  · rcases hcases with ⟨_, _, h2⟩ | ⟨_, tr1, u, tr2, x, htr, _, _, _, _, _, _, h2, h3, _⟩
    · have : ((attempts r.trace).length : Int) ≤ (((retries - 1).toNat + 1 : Nat) : Int) := by
        exact_mod_cast h2
      rw [hmax] at this
      omega
    · rw [htr, attempts_append, attempts_update_cons, List.length_append]
      have e2 : ((attempts tr1).length : Int) ≤ (((retries - 1).toNat + 1 : Nat) : Int) := by
        exact_mod_cast h2
      have e3 : ((attempts tr2).length : Int) ≤ (((retries - 1).toNat + 1 : Nat) : Int) := by
        exact_mod_cast h3
      rw [hmax] at e2 e3
      push_cast
      omega
  · rcases hcases with ⟨h0, _, _⟩ | ⟨_, tr1, u, tr2, x, _, _, _, hu, _⟩
    · rw [h0]; exact Nat.zero_le _
    · rw [hu]; exact le_refl _
  · intro hne
    rcases hcases with ⟨h0, _, _⟩ | ⟨hm, tr1, u, tr2, x, htr, h1, h2, _, hx, hneg, _⟩
    · exact absurd h0 hne
    · exact ⟨hm, tr1, u, tr2, x, htr, h1, h2, hx, hneg⟩

/-! ### Queries for services -/

theorem verbs_query_send_type {σ : Type} (F : Fabric σ) (st : State σ) (method attr : Int)
    (comp_mask : Nat) (req_data : Option (List Nat)) (req_size : Int) (out : Out)
    (hide_errors : Int) :
    (verbs_dev_sa_query F st method attr comp_mask req_data req_size out
      hide_errors).st.dev.mad_send_type = st.dev.mad_send_type := by
  simp only [verbs_dev_sa_query]
  repeat' split
  all_goals rfl

theorem umad_query_send_type {σ : Type} (F : Fabric σ) (st : State σ) (method attr : Int)
    (comp_mask : Nat) (req_data : Option (List Nat)) (req_size : Int) (out : Out)
    (hide_errors : Int) :
    (umad_dev_sa_query F st method attr comp_mask req_data req_size out
      hide_errors).st.dev.mad_send_type = st.dev.mad_send_type := by
  simp only [umad_dev_sa_query]
  repeat' split
  all_goals rfl

/-- A single attempt leaves the transport selection of the device as it was. -/
theorem dev_sa_query_send_type {σ : Type} (F : Fabric σ) (st : State σ) (method attr : Int)
    (comp_mask : Nat) (req_data : Option (List Nat)) (req_size : Int) (out : Out)
    (hide_errors : Int) :
    (dev_sa_query F st method attr comp_mask req_data req_size out
      hide_errors).st.dev.mad_send_type = st.dev.mad_send_type := by
  unfold dev_sa_query
  by_cases h : st.dev.mad_send_type = SR_MAD_SEND_UMAD
  · simp only [h, if_true]
    exact (umad_query_send_type F st method attr comp_mask req_data req_size out hide_errors).trans h
  · simp only [h, if_false]
    exact verbs_query_send_type F st method attr comp_mask req_data req_size out hide_errors

theorem verbs_recv_loop_ret (response_method : Int) (tid : Nat) :
    ∀ incoming : List mad_recv_result,
      (∀ ret k, verbs_recv_loop response_method tid incoming = (.failed ret, k) → ret < 0) ∧
      (∀ mad len ret k, verbs_recv_loop response_method tid incoming = (.matched mad len ret, k) →
        ret = 0) := by
  intro incoming
  induction incoming with
  | nil =>
    constructor
    · intro ret k h
      simp only [verbs_recv_loop, mad_recv, Prod.mk.injEq, Received.failed.injEq] at h
      rw [← h.1]; decide
    · intro mad len ret k h
      simp only [verbs_recv_loop, mad_recv, Prod.mk.injEq] at h
      cases h.1
  | cons ev rest ih =>
    cases ev with
    | poll_failed =>
      constructor
      · intro ret k h
        simp only [verbs_recv_loop, mad_recv, Prod.mk.injEq, Received.failed.injEq] at h
        rw [← h.1]; decide
      · intro mad len ret k h
        simp only [verbs_recv_loop, mad_recv, Prod.mk.injEq] at h
        cases h.1
    | timed_out =>
      constructor
      · intro ret k h
        simp only [verbs_recv_loop, mad_recv, Prod.mk.injEq, Received.failed.injEq] at h
        rw [← h.1]; decide
      · intro mad len ret k h
        simp only [verbs_recv_loop, mad_recv, Prod.mk.injEq] at h
        cases h.1
    | completed m byte_len =>
      constructor
      · intro ret k h
        simp only [verbs_recv_loop, mad_recv, lt_self_iff_false, if_false] at h
        split at h
        · simp only [Prod.mk.injEq] at h
          cases h.1
        · simp only [Prod.mk.injEq] at h
          exact ih.1 ret _ (Prod.ext h.1 rfl)
      · intro mad len ret k h
        simp only [verbs_recv_loop, mad_recv, lt_self_iff_false, if_false] at h
        split at h
        · simp only [Prod.mk.injEq, Received.matched.injEq] at h
          exact h.1.2.2.symm
        · simp only [Prod.mk.injEq] at h
          exact ih.2 mad len ret _ (Prod.ext h.1 rfl)

/-- The value `sa_finish` returns. -/
theorem sa_finish_ret (method : Int) (sa_mad : umad_sa_packet) (len ret : Int) (out : Out)
    (hide_errors : Int) :
    (sa_finish method sa_mad len ret out hide_errors).1 =
      if sa_mad.status ≠ 0 then ret
      else if to_size_t len < SA_DATA_OFFSET then -EPROTO
      else if method = UMAD_SA_METHOD_GET_TABLE then
        (if ((sa_mad.attr_offset : Int) * 8) ≠ 0 then
          to_int (to_size_t (len - SA_DATA_OFFSET) / to_size_t ((sa_mad.attr_offset : Int) * 8))
        else 0)
      else 1 := by
  simp only [sa_finish]
  split
  · rfl
  · split
    · rfl
    · rfl

theorem sa_finish_le_one (method : Int) (sa_mad : umad_sa_packet) (len ret : Int) (out : Out)
    (hide_errors : Int) (hm : method ≠ UMAD_SA_METHOD_GET_TABLE) (hret : ret ≤ 1) :
    (sa_finish method sa_mad len ret out hide_errors).1 ≤ 1 := by
  rw [sa_finish_ret]
  split
  · exact hret
  · split
    · decide
    · exact le_refl _

/-- On the verbs transport a single attempt of a method other than GET_TABLE
returns at most 1. -/
theorem verbs_query_le_one {σ : Type} (F : Fabric σ) (st : State σ) (method attr : Int)
    (comp_mask : Nat) (req_data : Option (List Nat)) (req_size : Int) (out : Out)
    (hide_errors : Int) (hm : method ≠ UMAD_SA_METHOD_GET_TABLE) :
    (verbs_dev_sa_query F st method attr comp_mask req_data req_size out hide_errors).ret ≤ 1 := by
  have hneg : (-ENOBUFS : Int) ≤ 1 := by decide
  simp only [verbs_dev_sa_query]
  split
  · exact hneg
  · split
    · rename_i h; exact le_trans (le_of_lt h) (by decide)
    · simp only [mad_send]
      split
      · show (-1 : Int) ≤ 1
        decide
      · split
        · exact le_refl _
        · dsimp only
          rw [if_neg (by simp)]
          split
          · rename_i ret k hloop
            exact le_trans (le_of_lt ((verbs_recv_loop_ret _ _ _).1 ret k hloop)) (by decide)
          · rename_i mad len ret k hloop
            have h0 := (verbs_recv_loop_ret _ _ _).2 mad len ret k hloop
            exact sa_finish_le_one method mad len ret out hide_errors hm (by rw [h0]; decide)

/-- The copy loop of `dev_get_service` fills at most one entry a round. -/
theorem dev_get_service_copy_count (context : sr_ctx) (name : List Nat)
    (raw_data : Option (List Nat)) (record_size max just_copy : Int) :
    ∀ (fuel i j : Nat) (services services2 : List sr_dev_service) (j2 : Nat),
      dev_get_service_copy context name raw_data record_size max just_copy fuel i j services =
        .ok (services2, j2) → j2 ≤ j + fuel := by
  intro fuel
  induction fuel with
  | zero =>
    intro i j services services2 j2 h
    simp only [dev_get_service_copy, Except.ok.injEq, Prod.mk.injEq] at h
    omega
  | succ fuel ih =>
    intro i j services services2 j2 h
    simp only [dev_get_service_copy] at h
    split at h
    · simp only [Except.ok.injEq, Prod.mk.injEq] at h
      omega
    · split at h
      · cases h
      · split at h
        · cases h
        · have := ih _ _ _ _ _ h
          omega
        · split at h
          · cases h
          · split at h
            · cases h
            · have := ih _ _ _ _ _ h
              omega

/-- On a device set to a verbs transport, a single attempt for a method other
than GET_TABLE returns at most 1. -/
theorem dev_sa_query_le_one {σ : Type} (F : Fabric σ) (st : State σ) (method attr : Int)
    (comp_mask : Nat) (req_data : Option (List Nat)) (req_size : Int) (out : Out)
    (hide_errors : Int) (hverbs : st.dev.mad_send_type ≠ SR_MAD_SEND_UMAD)
    (hm : method ≠ UMAD_SA_METHOD_GET_TABLE) :
    (dev_sa_query F st method attr comp_mask req_data req_size out hide_errors).ret ≤ 1 := by
  simp only [dev_sa_query, hverbs, if_false]
  exact verbs_query_le_one F st method attr comp_mask req_data req_size out hide_errors hm

/-- On a device set to a verbs transport, every attempt of the retry loop for a
method other than GET_TABLE returns at most 1, and so does the loop. -/
theorem query_loop_le_one {σ : Type} (F : Fabric σ) (method attr : Int) (comp_mask : Nat)
    (req_data : Option (List Nat)) (req_size : Int) (allow_zero hide_errors : Int)
    (hm : method ≠ UMAD_SA_METHOD_GET_TABLE) :
    ∀ (n : Nat) (st : State σ) (out : Out) (r : QueryRes σ),
      st.dev.mad_send_type ≠ SR_MAD_SEND_UMAD →
      query_loop F method attr comp_mask req_data req_size allow_zero hide_errors n st out = .ok r →
      (∀ x ∈ attempts r.trace, x ≤ 1) ∧ r.ret ≤ 1 := by
  intro n
  induction n with
  | zero =>
    intro st out r hverbs h
    obtain ⟨h1, _, _⟩ := dev_sa_query_facts F st method attr comp_mask req_data req_size out
      hide_errors
    have hle := dev_sa_query_le_one F st method attr comp_mask req_data req_size out hide_errors
      hverbs hm
    simp only [query_loop, Except.ok.injEq] at h
    rw [← h, h1]
    exact ⟨fun x hx => by rw [List.mem_singleton.mp hx]; exact hle, hle⟩
  | succ n ih =>
    intro st out r hverbs h
    obtain ⟨h1, _, _⟩ := dev_sa_query_facts F st method attr comp_mask req_data req_size out
      hide_errors
    have hle := dev_sa_query_le_one F st method attr comp_mask req_data req_size out hide_errors
      hverbs hm
    have hst := dev_sa_query_send_type F st method attr comp_mask req_data req_size out hide_errors
    simp only [query_loop] at h
    split at h
    · simp only [Except.ok.injEq] at h
      rw [← h, h1]
      exact ⟨fun x hx => by rw [List.mem_singleton.mp hx]; exact hle, hle⟩
    · split at h
      · cases h
      · rename_i out2 ev hfreed
        split at h
        · cases h
        · rename_i r2 hr2
          obtain ⟨h3, h4⟩ := ih _ _ _ (by rw [hst]; exact hverbs) hr2
          simp only [Except.ok.injEq] at h
          rw [← h]
          refine ⟨?_, h4⟩
          have hev : attempts ev = [] := by
            split at hfreed
            · split at hfreed
              · cases hfreed
              · simp only [Except.ok.injEq, Prod.mk.injEq] at hfreed
                rw [← hfreed.2]; rfl
            · simp only [Except.ok.injEq, Prod.mk.injEq] at hfreed
              rw [← hfreed.2]; rfl
          intro x hx
          simp only [attempts_append, h1, hev, List.append_nil] at hx
          rcases List.mem_append.mp hx with hx1 | hx2
          · rcases List.mem_append.mp hx1 with hx3 | hx4
            · rw [List.mem_singleton.mp hx3]; exact hle
            · simp [attempts] at hx4
          · exact h3 x hx2

theorem dev_sa_query_retries_eq_loop {σ : Type} (F : Fabric σ) (st : State σ) (method attr : Int)
    (comp_mask : Nat) (req_data : Option (List Nat)) (req_size : Int) (out : Out)
    (allow_zero retries hide_errors : Int) (hm : method ≠ UMAD_SA_METHOD_GET_TABLE) :
    dev_sa_query_retries F st method attr comp_mask req_data req_size out allow_zero retries
      hide_errors =
    query_loop F method attr comp_mask req_data req_size allow_zero hide_errors
      (retries - 1).toNat st out := by
  simp only [dev_sa_query_retries, hm, and_false, if_false]
  split
  · rename_i e he; rw [he]
  · rename_i r hr; rw [hr]

/-- The function `dev_get_service`, given what its query returned. -/
theorem dev_get_service_unfold {σ : Type} (F : Fabric σ) (context : sr_ctx) (st : State σ)
    (name : List Nat) (services : List sr_dev_service) (max retries just_copy : Int)
    (r : QueryRes σ)
    (hq : dev_sa_query_retries F st
      (if st.dev.mad_send_type = SR_MAD_SEND_UMAD then UMAD_SA_METHOD_GET_TABLE else UMAD_METHOD_GET)
      UMAD_SA_ATTR_SERVICE_REC (BIT 0) none 0 { resp_data := some none, resp_attr_size := some 0 }
      0 retries ((context.flags &&& SR_HIDE_ERRORS : Nat) : Int) = .ok r) :
    dev_get_service F context st name services max retries just_copy =
      if r.ret < 0 then .ok { st := r.st, ret := r.ret, services := services, trace := r.trace }
      else
        match dev_get_service_copy context name (r.out.resp_data.getD none)
            (r.out.resp_attr_size.getD 0) max just_copy r.ret.toNat 0 0 services with
        | .error e => .error e
        | .ok (services, j) => .ok { st := r.st, ret := j, services := services, trace := r.trace } := by
  simp only [dev_get_service, hq]

/-- The query of `dev_get_service` returns, with the value of its last attempt, and
every request in its trace was built with the component mask `BIT 0` and without
a request payload. -/
theorem dev_get_service_query {σ : Type} (F : Fabric σ) (context : sr_ctx) (st : State σ)
    (retries : Int) :
    ∃ r, dev_sa_query_retries F st
        (if st.dev.mad_send_type = SR_MAD_SEND_UMAD then UMAD_SA_METHOD_GET_TABLE
          else UMAD_METHOD_GET)
        UMAD_SA_ATTR_SERVICE_REC (BIT 0) none 0 { resp_data := some none, resp_attr_size := some 0 }
        0 retries ((context.flags &&& SR_HIDE_ERRORS : Nat) : Int) = .ok r ∧
      (attempts r.trace).getLast? = some r.ret ∧
      requests_are
        (if st.dev.mad_send_type = SR_MAD_SEND_UMAD then UMAD_SA_METHOD_GET_TABLE
          else UMAD_METHOD_GET)
        UMAD_SA_ATTR_SERVICE_REC (BIT 0) none 0 r.trace := by
  obtain ⟨r, hr, _, hlast, _⟩ := dev_sa_query_retries_spec F st
    (if st.dev.mad_send_type = SR_MAD_SEND_UMAD then UMAD_SA_METHOD_GET_TABLE else UMAD_METHOD_GET)
    UMAD_SA_ATTR_SERVICE_REC (BIT 0) none 0 { resp_data := some none, resp_attr_size := some 0 }
    0 retries ((context.flags &&& SR_HIDE_ERRORS : Nat) : Int) (Or.inl (by simp))
  exact ⟨r, hr, hlast, (dev_sa_query_retries_frame _ _ _ _ _ _ _ _ _ _ _ _ hr).2⟩

/-- The trace of `dev_get_service`, when it returns, is that of its query. -/
theorem dev_get_service_trace {σ : Type} (F : Fabric σ) (context : sr_ctx) (st : State σ)
    (name : List Nat) (services : List sr_dev_service) (max retries just_copy : Int)
    (r : QueryRes σ) (g : GetRes σ)
    (hq : dev_sa_query_retries F st
      (if st.dev.mad_send_type = SR_MAD_SEND_UMAD then UMAD_SA_METHOD_GET_TABLE else UMAD_METHOD_GET)
      UMAD_SA_ATTR_SERVICE_REC (BIT 0) none 0 { resp_data := some none, resp_attr_size := some 0 }
      0 retries ((context.flags &&& SR_HIDE_ERRORS : Nat) : Int) = .ok r)
    (hg : dev_get_service F context st name services max retries just_copy = .ok g) :
    g.trace = r.trace ∧ g.st = r.st ∧ (r.ret < 0 → g.ret = r.ret ∧ g.services = services) ∧
      (0 ≤ r.ret → 0 ≤ g.ret ∧ g.ret ≤ r.ret) := by
  rw [dev_get_service_unfold F context st name services max retries just_copy r hq] at hg
  split at hg
  · rename_i hneg
    simp only [Except.ok.injEq] at hg
    rw [← hg]
    exact ⟨rfl, rfl, fun _ => ⟨rfl, rfl⟩, fun h => absurd hneg (by omega)⟩
  · rename_i hnn
    split at hg
    · cases hg
    · rename_i s2 j hcopy
      simp only [Except.ok.injEq] at hg
      rw [← hg]
      refine ⟨rfl, rfl, fun h => absurd h hnn, fun h => ⟨Int.natCast_nonneg _, ?_⟩⟩
      have hb := dev_get_service_copy_count _ _ _ _ _ _ _ _ _ _ _ _ hcopy
      show (j : Int) ≤ r.ret
      omega

/-- A request built without request data: its method byte, its component mask,
and its data, which is the data of the buffer it was built in. -/
theorem sa_request_fields (buf : umad_sa_packet) (dev : sr_dev) (method attr : Int)
    (tid comp_mask : Nat) (req_size : Int) :
    (sa_request buf dev method attr tid comp_mask none req_size).method = (method % 256).toNat ∧
    (sa_request buf dev method attr tid comp_mask none req_size).comp_mask = comp_mask % 2 ^ 64 ∧
    (sa_request buf dev method attr tid comp_mask none req_size).data = buf.data :=
  ⟨rfl, rfl, rfl⟩

/-- The requests of `dev_get_service`: sent with GET_TABLE (0x12) on UMAD and GET
(0x01) on the other transports, with component mask 1, and with the data of the
buffer they were built in left as it was. -/
theorem dev_get_service_requests {σ : Type} (F : Fabric σ) (context : sr_ctx) (st : State σ)
    (retries : Int) :
    ∃ r, dev_sa_query_retries F st
        (if st.dev.mad_send_type = SR_MAD_SEND_UMAD then UMAD_SA_METHOD_GET_TABLE
          else UMAD_METHOD_GET)
        UMAD_SA_ATTR_SERVICE_REC (BIT 0) none 0 { resp_data := some none, resp_attr_size := some 0 }
        0 retries ((context.flags &&& SR_HIDE_ERRORS : Nat) : Int) = .ok r ∧
      (attempts r.trace).getLast? = some r.ret ∧
      ∀ m ∈ sends r.trace,
        m.method = (if st.dev.mad_send_type = SR_MAD_SEND_UMAD then 0x12 else 0x01) ∧
        m.comp_mask = 1 ∧
        ∃ buf dev tid, m = sa_request buf dev
          (if st.dev.mad_send_type = SR_MAD_SEND_UMAD then UMAD_SA_METHOD_GET_TABLE
            else UMAD_METHOD_GET)
          UMAD_SA_ATTR_SERVICE_REC tid (BIT 0) none 0 ∧ m.data = buf.data := by
  obtain ⟨r, hr, hlast, hreq⟩ := dev_get_service_query F context st retries
  refine ⟨r, hr, hlast, fun m hm => ?_⟩
  obtain ⟨buf, dev, tid, hmeq⟩ := hreq m hm
  refine ⟨?_, ?_, buf, dev, tid, hmeq, ?_⟩
  · rw [hmeq]
    by_cases h : st.dev.mad_send_type = SR_MAD_SEND_UMAD
    · simp only [h, if_true]; rfl
    · simp only [h, if_false]; rfl
  · rw [hmeq]; rfl
  · rw [hmeq]; rfl

set_option maxRecDepth 1000000 in
/-- Claim C21, examined: the query of `dev_get_service` returns for every fabric,
and every request in it carries the component mask 1 (bit 0 alone) but was built
with a null request payload of size 0, so that the data of the request is what
the buffer held before; the trace of `dev_get_service` is that of this query.
On the simulated fabric (UMAD, a zeroed buffer for every request) the session
with the service ID 0x100002c900000002 registers and then queries: the one
request of the query is a GET_TABLE with mask 1 whose 176 record bytes are all
zero, while the big-endian service ID is 10 00 02 c9 00 00 00 02. -/
theorem C21_query_sends_no_record {σ : Type} (F : Fabric σ) (context : sr_ctx) (st : State σ)
    (name : List Nat) (services : List sr_dev_service) (max retries just_copy : Int) :
    (∃ r, dev_sa_query_retries F st
        (if st.dev.mad_send_type = SR_MAD_SEND_UMAD then UMAD_SA_METHOD_GET_TABLE
          else UMAD_METHOD_GET)
        UMAD_SA_ATTR_SERVICE_REC (BIT 0) none 0 { resp_data := some none, resp_attr_size := some 0 }
        0 retries ((context.flags &&& SR_HIDE_ERRORS : Nat) : Int) = .ok r ∧
      (∀ m ∈ sends r.trace, m.comp_mask = 1 ∧
        ∃ buf dev tid, m = sa_request buf dev
          (if st.dev.mad_send_type = SR_MAD_SEND_UMAD then UMAD_SA_METHOD_GET_TABLE
            else UMAD_METHOD_GET)
          UMAD_SA_ATTR_SERVICE_REC tid (BIT 0) none 0 ∧ m.data = buf.data) ∧
      ∀ g, dev_get_service F context st name services max retries just_copy = .ok g →
        g.trace = r.trace) ∧
    (register_then_query []).toOption.map
      (fun x => (x.2.ret, (sends x.2.trace).map (fun m => (m.method, m.comp_mask, m.data.take 176)))) =
      some (1, [(0x12, 1, List.replicate 176 0)]) ∧
    __cpu_to_be64 (sample_ctx 20).service_id = [0x10, 0x00, 0x02, 0xc9, 0x00, 0x00, 0x00, 0x02] := by
  refine ⟨?_, by decide, by decide⟩
  obtain ⟨r, hr, _, hall⟩ := dev_get_service_requests F context st retries
  exact ⟨r, hr, fun m hm => ⟨(hall m hm).2.1, (hall m hm).2.2⟩,
    fun g hg => (dev_get_service_trace F context st name services max retries just_copy r g hr hg).1⟩

set_option maxRecDepth 1000000 in
/-- Claim C29: the name query of `sr_unregister_service` returns, and when its
value is negative `sr_unregister_service` returns 0 with the trace of that query
alone, in which no request is a DELETE; the negative value is not passed on.  On
a fabric that answers nothing the query fails with `-ETIMEDOUT` and
`sr_unregister_service` returns 0 without a DELETE; on the simulated fabric, where
the one DELETE succeeds, it returns 0 as well. -/
theorem C29_failed_name_query_returns_zero {σ : Type} (F : Fabric σ) (context : sr_ctx)
    (st : State σ) (service_key : Option (List Nat)) (old_srs : List sr_dev_service) :
    (∃ r, dev_sa_query_retries F st
        (if st.dev.mad_send_type = SR_MAD_SEND_UMAD then UMAD_SA_METHOD_GET_TABLE
          else UMAD_METHOD_GET)
        UMAD_SA_ATTR_SERVICE_REC (BIT 0) none 0 { resp_data := some none, resp_attr_size := some 0 }
        0 context.sr_retries ((context.flags &&& SR_HIDE_ERRORS : Nat) : Int) = .ok r ∧
      (r.ret < 0 →
        dev_get_service F context st context.service_name old_srs SRS_MAX context.sr_retries 0 =
          .ok { st := r.st, ret := r.ret, services := old_srs, trace := r.trace } ∧
        sr_unregister_service F context st service_key old_srs =
          .ok { st := r.st, ret := 0, trace := r.trace } ∧
        ∀ m ∈ sends r.trace, m.method ≠ 0x15)) ∧
    (sr_unregister_service silent_fabric (sample_ctx 2) ⟨(), sample_dev SR_MAD_SEND_UMAD⟩ none
      blank_srs).toOption.map (fun r => (r.ret, deletes r.trace, attempts r.trace)) =
      some (0, [], [-ETIMEDOUT, -ETIMEDOUT, -ETIMEDOUT, -ETIMEDOUT]) ∧
    register_query_unregister.toOption.map
      (fun x => (x.2.2.ret, (deletes x.2.2.trace).length)) = some (0, 1) := by
  refine ⟨?_, by decide, by decide⟩
  obtain ⟨r, hr, _, hall⟩ := dev_get_service_requests F context st context.sr_retries
  refine ⟨r, hr, fun hneg => ?_⟩
  have hg : dev_get_service F context st context.service_name old_srs SRS_MAX context.sr_retries
      0 = .ok { st := r.st, ret := r.ret, services := old_srs, trace := r.trace } := by
    rw [dev_get_service_unfold F context st context.service_name old_srs SRS_MAX
      context.sr_retries 0 r hr, if_pos hneg]
  refine ⟨hg, ?_, fun m hm => ?_⟩
  · have h0 : r.ret.toNat = 0 := by omega
    simp only [sr_unregister_service, hg, h0, unregister_matching, List.append_nil]
  · rw [(hall m hm).1]
    split <;> decide

/-- Claim C30: on a device whose transport is not UMAD, the query of
`dev_get_service` is made with GET (0x01), not GET_TABLE; it returns, every
attempt in it returned at most 1, and `services_dev_update` is not called.  When
its value is negative `dev_get_service` returns that value; and whenever
`dev_get_service`, and so `sr_query_service`, returns, the number of records it
reports is at most 1, with a trace of GET requests, attempts of at most 1 and no
call of `services_dev_update`. -/
theorem C30_verbs_query_at_most_one {σ : Type} (F : Fabric σ) (context : sr_ctx) (st : State σ)
    (name : List Nat) (services : List sr_dev_service) (max retries just_copy : Int)
    (hverbs : st.dev.mad_send_type ≠ SR_MAD_SEND_UMAD) :
    (∃ r, dev_sa_query_retries F st UMAD_METHOD_GET UMAD_SA_ATTR_SERVICE_REC (BIT 0) none 0
        { resp_data := some none, resp_attr_size := some 0 } 0 retries
        ((context.flags &&& SR_HIDE_ERRORS : Nat) : Int) = .ok r ∧
      (∀ m ∈ sends r.trace, m.method = 0x01) ∧
      (∀ x ∈ attempts r.trace, x ≤ 1) ∧ r.ret ≤ 1 ∧
      updates r.trace = [] ∧
      (r.ret < 0 → dev_get_service F context st name services max retries just_copy =
        .ok { st := r.st, ret := r.ret, services := services, trace := r.trace })) ∧
    (∀ g, dev_get_service F context st name services max retries just_copy = .ok g →
      g.ret ≤ 1 ∧ (∀ m ∈ sends g.trace, m.method = 0x01) ∧
      (∀ x ∈ attempts g.trace, x ≤ 1) ∧ updates g.trace = []) ∧
    (∀ g srs srs_num, sr_query_service F context st srs srs_num retries = .ok g →
      g.ret ≤ 1 ∧ (∀ m ∈ sends g.trace, m.method = 0x01) ∧
      (∀ x ∈ attempts g.trace, x ≤ 1) ∧ updates g.trace = []) := by
  have hm : UMAD_METHOD_GET ≠ UMAD_SA_METHOD_GET_TABLE := by decide
  have key : ∀ (rt : Int), ∃ r, dev_sa_query_retries F st UMAD_METHOD_GET UMAD_SA_ATTR_SERVICE_REC
      (BIT 0) none 0 { resp_data := some none, resp_attr_size := some 0 } 0 rt
      ((context.flags &&& SR_HIDE_ERRORS : Nat) : Int) = .ok r ∧
      (∀ m ∈ sends r.trace, m.method = 0x01) ∧
      (∀ x ∈ attempts r.trace, x ≤ 1) ∧ r.ret ≤ 1 ∧ updates r.trace = [] := by
    intro rt
    obtain ⟨r, hr, _, hall⟩ := dev_get_service_requests F context st rt
    simp only [hverbs, if_false] at hr hall
    have hloop := hr
    rw [dev_sa_query_retries_eq_loop _ _ _ _ _ _ _ _ _ _ _ hm] at hloop
    obtain ⟨h1, h2⟩ := query_loop_le_one F UMAD_METHOD_GET UMAD_SA_ATTR_SERVICE_REC (BIT 0) none 0
      0 _ hm _ st _ r hverbs hloop
    obtain ⟨r', hr', _, hu, _⟩ := query_loop_spec F UMAD_METHOD_GET UMAD_SA_ATTR_SERVICE_REC
      (BIT 0) none 0 0 ((context.flags &&& SR_HIDE_ERRORS : Nat) : Int) (rt - 1).toNat st
      { resp_data := some none, resp_attr_size := some 0 } (Or.inl (by simp))
    rw [hloop] at hr'
    simp only [Except.ok.injEq] at hr'
    rw [← hr'] at hu
    exact ⟨r, hr, fun m hmem => (hall m hmem).1, h1, h2, hu⟩
  have hget : ∀ (nm : List Nat) (srs : List sr_dev_service) (mx rt jc : Int) (g : GetRes σ),
      dev_get_service F context st nm srs mx rt jc = .ok g →
      g.ret ≤ 1 ∧ (∀ m ∈ sends g.trace, m.method = 0x01) ∧
      (∀ x ∈ attempts g.trace, x ≤ 1) ∧ updates g.trace = [] := by
    intro nm srs mx rt jc g hg
    obtain ⟨r, hr, h1, h2, h3, h4⟩ := key rt
    have hr2 : dev_sa_query_retries F st
        (if st.dev.mad_send_type = SR_MAD_SEND_UMAD then UMAD_SA_METHOD_GET_TABLE
          else UMAD_METHOD_GET)
        UMAD_SA_ATTR_SERVICE_REC (BIT 0) none 0 { resp_data := some none, resp_attr_size := some 0 }
        0 rt ((context.flags &&& SR_HIDE_ERRORS : Nat) : Int) = .ok r := by
      simp only [hverbs, if_false]
      exact hr
    obtain ⟨ht, _, hneg, hnn⟩ := dev_get_service_trace F context st nm srs mx rt jc r g hr2 hg
    rw [ht]
    refine ⟨?_, h1, h2, h4⟩
    by_cases hlt : r.ret < 0
    · rw [(hneg hlt).1]; exact h3
    · exact le_trans (hnn (by omega)).2 h3
  refine ⟨?_, hget name services max retries just_copy, ?_⟩
  · obtain ⟨r, hr, h1, h2, h3, h4⟩ := key retries
    refine ⟨r, hr, h1, h2, h3, h4, fun hneg => ?_⟩
    have hr2 : dev_sa_query_retries F st
        (if st.dev.mad_send_type = SR_MAD_SEND_UMAD then UMAD_SA_METHOD_GET_TABLE
          else UMAD_METHOD_GET)
        UMAD_SA_ATTR_SERVICE_REC (BIT 0) none 0 { resp_data := some none, resp_attr_size := some 0 }
        0 retries ((context.flags &&& SR_HIDE_ERRORS : Nat) : Int) = .ok r := by
      simp only [hverbs, if_false]
      exact hr
    rw [dev_get_service_unfold F context st name services max retries just_copy r hr2, if_pos hneg]
  · intro g srs srs_num hg
    simp only [sr_query_service] at hg
    exact hget _ _ _ _ _ g hg

set_option maxRecDepth 1000000 in
/-- Claim C30 on the verbs transport, with a subnet administrator whose response
holds three registrations of "svc-a": `sr_query_service` returns 1. -/
theorem C30_verbs_query_at_most_one_witness :
    (sr_query_service three_record_fabric (sample_ctx 20) ⟨(), sample_dev SR_MAD_SEND_VERBS⟩
      blank_srs SRS_MAX 20).toOption.map
      (fun g => (g.ret, (sends g.trace).map (fun m => m.method), attempts g.trace,
        updates g.trace)) = some (1, [1], [1], []) ∧
    ((∃ r, dev_sa_query_retries three_record_fabric ⟨(), sample_dev SR_MAD_SEND_VERBS⟩
        UMAD_METHOD_GET UMAD_SA_ATTR_SERVICE_REC (BIT 0) none 0
        { resp_data := some none, resp_attr_size := some 0 } 0 20
        (((sample_ctx 20).flags &&& SR_HIDE_ERRORS : Nat) : Int) = .ok r ∧
      (∀ m ∈ sends r.trace, m.method = 0x01) ∧
      (∀ x ∈ attempts r.trace, x ≤ 1) ∧ r.ret ≤ 1 ∧
      updates r.trace = [] ∧
      (r.ret < 0 → dev_get_service three_record_fabric (sample_ctx 20)
          ⟨(), sample_dev SR_MAD_SEND_VERBS⟩ (sample_ctx 20).service_name blank_srs SRS_MAX 20 0 =
        .ok { st := r.st, ret := r.ret, services := blank_srs, trace := r.trace })) ∧
    (∀ g, dev_get_service three_record_fabric (sample_ctx 20) ⟨(), sample_dev SR_MAD_SEND_VERBS⟩
        (sample_ctx 20).service_name blank_srs SRS_MAX 20 0 = .ok g →
      g.ret ≤ 1 ∧ (∀ m ∈ sends g.trace, m.method = 0x01) ∧
      (∀ x ∈ attempts g.trace, x ≤ 1) ∧ updates g.trace = []) ∧
    (∀ g srs srs_num, sr_query_service three_record_fabric (sample_ctx 20)
        ⟨(), sample_dev SR_MAD_SEND_VERBS⟩ srs srs_num 20 = .ok g →
      g.ret ≤ 1 ∧ (∀ m ∈ sends g.trace, m.method = 0x01) ∧
      (∀ x ∈ attempts g.trace, x ≤ 1) ∧ updates g.trace = [])) :=
  ⟨by decide,
    C30_verbs_query_at_most_one three_record_fabric (sample_ctx 20)
      ⟨(), sample_dev SR_MAD_SEND_VERBS⟩ (sample_ctx 20).service_name blank_srs SRS_MAX 20 0
      (by decide)⟩

/-- Claim C28 at a GET_TABLE with a retry budget of 0 on a fabric that answers
nothing: one attempt, one call of `services_dev_update`, one more attempt; and at
a SET with the budget -3: one attempt. -/
theorem C28_retries_terminate_witness :
    ((dev_sa_query_retries silent_fabric ⟨(), sample_dev SR_MAD_SEND_UMAD⟩
        UMAD_SA_METHOD_GET_TABLE UMAD_SA_ATTR_SERVICE_REC (BIT 0) none 0 sample_out 0 0 0).toOption.map
        (fun r => (r.ret, attempts r.trace, updates r.trace)) =
        some (-ETIMEDOUT, [-ETIMEDOUT, -ETIMEDOUT], [0]) ∧
      (dev_sa_query_retries silent_fabric ⟨(), sample_dev SR_MAD_SEND_UMAD⟩
        UMAD_METHOD_SET UMAD_SA_ATTR_SERVICE_REC (BIT 0) none 0 sample_out 0 (-3) 0).toOption.map
        (fun r => (r.ret, attempts r.trace, updates r.trace)) =
        some (-ETIMEDOUT, [-ETIMEDOUT], [])) ∧
    ∃ r, dev_sa_query_retries silent_fabric ⟨(), sample_dev SR_MAD_SEND_UMAD⟩
        UMAD_SA_METHOD_GET_TABLE UMAD_SA_ATTR_SERVICE_REC (BIT 0) none 0 sample_out 0 0 0 = .ok r ∧
      1 ≤ (attempts r.trace).length ∧
      ((attempts r.trace).length : Int) ≤ 2 * max 1 0 ∧
      (updates r.trace).length ≤ 1 ∧
      (updates r.trace ≠ [] →
        UMAD_SA_METHOD_GET_TABLE = UMAD_SA_METHOD_GET_TABLE ∧
        ∃ tr1 u tr2 x, r.trace = tr1 ++ .dev_update u :: tr2 ∧ updates tr1 = [] ∧
          updates tr2 = [] ∧ (attempts tr1).getLast? = some x ∧ x < 0) ∧
      (attempts r.trace).getLast? = some r.ret :=
  ⟨⟨by decide, by decide⟩,
    C28_retries_terminate silent_fabric ⟨(), sample_dev SR_MAD_SEND_UMAD⟩
      UMAD_SA_METHOD_GET_TABLE UMAD_SA_ATTR_SERVICE_REC (BIT 0) none 0 sample_out 0 0 0
      (by decide) (Or.inl (by decide))⟩

/-! ### The record count of a response -/

/-- The record count `sa_finish` returns for a response of status zero with at
least the SA header. -/
theorem sa_finish_count (method : Int) (sa_mad : umad_sa_packet) (len ret : Int) (out : Out)
    (hide_errors : Int) (hstatus : sa_mad.status = 0) (hlen : 56 ≤ len) (hint : len < 2 ^ 31)
    (ha16 : sa_mad.attr_offset < 2 ^ 16) :
    (sa_finish method sa_mad len ret out hide_errors).1 =
      if method = UMAD_SA_METHOD_GET_TABLE then
        (if sa_mad.attr_offset = 0 then 0
          else (((len - 56).toNat / (8 * sa_mad.attr_offset) : Nat) : Int))
      else 1 := by
  rw [sa_finish_ret]
  have h0 : ¬ sa_mad.status ≠ 0 := by simp [hstatus]
  have hsz : to_size_t len = len.toNat := by
    unfold to_size_t
    rw [Int.emod_eq_of_lt (by omega) (by omega)]
  have h1 : ¬ to_size_t len < SA_DATA_OFFSET := by
    rw [hsz]
    simp only [SA_DATA_OFFSET]
    omega
  rw [if_neg h0, if_neg h1]
  by_cases hm : method = UMAD_SA_METHOD_GET_TABLE
  · rw [if_pos hm, if_pos hm]
    by_cases ha : sa_mad.attr_offset = 0
    · simp [ha]
    · have hne : ((sa_mad.attr_offset : Int) * 8) ≠ 0 := by omega
      rw [if_pos hne, if_neg ha]
      have hd : to_size_t (len - SA_DATA_OFFSET) = (len - 56).toNat := by
        unfold to_size_t
        simp only [SA_DATA_OFFSET]
        rw [Int.emod_eq_of_lt (by omega) (by omega)]
        rfl
      have hr : to_size_t ((sa_mad.attr_offset : Int) * 8) = 8 * sa_mad.attr_offset := by
        unfold to_size_t
        omega
      rw [hd, hr]
      have hq : (len - 56).toNat / (8 * sa_mad.attr_offset) ≤ (len - 56).toNat :=
        Nat.div_le_self _ _
      have hp : (len - 56).toNat < 2 ^ 31 := by omega
      generalize (len - 56).toNat / (8 * sa_mad.attr_offset) = q at hq
      unfold to_int
      omega
  · rw [if_neg hm, if_neg hm]

/-- On the fabric `answering_fabric`, the response to a request of a supported
method passes the response test. -/
theorem answering_match (buf : umad_sa_packet) (dev : sr_dev) (method attr : Int)
    (tid comp_mask : Nat) (req_data : Option (List Nat)) (req_size : Int) (a : Nat)
    (data : List Nat) (hm : method ∈ UMAD_METHOD_SET :: supported_methods) (htid : tid < 2 ^ 32) :
    sa_match { response_to (sa_request buf dev method attr tid comp_mask req_data req_size) with
      status := 0, attr_offset := a, data := data } (dev_sa_response_method method) tid = true := by
  have ht : tid % 2 ^ 64 % 2 ^ 32 = tid := by omega
  simp only [supported_methods, List.mem_cons, List.mem_singleton, List.not_mem_nil, or_false] at hm
  rcases hm with h | h | h | h | h | h | h | h
  all_goals subst h
  all_goals simp only [sa_match, response_to, sa_request, ht, ne_eq, not_true_eq_false, if_false]
  all_goals decide

theorem answering_umad_query (a p : Nat) (data : List Nat) (st : State Unit) (method attr : Int)
    (comp_mask : Nat) (req_data : Option (List Nat)) (req_size : Int) (out : Out)
    (hide_errors : Int) (hm : method ∈ UMAD_METHOD_SET :: supported_methods)
    (hsize : req_size ≤ UMAD_LEN_SA_DATA) (hseed : st.dev.seed < 2 ^ 32) :
    (umad_dev_sa_query (answering_fabric a data p) st method attr comp_mask req_data req_size out
      hide_errors).ret =
    (sa_finish method { response_to (sa_request umad_sa_packet.zero
        { st.dev with seed := st.dev.seed + 1 } method attr st.dev.seed comp_mask req_data
        req_size) with status := 0, attr_offset := a, data := data } ((56 + p : Nat) : Int) 0 out
      hide_errors).1 := by
  have h1 : ¬ req_size > UMAD_LEN_SA_DATA := by omega
  have h2 : ¬ dev_sa_response_method method < 0 := by
    simp only [supported_methods, List.mem_cons, List.mem_singleton, List.not_mem_nil,
      or_false] at hm
    rcases hm with h | h | h | h | h | h | h | h <;> subst h <;> decide
  have hmatch := answering_match umad_sa_packet.zero { st.dev with seed := st.dev.seed + 1 }
    method attr st.dev.seed comp_mask req_data req_size a data hm hseed
  simp only [umad_dev_sa_query, if_neg h1, if_neg h2, answering_fabric, sample_fabric,
    umad_recv_loop, hmatch, lt_self_iff_false, if_false, if_true]

theorem answering_verbs_query (a p : Nat) (data : List Nat) (st : State Unit) (method attr : Int)
    (comp_mask : Nat) (req_data : Option (List Nat)) (req_size : Int) (out : Out)
    (hide_errors : Int) (hm : method ∈ UMAD_METHOD_SET :: supported_methods)
    (hsize : req_size ≤ UMAD_LEN_SA_DATA) (hseed : st.dev.seed < 2 ^ 32) (hp : 56 + p < 2 ^ 31) :
    (verbs_dev_sa_query (answering_fabric a data p) st method attr comp_mask req_data req_size out
      hide_errors).ret =
    (sa_finish method { response_to (sa_request st.dev.mad_buf st.dev method attr st.dev.seed
        comp_mask req_data req_size) with status := 0, attr_offset := a, data := data }
      ((56 + p : Nat) : Int) 0 out hide_errors).1 := by
  have h1 : ¬ req_size > UMAD_LEN_SA_DATA := by omega
  have h2 : ¬ dev_sa_response_method method < 0 := by
    simp only [supported_methods, List.mem_cons, List.mem_singleton, List.not_mem_nil,
      or_false] at hm
    rcases hm with h | h | h | h | h | h | h | h <;> subst h <;> decide
  have hmatch := answering_match st.dev.mad_buf st.dev
    method attr st.dev.seed comp_mask req_data req_size a data hm hseed
  have hlen : to_int (to_uint32 (((56 + p + 40 : Nat) : Int) - IB_GRH_LEN)) = ((56 + p : Nat) : Int) := by
    unfold to_int to_uint32 IB_GRH_LEN
    omega
  simp only [verbs_dev_sa_query, if_neg h1, if_neg h2, answering_fabric, sample_fabric, mad_send,
    verbs_recv_loop, mad_recv, hlen, hmatch, lt_self_iff_false, ne_eq, not_true_eq_false,
    if_false, if_true]

/-- Claim C23: for a matching response of status zero with length `len` of at
least 56 (the SA header), that is with `p = len - 56` bytes of payload, and a
16-bit attribute offset `a`, the record size written out is `8 * a` and the
value of the attempt is `p / (8 * a)` (rounded down) for GET_TABLE when `a` is not
zero, 0 for GET_TABLE when `a` is zero, and 1 for every other method; and a
single attempt of a supported method on a fabric that answers with such a
response returns that value on either transport. -/
theorem C23_record_count (method attr : Int) (sa_mad : umad_sa_packet) (len ret : Int) (out : Out)
    (hide_errors : Int) (a p : Nat) (data : List Nat) (st : State Unit) (comp_mask : Nat)
    (req_data : Option (List Nat)) (req_size : Int)
    (hstatus : sa_mad.status = 0) (hlen : 56 ≤ len) (hint : len < 2 ^ 31)
    (ha16 : sa_mad.attr_offset < 2 ^ 16)
    (ha : a < 2 ^ 16) (hp : 56 + p < 2 ^ 31)
    (hm : method ∈ UMAD_METHOD_SET :: supported_methods)
    (hsize : req_size ≤ UMAD_LEN_SA_DATA) (hseed : st.dev.seed < 2 ^ 32) :
    (sa_finish method sa_mad len ret out hide_errors).1 =
      (if method = UMAD_SA_METHOD_GET_TABLE then
        (if sa_mad.attr_offset = 0 then 0
          else (((len - 56).toNat / (8 * sa_mad.attr_offset) : Nat) : Int))
      else 1) ∧
    (out.resp_attr_size ≠ none →
      (sa_finish method sa_mad len ret out hide_errors).2.resp_attr_size =
        some (8 * sa_mad.attr_offset : Nat)) ∧
    (umad_dev_sa_query (answering_fabric a data p) st method attr comp_mask req_data req_size out
      hide_errors).ret =
      (if method = UMAD_SA_METHOD_GET_TABLE then (if a = 0 then 0 else ((p / (8 * a) : Nat) : Int))
        else 1) ∧
    (verbs_dev_sa_query (answering_fabric a data p) st method attr comp_mask req_data req_size out
      hide_errors).ret =
      (if method = UMAD_SA_METHOD_GET_TABLE then (if a = 0 then 0 else ((p / (8 * a) : Nat) : Int))
        else 1) := by
  have hpn : (((56 + p : Nat) : Int) - 56).toNat = p := by omega
  refine ⟨sa_finish_count method sa_mad len ret out hide_errors hstatus hlen hint ha16, ?_, ?_, ?_⟩
  · intro hsome
    have h0 : ¬ sa_mad.status ≠ 0 := by simp [hstatus]
    have hsz : to_size_t len = len.toNat := by
      unfold to_size_t
      rw [Int.emod_eq_of_lt (by omega) (by omega)]
    have h1 : ¬ to_size_t len < SA_DATA_OFFSET := by
      rw [hsz]
      simp only [SA_DATA_OFFSET]
      omega
    obtain ⟨v, hv⟩ := Option.ne_none_iff_exists'.mp hsome
    simp only [sa_finish, if_neg h0, if_neg h1]
    cases hd : out.resp_data <;> simp [hv, mul_comm]
  · rw [answering_umad_query a p data st method attr comp_mask req_data req_size out hide_errors
      hm hsize hseed]
    rw [sa_finish_count method _ _ 0 out hide_errors rfl (by omega) (by omega) ha, hpn]
  · rw [answering_verbs_query a p data st method attr comp_mask req_data req_size out hide_errors
      hm hsize hseed hp]
    rw [sa_finish_count method _ _ 0 out hide_errors rfl (by omega) (by omega) ha, hpn]

/-- Claim C23 at a GET_TABLE response with 400 bytes of payload and attribute
offset 22 (records of 176 bytes): 2 records. -/
theorem C23_record_count_witness :
    (sa_finish UMAD_SA_METHOD_GET_TABLE { sample_response with attr_offset := 22 } 456 0 sample_out
        0).1 =
      (if UMAD_SA_METHOD_GET_TABLE = UMAD_SA_METHOD_GET_TABLE then
        (if ({ sample_response with attr_offset := 22 } : umad_sa_packet).attr_offset = 0 then 0
          else ((((456 : Int) - 56).toNat /
            (8 * ({ sample_response with attr_offset := 22 } : umad_sa_packet).attr_offset) : Nat) :
              Int))
      else 1) ∧
    (sample_out.resp_attr_size ≠ none →
      (sa_finish UMAD_SA_METHOD_GET_TABLE { sample_response with attr_offset := 22 } 456 0
        sample_out 0).2.resp_attr_size =
        some (8 * ({ sample_response with attr_offset := 22 } : umad_sa_packet).attr_offset : Nat)) ∧
    (umad_dev_sa_query (answering_fabric 22 [] 400) ⟨(), sample_dev SR_MAD_SEND_UMAD⟩
      UMAD_SA_METHOD_GET_TABLE UMAD_SA_ATTR_SERVICE_REC 1 none 0 sample_out 0).ret =
      (if UMAD_SA_METHOD_GET_TABLE = UMAD_SA_METHOD_GET_TABLE then
        (if 22 = 0 then 0 else ((400 / (8 * 22) : Nat) : Int))
        else 1) ∧
    (verbs_dev_sa_query (answering_fabric 22 [] 400) ⟨(), sample_dev SR_MAD_SEND_UMAD⟩
      UMAD_SA_METHOD_GET_TABLE UMAD_SA_ATTR_SERVICE_REC 1 none 0 sample_out 0).ret =
      (if UMAD_SA_METHOD_GET_TABLE = UMAD_SA_METHOD_GET_TABLE then
        (if 22 = 0 then 0 else ((400 / (8 * 22) : Nat) : Int))
        else 1) :=
  C23_record_count UMAD_SA_METHOD_GET_TABLE UMAD_SA_ATTR_SERVICE_REC
    { sample_response with attr_offset := 22 } 456 0 sample_out 0 22 400 []
    ⟨(), sample_dev SR_MAD_SEND_UMAD⟩ 1 none 0 (by decide) (by decide) (by decide) (by decide)
    (by decide) (by decide) (by decide) (by decide) (by decide)

/-! ### Session creation -/

theorem open_port_settings {σ : Type} (F : Fabric σ) (st : State σ) (port : Int) :
    (open_port F st port).1.dev.query_sleep = st.dev.query_sleep ∧
    (open_port F st port).1.dev.sa_mkey = st.dev.sa_mkey ∧
    (open_port F st port).1.dev.pkey = st.dev.pkey ∧
    (open_port F st port).1.dev.fabric_timeout_ms = st.dev.fabric_timeout_ms ∧
    (open_port F st port).1.dev.pkey_index = st.dev.pkey_index ∧
    (open_port F st port).1.dev.mad_send_type = st.dev.mad_send_type := by
  simp only [open_port]
  repeat' split
  all_goals exact ⟨rfl, rfl, rfl, rfl, rfl, rfl⟩

theorem services_dev_init_from_settings {σ : Type} (F : Fabric σ) (B : Bringup σ)
    (dev_name : List Nat) (port : Int) :
    ∀ (ca_names : List (List Nat)) (fab : σ) (dev : sr_dev),
      (services_dev_init_from F B dev_name port ca_names fab dev).2.2.query_sleep = dev.query_sleep ∧
      (services_dev_init_from F B dev_name port ca_names fab dev).2.2.sa_mkey = dev.sa_mkey ∧
      (services_dev_init_from F B dev_name port ca_names fab dev).2.2.pkey = dev.pkey ∧
      (services_dev_init_from F B dev_name port ca_names fab dev).2.2.fabric_timeout_ms =
        dev.fabric_timeout_ms ∧
      (services_dev_init_from F B dev_name port ca_names fab dev).2.2.pkey_index = dev.pkey_index ∧
      (services_dev_init_from F B dev_name port ca_names fab dev).2.2.mad_send_type =
        dev.mad_send_type := by
  intro ca_names
  induction ca_names with
  | nil =>
    intro fab dev
    exact ⟨rfl, rfl, rfl, rfl, rfl, rfl⟩
  | cons ca_name rest ih =>
    intro fab dev
    have hop := open_port_settings F
      { fab := fab, dev := { dev with dev_name := dev_name.take (UMAD_CA_NAME_LEN - 1) } } port
    simp only [services_dev_init_from]
    split
    · split
      · split
        · split
          · exact hop
          · obtain ⟨a1, a2, a3, a4, a5, a6⟩ := ih (B.ib_open_port _ _ port).1 (open_port F
              { fab := fab, dev := { dev with dev_name := dev_name.take (UMAD_CA_NAME_LEN - 1) } }
              port).1.dev
            obtain ⟨b1, b2, b3, b4, b5, b6⟩ := hop
            exact ⟨a1.trans b1, a2.trans b2, a3.trans b3, a4.trans b4, a5.trans b5, a6.trans b6⟩
        · split
          · exact hop
          · obtain ⟨a1, a2, a3, a4, a5, a6⟩ := ih (B.dev_sa_init _ _).1 (open_port F
              { fab := fab, dev := { dev with dev_name := dev_name.take (UMAD_CA_NAME_LEN - 1) } }
              port).1.dev
            obtain ⟨b1, b2, b3, b4, b5, b6⟩ := hop
            exact ⟨a1.trans b1, a2.trans b2, a3.trans b3, a4.trans b4, a5.trans b5, a6.trans b6⟩
      · obtain ⟨a1, a2, a3, a4, a5, a6⟩ := ih (open_port F
            { fab := fab, dev := { dev with dev_name := dev_name.take (UMAD_CA_NAME_LEN - 1) } }
            port).1.fab (open_port F
            { fab := fab, dev := { dev with dev_name := dev_name.take (UMAD_CA_NAME_LEN - 1) } }
            port).1.dev
        obtain ⟨b1, b2, b3, b4, b5, b6⟩ := hop
        exact ⟨a1.trans b1, a2.trans b2, a3.trans b3, a4.trans b4, a5.trans b5, a6.trans b6⟩
    · exact ih fab dev

/-- Device bring-up leaves the settings of the device as they were. -/
theorem services_dev_init_settings {σ : Type} (F : Fabric σ) (B : Bringup σ) (fab : σ)
    (dev : sr_dev) (dev_name : List Nat) (port : Int) :
    (services_dev_init F B fab dev dev_name port).2.2.query_sleep = dev.query_sleep ∧
    (services_dev_init F B fab dev dev_name port).2.2.sa_mkey = dev.sa_mkey ∧
    (services_dev_init F B fab dev dev_name port).2.2.pkey = dev.pkey ∧
    (services_dev_init F B fab dev dev_name port).2.2.fabric_timeout_ms = dev.fabric_timeout_ms ∧
    (services_dev_init F B fab dev dev_name port).2.2.pkey_index = dev.pkey_index ∧
    (services_dev_init F B fab dev dev_name port).2.2.mad_send_type = dev.mad_send_type := by
  simp only [services_dev_init]
  split
  · exact ⟨rfl, rfl, rfl, rfl, rfl, rfl⟩
  · exact services_dev_init_from_settings F B dev_name port _ _ dev

/-- Every error of the settings part of `sr_init` is `-EINVAL`; a configured name
of 64 bytes or more and a send type beyond the last transport give it. -/
theorem sr_init_settings_error (conf : Option sr_config) :
    (∀ e, sr_init_settings conf = .error e → e = -EINVAL) ∧
    (∀ c n, conf = some c → c.service_name = some n → SR_DEV_SERVICE_NAME_MAX ≤ n.length →
      sr_init_settings conf = .error (-EINVAL)) ∧
    (∀ c, conf = some c → SR_MAD_SEND_LAST < c.mad_send_type →
      sr_init_settings conf = .error (-EINVAL)) := by
  refine ⟨?_, ?_, ?_⟩
  · intro e h
    cases conf with
    | none => simp only [sr_init_settings] at h; cases h
    | some c =>
      simp only [sr_init_settings] at h
      split at h
      · rename_i ret hnamed
        simp only [Except.error.injEq] at h
        rw [← h]
        split at hnamed
        · split at hnamed
          · simp only [Except.error.injEq] at hnamed
            exact hnamed.symm
          · cases hnamed
        · cases hnamed
      · split at h
        · simp only [Except.error.injEq] at h
          exact h.symm
        · cases h
  · intro c n hc hn hlen
    subst hc
    have hge : n.length ≥ SR_DEV_SERVICE_NAME_MAX := hlen
    simp only [sr_init_settings, hn, hge, if_true]
  · intro c hc hbig
    subst hc
    have hcond : c.mad_send_type ≠ 0 ∧ c.mad_send_type > SR_MAD_SEND_LAST := by
      refine ⟨?_, hbig⟩
      have : SR_MAD_SEND_LAST = 2 := rfl
      omega
    simp only [sr_init_settings]
    split
    · rename_i ret hnamed
      split at hnamed
      · split at hnamed
        · simp only [Except.error.injEq] at hnamed
          rw [hnamed]
        · cases hnamed
      · cases hnamed
    · rw [if_pos hcond]

/-- The settings `sr_init` arrives at, when it accepts the configuration: each is
the configured value when that is not zero (not null for the name) and the
default otherwise. -/
theorem sr_init_settings_ok (conf : Option sr_config) (ctx : sr_ctx) (dev : sr_dev)
    (h : sr_init_settings conf = .ok (ctx, dev)) :
    (conf = none →
      ctx.sr_lease_time = 2000 ∧ ctx.sr_retries = 20 ∧ dev.query_sleep = 500000 ∧
      dev.sa_mkey = 1 ∧ dev.pkey = 0xffff ∧ dev.pkey_index = 0 ∧ dev.fabric_timeout_ms = 200 ∧
      ctx.service_id = 0x100002c900000002 ∧ ctx.service_name = SR_DEFAULT_SERVICE_NAME ∧
      dev.mad_send_type = SR_MAD_SEND_UMAD ∧ ctx.flags = 0) ∧
    (∀ c, conf = some c →
      ctx.sr_lease_time = (if c.sr_lease_time ≠ 0 then c.sr_lease_time else 2000) ∧
      ctx.sr_retries = (if c.sr_retries ≠ 0 then c.sr_retries else 20) ∧
      dev.query_sleep = (if c.query_sleep ≠ 0 then c.query_sleep else 500000) ∧
      dev.sa_mkey = (if c.sa_mkey ≠ 0 then c.sa_mkey else 1) ∧
      dev.pkey = (if c.pkey ≠ 0 then c.pkey else 0xffff) ∧
      dev.pkey_index = (if c.pkey_index ≠ 0 then c.pkey_index else 0) ∧
      dev.fabric_timeout_ms = (if c.fabric_timeout_ms ≠ 0 then c.fabric_timeout_ms else 200) ∧
      ctx.service_id = (if c.service_id ≠ 0 then c.service_id else 0x100002c900000002) ∧
      ctx.service_name = (match c.service_name with
        | some n => n
        | none => SR_DEFAULT_SERVICE_NAME) ∧
      dev.mad_send_type = (if c.mad_send_type ≠ 0 then c.mad_send_type else SR_MAD_SEND_UMAD) ∧
      ctx.flags = (if c.flags ≠ 0 then c.flags else 0) ∧
      (∀ n, c.service_name = some n → n.length ≤ 63) ∧ c.mad_send_type ≤ SR_MAD_SEND_LAST) ∧
    ctx.service_name.length < 64 := by
  cases conf with
  | none =>
    simp only [sr_init_settings, Except.ok.injEq, Prod.mk.injEq] at h
    obtain ⟨h1, h2⟩ := h
    subst h1 h2
    refine ⟨fun _ => ⟨rfl, rfl, rfl, rfl, rfl, rfl, rfl, rfl, rfl, rfl, rfl⟩, ?_, ?_⟩
    · intro c hc
      cases hc
    · show SR_DEFAULT_SERVICE_NAME.length < 64
      decide
  | some c =>
    refine ⟨fun hc => (by cases hc), ?_⟩
    simp only [sr_init_settings] at h
    split at h
    · cases h
    · rename_i ctx0 hnamed
      split at h
      · cases h
      · rename_i hsend
        simp only [Except.ok.injEq, Prod.mk.injEq] at h
        obtain ⟨h1, h2⟩ := h
        have hname : ctx0.sr_lease_time = 2000 ∧ ctx0.sr_retries = 20 ∧ ctx0.flags = 0 ∧
            ctx0.service_id = 0x100002c900000002 ∧
            ctx0.service_name = (match c.service_name with
              | some n => n
              | none => SR_DEFAULT_SERVICE_NAME) ∧
            (∀ n, c.service_name = some n → n.length ≤ 63) ∧ ctx0.service_name.length < 64 := by
          cases hcn : c.service_name with
          | none =>
            rw [hcn] at hnamed
            simp only [Except.ok.injEq] at hnamed
            rw [← hnamed]
            exact ⟨rfl, rfl, rfl, rfl, rfl, fun n2 hn2 => (by cases hn2), (by decide)⟩
          | some n =>
            rw [hcn] at hnamed
            simp only at hnamed
            split at hnamed
            · cases hnamed
            · rename_i hlen
              simp only [Except.ok.injEq] at hnamed
              rw [← hnamed]
              have hl : n.length ≤ 63 := by
                simp only [SR_DEV_SERVICE_NAME_MAX] at hlen
                omega
              have htake : n.take SR_DEV_SERVICE_NAME_MAX = n :=
                List.take_of_length_le (by simp only [SR_DEV_SERVICE_NAME_MAX]; omega)
              refine ⟨rfl, rfl, rfl, rfl, htake, ?_, ?_⟩
              · intro n2 hn2
                cases hn2
                exact hl
              · show (n.take SR_DEV_SERVICE_NAME_MAX).length < 64
                rw [htake]; omega
        obtain ⟨n1, n2, n3, n4, n5, n6, n7⟩ := hname
        have hlast : c.mad_send_type ≤ SR_MAD_SEND_LAST := by
          by_contra hgt
          apply hsend
          have : SR_MAD_SEND_LAST = 2 := rfl
          refine ⟨by omega, by omega⟩
        rw [← h1, ← h2]
        refine ⟨fun c2 hc2 => ?_, ?_⟩
        · cases hc2
          refine ⟨?_, ?_, ?_, ?_, ?_, ?_, ?_, ?_, ?_, ?_, ?_, n6, hlast⟩
          · simp only [apply_ite sr_ctx.sr_lease_time, ite_self, n1]
          · simp only [apply_ite sr_ctx.sr_retries, ite_self, n2]
          · simp only [apply_ite sr_dev.query_sleep, ite_self]
            rfl
          · simp only [apply_ite sr_dev.sa_mkey, ite_self]
            rfl
          · simp only [apply_ite sr_dev.pkey, ite_self]
            rfl
          · simp only [apply_ite sr_dev.pkey_index, ite_self]
          · simp only [apply_ite sr_dev.fabric_timeout_ms, ite_self]
            rfl
          · simp only [apply_ite sr_ctx.service_id, ite_self, n4]
          · simp only [apply_ite sr_ctx.service_name, ite_self, n5]
          · simp only [apply_ite sr_dev.mad_send_type, ite_self]
            split <;> rfl
          · simp only [apply_ite sr_ctx.flags, ite_self, n3]
        · simp only [apply_ite sr_ctx.service_name, ite_self]
          exact n7

/-- What `sr_init` does when it returns 0: the settings part accepted the
configuration, device bring-up returned 0, and the session holds the settings
and the device as bring-up left it. -/
theorem sr_init_ok {σ : Type}
    (services_dev_init : σ → sr_dev → List Nat → Int → σ × Int × sr_dev)
    (fab : σ) (context_given : Bool) (dev_name : Option (List Nat)) (port : Int)
    (log_func_given : Bool) (conf : Option sr_config) (timer : Nat)
    (hok : (sr_init services_dev_init fab context_given dev_name port log_func_given conf
      timer).ret = 0) :
    ∃ name ctx dev, dev_name = some name ∧ sr_init_settings conf = .ok (ctx, dev) ∧
      (sr_init services_dev_init fab context_given dev_name port log_func_given conf
        timer).session =
        some (ctx,
          { fab := (services_dev_init fab
              { dev with seed := timer % 2 ^ 32,
                         service_cache := List.replicate SR_DEV_MAX_SERVICES sr_dev_service.zero }
              name port).1,
            dev := (services_dev_init fab
              { dev with seed := timer % 2 ^ 32,
                         service_cache := List.replicate SR_DEV_MAX_SERVICES sr_dev_service.zero }
              name port).2.2 }) := by
  have hne : (-EINVAL : Int) ≠ 0 := by decide
  cases context_given with
  | false => exact absurd hok hne
  | true =>
    cases dev_name with
    | none => exact absurd hok hne
    | some name =>
      simp only [sr_init] at hok ⊢
      split at hok
      · exact absurd hok hne
      · rename_i hport
        split at hok
        · exact absurd hok hne
        · rename_i hlog
          rw [if_neg hport, if_neg hlog]
          cases hs : sr_init_settings conf with
          | error e =>
            rw [hs] at hok
            simp only at hok
            rw [(sr_init_settings_error conf).1 e hs] at hok
            exact absurd hok hne
          | ok x =>
            obtain ⟨ctx, dev⟩ := x
            rw [hs] at hok
            simp only at hok ⊢
            split at hok
            · rename_i hret
              exact absurd hok hret
            · rename_i hret
              rw [if_neg hret]
              exact ⟨name, ctx, dev, rfl, rfl, rfl⟩

/-- Claim C25: when `sr_init` returns 0, the session it stores has, for each
setting, the configured value when that is not zero (not null for the name) and
otherwise the default: lease 2000, retries 20, sleep 500000, SA key 1, pkey
0xffff, pkey index 0, fabric timeout 200, service ID 0x100002c900000002, the name
"sr_default_service_name", the UMAD transport, flags 0; without a configuration
every default applies.  Device bring-up (`services_dev_init`) changes none of
them. -/
theorem C25_effective_settings {σ : Type} (F : Fabric σ) (B : Bringup σ) (fab : σ)
    (context_given : Bool) (dev_name : Option (List Nat)) (port : Int) (log_func_given : Bool)
    (conf : Option sr_config) (timer : Nat)
    (hok : (sr_init (services_dev_init F B) fab context_given dev_name port log_func_given conf
      timer).ret = 0) :
    ∃ ctx st, (sr_init (services_dev_init F B) fab context_given dev_name port log_func_given conf
        timer).session = some (ctx, st) ∧
      (conf = none →
        ctx.sr_lease_time = 2000 ∧ ctx.sr_retries = 20 ∧ st.dev.query_sleep = 500000 ∧
        st.dev.sa_mkey = 1 ∧ st.dev.pkey = 0xffff ∧ st.dev.pkey_index = 0 ∧
        st.dev.fabric_timeout_ms = 200 ∧ ctx.service_id = 0x100002c900000002 ∧
        ctx.service_name = SR_DEFAULT_SERVICE_NAME ∧
        st.dev.mad_send_type = SR_MAD_SEND_UMAD ∧ ctx.flags = 0) ∧
      (∀ c, conf = some c →
        ctx.sr_lease_time = (if c.sr_lease_time ≠ 0 then c.sr_lease_time else 2000) ∧
        ctx.sr_retries = (if c.sr_retries ≠ 0 then c.sr_retries else 20) ∧
        st.dev.query_sleep = (if c.query_sleep ≠ 0 then c.query_sleep else 500000) ∧
        st.dev.sa_mkey = (if c.sa_mkey ≠ 0 then c.sa_mkey else 1) ∧
        st.dev.pkey = (if c.pkey ≠ 0 then c.pkey else 0xffff) ∧
        st.dev.pkey_index = (if c.pkey_index ≠ 0 then c.pkey_index else 0) ∧
        st.dev.fabric_timeout_ms =
          (if c.fabric_timeout_ms ≠ 0 then c.fabric_timeout_ms else 200) ∧
        ctx.service_id = (if c.service_id ≠ 0 then c.service_id else 0x100002c900000002) ∧
        ctx.service_name = (match c.service_name with
          | some n => n
          | none => SR_DEFAULT_SERVICE_NAME) ∧
        st.dev.mad_send_type =
          (if c.mad_send_type ≠ 0 then c.mad_send_type else SR_MAD_SEND_UMAD) ∧
        ctx.flags = (if c.flags ≠ 0 then c.flags else 0)) ∧
      SR_DEFAULT_SERVICE_NAME =
        [115, 114, 95, 100, 101, 102, 97, 117, 108, 116, 95, 115, 101, 114, 118, 105, 99, 101, 95,
          110, 97, 109, 101] := by
  obtain ⟨name, ctx, dev, _, hs, hsession⟩ := sr_init_ok (services_dev_init F B) fab context_given
    dev_name port log_func_given conf timer hok
  obtain ⟨hnone, hsome, _⟩ := sr_init_settings_ok conf ctx dev hs
  obtain ⟨d1, d2, d3, d4, d5, d6⟩ := services_dev_init_settings F B fab
    { dev with seed := timer % 2 ^ 32,
               service_cache := List.replicate SR_DEV_MAX_SERVICES sr_dev_service.zero } name port
  refine ⟨ctx, _, hsession, ?_, ?_, rfl⟩
  · intro hc
    obtain ⟨a1, a2, a3, a4, a5, a6, a7, a8, a9, a10, a11⟩ := hnone hc
    exact ⟨a1, a2, d1.trans a3, d2.trans a4, d3.trans a5, d5.trans a6, d4.trans a7, a8, a9,
      d6.trans a10, a11⟩
  · intro c hc
    obtain ⟨a1, a2, a3, a4, a5, a6, a7, a8, a9, a10, a11, _, _⟩ := hsome c hc
    exact ⟨a1, a2, d1.trans a3, d2.trans a4, d3.trans a5, d5.trans a6, d4.trans a7, a8, a9,
      d6.trans a10, a11⟩

/-- Claim C26: `sr_init` returns `-EINVAL` without calling `services_dev_init` when
the port number is negative, when the configured service name has 64 bytes or
more, and when the configured send type is beyond the last transport; and when
it returns 0, a configured name (of at most 63 bytes, then) is the session's
service name unchanged, and the session's service name has fewer than 64 bytes. -/
theorem C26_init_validation {σ : Type}
    (services_dev_init : σ → sr_dev → List Nat → Int → σ × Int × sr_dev)
    (fab : σ) (context_given : Bool) (dev_name : Option (List Nat)) (port : Int)
    (log_func_given : Bool) (conf : Option sr_config) (timer : Nat) :
    ((port < 0 ∨
        (∃ c n, conf = some c ∧ c.service_name = some n ∧ 64 ≤ n.length) ∨
        (∃ c, conf = some c ∧ SR_MAD_SEND_LAST < c.mad_send_type)) →
      (sr_init services_dev_init fab context_given dev_name port log_func_given conf
        timer).ret = -EINVAL ∧
      (sr_init services_dev_init fab context_given dev_name port log_func_given conf
        timer).dev_init_called = false ∧
      (sr_init services_dev_init fab context_given dev_name port log_func_given conf
        timer).session = none) ∧
    ((sr_init services_dev_init fab context_given dev_name port log_func_given conf
        timer).ret = 0 →
      ∃ ctx st, (sr_init services_dev_init fab context_given dev_name port log_func_given conf
          timer).session = some (ctx, st) ∧
        (∀ c n, conf = some c → c.service_name = some n →
          n.length ≤ 63 ∧ ctx.service_name = n) ∧
        ctx.service_name.length < 64) := by
  constructor
  · intro hbad
    cases context_given with
    | false => exact ⟨rfl, rfl, rfl⟩
    | true =>
      cases dev_name with
      | none => exact ⟨rfl, rfl, rfl⟩
      | some name =>
        simp only [sr_init]
        split
        · exact ⟨rfl, rfl, rfl⟩
        · rename_i hport
          split
          · exact ⟨rfl, rfl, rfl⟩
          · have herr : sr_init_settings conf = .error (-EINVAL) := by
              rcases hbad with h | ⟨c, n, hc, hn, hlen⟩ | ⟨c, hc, hbig⟩
              · exact absurd h hport
              · exact (sr_init_settings_error conf).2.1 c n hc hn hlen
              · exact (sr_init_settings_error conf).2.2 c hc hbig
            rw [herr]
            exact ⟨rfl, rfl, rfl⟩
  · intro hok
    obtain ⟨name, ctx, dev, _, hs, hsession⟩ := sr_init_ok services_dev_init fab context_given
      dev_name port log_func_given conf timer hok
    obtain ⟨_, hsome, hlen⟩ := sr_init_settings_ok conf ctx dev hs
    refine ⟨ctx, _, hsession, ?_, hlen⟩
    intro c n hc hn
    obtain ⟨_, _, _, _, _, _, _, _, a9, _, _, a12, _⟩ := hsome c hc
    rw [hn] at a9
    exact ⟨a12 n hn, a9⟩

set_option maxRecDepth 1000000 in
/-- Claim C25 at the configuration `sample_config` (lease 30, pkey 0x7fff, verbs,
name "svc-a", the rest zero) on the CA "mlx5", port 1. -/
theorem C25_effective_settings_witness :
    (sr_init (services_dev_init silent_fabric sample_bringup) () true (some [109, 108, 120, 53]) 1
      true (some sample_config) 7).ret = 0 ∧
    ((sr_init (services_dev_init silent_fabric sample_bringup) () true (some [109, 108, 120, 53]) 1
      true (some sample_config) 7).session.map
      (fun s => (s.1.sr_lease_time, s.1.sr_retries, s.2.dev.pkey, s.2.dev.mad_send_type)) =
        some (30, 20, 0x7fff, SR_MAD_SEND_VERBS) ∧
      (sr_init (services_dev_init silent_fabric sample_bringup) () true
        (some [109, 108, 120, 53]) 1 true (some sample_config) 7).session.map
        (fun s => (s.1.service_name, s.1.service_id, s.2.dev.query_sleep, s.2.dev.sa_mkey)) =
        some ([115, 118, 99, 45, 97], 0x100002c900000002, 500000, 1) ∧
      (sr_init (services_dev_init silent_fabric sample_bringup) () true
        (some [109, 108, 120, 53]) 1 true none 7).session.map
        (fun s => (s.1.sr_lease_time, s.1.service_name, s.2.dev.pkey, s.2.dev.mad_send_type)) =
        some (2000, SR_DEFAULT_SERVICE_NAME, 0xffff, SR_MAD_SEND_UMAD)) ∧
    ∃ ctx st, (sr_init (services_dev_init silent_fabric sample_bringup) () true
        (some [109, 108, 120, 53]) 1 true (some sample_config) 7).session = some (ctx, st) ∧
      (some sample_config = none →
        ctx.sr_lease_time = 2000 ∧ ctx.sr_retries = 20 ∧ st.dev.query_sleep = 500000 ∧
        st.dev.sa_mkey = 1 ∧ st.dev.pkey = 0xffff ∧ st.dev.pkey_index = 0 ∧
        st.dev.fabric_timeout_ms = 200 ∧ ctx.service_id = 0x100002c900000002 ∧
        ctx.service_name = SR_DEFAULT_SERVICE_NAME ∧
        st.dev.mad_send_type = SR_MAD_SEND_UMAD ∧ ctx.flags = 0) ∧
      (∀ c, some sample_config = some c →
        ctx.sr_lease_time = (if c.sr_lease_time ≠ 0 then c.sr_lease_time else 2000) ∧
        ctx.sr_retries = (if c.sr_retries ≠ 0 then c.sr_retries else 20) ∧
        st.dev.query_sleep = (if c.query_sleep ≠ 0 then c.query_sleep else 500000) ∧
        st.dev.sa_mkey = (if c.sa_mkey ≠ 0 then c.sa_mkey else 1) ∧
        st.dev.pkey = (if c.pkey ≠ 0 then c.pkey else 0xffff) ∧
        st.dev.pkey_index = (if c.pkey_index ≠ 0 then c.pkey_index else 0) ∧
        st.dev.fabric_timeout_ms =
          (if c.fabric_timeout_ms ≠ 0 then c.fabric_timeout_ms else 200) ∧
        ctx.service_id = (if c.service_id ≠ 0 then c.service_id else 0x100002c900000002) ∧
        ctx.service_name = (match c.service_name with
          | some n => n
          | none => SR_DEFAULT_SERVICE_NAME) ∧
        st.dev.mad_send_type =
          (if c.mad_send_type ≠ 0 then c.mad_send_type else SR_MAD_SEND_UMAD) ∧
        ctx.flags = (if c.flags ≠ 0 then c.flags else 0)) ∧
      SR_DEFAULT_SERVICE_NAME =
        [115, 114, 95, 100, 101, 102, 97, 117, 108, 116, 95, 115, 101, 114, 118, 105, 99, 101, 95,
          110, 97, 109, 101] :=
  ⟨by decide, ⟨by decide, by decide, by decide⟩,
    C25_effective_settings silent_fabric sample_bringup () true (some [109, 108, 120, 53]) 1 true
      (some sample_config) 7 (by decide)⟩

set_option maxRecDepth 1000000 in
/-- Claim C26 on the CA "mlx5": port -1, a name of 64 bytes and the send type 3
give `-EINVAL` without device bring-up; a name of 63 bytes is accepted and kept;
and the claim at the configuration `sample_config`, which is accepted. -/
theorem C26_init_validation_witness :
    ((fun (r : InitRes Unit) => (r.ret, r.dev_init_called, r.session.isSome))
        (sr_init (services_dev_init silent_fabric sample_bringup) () true
          (some [109, 108, 120, 53]) (-1) true (some sample_config) 7) = (-22, false, false) ∧
      (fun (r : InitRes Unit) => (r.ret, r.dev_init_called, r.session.isSome))
        (sr_init (services_dev_init silent_fabric sample_bringup) () true
          (some [109, 108, 120, 53]) 1 true
          (some { sample_config with service_name := some (List.replicate 64 97) }) 7) =
        (-22, false, false) ∧
      (fun (r : InitRes Unit) => (r.ret, r.dev_init_called, r.session.isSome))
        (sr_init (services_dev_init silent_fabric sample_bringup) () true
          (some [109, 108, 120, 53]) 1 true (some { sample_config with mad_send_type := 3 }) 7) =
        (-22, false, false) ∧
      (fun (r : InitRes Unit) => (r.ret, r.dev_init_called, r.session.map (fun s => s.1.service_name)))
        (sr_init (services_dev_init silent_fabric sample_bringup) () true
          (some [109, 108, 120, 53]) 1 true
          (some { sample_config with service_name := some (List.replicate 63 97) }) 7) =
        (0, true, some (List.replicate 63 97))) ∧
    (sr_init (services_dev_init silent_fabric sample_bringup) () true (some [109, 108, 120, 53]) 1
      true (some sample_config) 7).ret = 0 ∧
    ∃ ctx st, (sr_init (services_dev_init silent_fabric sample_bringup) () true
        (some [109, 108, 120, 53]) 1 true (some sample_config) 7).session = some (ctx, st) ∧
      (∀ c n, some sample_config = some c → c.service_name = some n →
        n.length ≤ 63 ∧ ctx.service_name = n) ∧
      ctx.service_name.length < 64 :=
  ⟨⟨by decide, by decide, by decide, by decide⟩, by decide,
    (C26_init_validation (services_dev_init silent_fabric sample_bringup) () true
      (some [109, 108, 120, 53]) 1 true (some sample_config) 7).2 (by decide)⟩

end ServiceRecord
